import Mathlib

/-!
The package go-logs/logs: the backends, the handle `Logs` and the connection
resolver.

A shallow embedding of the syslog backend (`sys.go`), the connection resolver
(`url.go`), the GELF backend (`gelf.go`: settings check, `build`, time stamp,
`Close`), the parts the backends `Text`, `JSON` and `FMT` share with them
(`text.go`, `json.go`, `fmt.go`), the handle `Logs` and the shared constants
and checks (`interface.go`, `new.go`).

Conventions of the embedding:

* a Go `string` is a Lean `String`; `len(s)` is `String.utf8ByteSize`;
* a Go `int` is an `Int`; a `syslog.Priority` is a `Nat`, since every priority
  the package forms is a table constant, `fInt << 3` with `0 ≤ fInt ≤ 23`, or
  the result of masking;
* a pointer that may be `nil` is an `Option`; dereferencing `none` is the
  outcome `Outcome.fault`;
* a function that mutates its pointer argument returns the new value;
* where the source slices a string by bytes the embedding keeps the list of
  bytes (`goBytes`), and a rendered syslog message is the list of its bytes;
* a Go map is the list of its entries; a `float64` is the rational it denotes,
  and a conversion or division rounds to the nearest `float64` (`float64`);
* the operating system, the clock, the network and the Go standard library
  are parameters (`Env`, `Net`, `GoLib`).
-/

namespace Logs

/-! ## Outcomes -/

/-- Result of a call: a value, a returned `error`, or a run-time fault
(nil dereference, index out of range). -/
inductive Outcome (α : Type) where
  | ok (a : α)
  | err (msg : String)
  | fault
  deriving DecidableEq, Repr

/-- Go slice indexing `xs[i]`: `none` stands for the index-out-of-range fault. -/
def index {α : Type} (xs : List α) (i : Int) : Option α :=
  if 0 ≤ i then xs.get? i.toNat else none

/-! ## Constants of `interface.go` -/

def PANIC_LEVEL : Int := 0
def FATAL_LEVEL : Int := 1
def ERROR_LEVEL : Int := 2
def WARN_LEVEL : Int := 3
def INFO_LEVEL : Int := 4
def DEBUG_LEVEL : Int := 5
def TRACE_LEVEL : Int := 6
def PRINT_LEVEL : Int := 7
def META_LEVEL : Int := 8

def EMPTY_STRING : String := ""

def TIME_FORMAT_RFC3339 : String := "2006-01-02T15:04:05Z07:00"
def TIME_FORMAT_RFC3339_MILLI : String := "2006-01-02T15:04:05.999Z07:00"
def TIME_FORMAT_RFC3339_MICRO : String := "2006-01-02T15:04:05.999999Z07:00"
def TIME_FORMAT_STAMP : String := "Jan _2 15:04:05"
def TIME_FORMAT_STAMP_MILLI : String := "Jan _2 15:04:05.000"
def TIME_FORMAT_STAMP_MICRO : String := "Jan _2 15:04:05.000000"

def TIME_STAMP_LEVEL_DEFAULT : Int := 0
def TIME_STAMP_LEVEL_MILLI : Int := 1
def TIME_STAMP_LEVEL_MICRO : Int := 2
def TIME_STAMP_LEVEL_NANO : Int := 3

/-- The validator `IsLevel` of `interface.go`. -/
def IsLevel (l : Int) : Bool := decide (PANIC_LEVEL ≤ l) && decide (l ≤ TRACE_LEVEL)

/-- The validator `IsTimeStampLevel` of `interface.go`. -/
def IsTimeStampLevel (l : Int) : Bool :=
  decide (TIME_STAMP_LEVEL_DEFAULT ≤ l) && decide (l ≤ TIME_STAMP_LEVEL_NANO)

/-! ## Tables of `new.go` -/

def levelNames : List String :=
  ["panic", "fatal", "error", "warn", "info", "debug", "trace", "print"]

def timeStampLevelNames : List String := ["default", "milli", "micro", "nano"]

/-- Loop of `sliceIndex`, started at position `i`. -/
def sliceIndexFrom (x : String) : List String → Int → Int
  | [], _ => -1
  | y :: ys, i => if y = x then i else sliceIndexFrom x ys (i + 1)

/-- The function `sliceIndex` of `new.go`: first position of `x`, or `-1`. -/
def sliceIndex (s : List String) (x : String) : Int := sliceIndexFrom x s 0

/-- The Go standard library functions on strings that the package calls. -/
structure GoLib where
  /-- Result of `strings.ToLower`. -/
  ToLower : String → String
  /-- Result of `strings.TrimSpace`. -/
  TrimSpace : String → String

/-- The function `isName` of `new.go`. -/
def isName (lib : GoLib) (l : List String) (s : String) : Bool :=
  l.any (fun n => decide (s = n) || decide (lib.ToLower s = n))

/-- The validator `IsTimeStampLevelName` of `interface.go`. -/
def IsTimeStampLevelName (lib : GoLib) (l : String) : Bool :=
  isName lib timeStampLevelNames l

/-! ## `strconv.Atoi` -/

/-- Value of one decimal digit byte. -/
def digitVal (c : Char) : Option Nat :=
  if '0' ≤ c ∧ c ≤ '9' then some (c.toNat - '0'.toNat) else none

/-- Value of a run of decimal digits, read left to right from the accumulator. -/
def digitsVal : List Char → Nat → Option Nat
  | [], acc => some acc
  | c :: cs, acc =>
    match digitVal c with
    | some d => digitsVal cs (acc * 10 + d)
    | none => none

/-- The two errors of `strconv.Atoi`. -/
inductive AtoiErr where
  | syntaxErr
  | rangeErr
  deriving DecidableEq, Repr

/-- Magnitude and sign to the pair `strconv.Atoi` returns on a 64-bit `int`:
out of range values are clamped and reported as a range error. -/
def atoiClamp (neg : Bool) (n : Nat) : Int × Option AtoiErr :=
  if neg then
    if n ≤ 2 ^ 63 then (-(n : Int), none) else (-(2 ^ 63 : Int), some .rangeErr)
  else
    if n < 2 ^ 63 then ((n : Int), none) else ((2 ^ 63 - 1 : Int), some .rangeErr)

/-- Digits after the optional sign: at least one digit, digits only. -/
def atoiDigits (neg : Bool) (ds : List Char) : Int × Option AtoiErr :=
  match ds with
  | [] => (0, some .syntaxErr)
  | _ :: _ =>
    match digitsVal ds 0 with
    | some n => atoiClamp neg n
    | none => (0, some .syntaxErr)

/-- Go `strconv.Atoi`: an optional sign followed by decimal digits. The second
component is the error (`none` for `nil`). -/
def Atoi (s : String) : Int × Option AtoiErr :=
  match s.data with
  | [] => (0, some .syntaxErr)
  | c :: cs =>
    if c = '-' then atoiDigits true cs
    else if c = '+' then atoiDigits false cs
    else atoiDigits false (c :: cs)

/-! ## Constants of the syslog client package -/

/-- Modelled from the spec: the severity constants of the syslog client
package `bctrader/logs/syslog`, the eight syslog severities emerg..debug. -/
def LOG_EMERG : Nat := 0
/-- Modelled from the spec: syslog severity alert. -/
def LOG_ALERT : Nat := 1
/-- Modelled from the spec: syslog severity crit. -/
def LOG_CRIT : Nat := 2
/-- Modelled from the spec: syslog severity err. -/
def LOG_ERR : Nat := 3
/-- Modelled from the spec: syslog severity warning. -/
def LOG_WARNING : Nat := 4
/-- Modelled from the spec: syslog severity notice. -/
def LOG_NOTICE : Nat := 5
/-- Modelled from the spec: syslog severity info. -/
def LOG_INFO : Nat := 6
/-- Modelled from the spec: syslog severity debug. -/
def LOG_DEBUG : Nat := 7

/-- Modelled from the spec: the facility constants of the syslog client
package, facility number shifted left by three bits. -/
def LOG_KERN : Nat := 0 <<< 3
def LOG_USER : Nat := 1 <<< 3
def LOG_MAIL : Nat := 2 <<< 3
def LOG_DAEMON : Nat := 3 <<< 3
def LOG_AUTH : Nat := 4 <<< 3
def LOG_SYSLOG : Nat := 5 <<< 3
def LOG_LPR : Nat := 6 <<< 3
def LOG_NEWS : Nat := 7 <<< 3
def LOG_UUCP : Nat := 8 <<< 3
def LOG_CRON : Nat := 9 <<< 3
def LOG_AUTHPRIV : Nat := 10 <<< 3
def LOG_FTP : Nat := 11 <<< 3
def LOG_LOCAL0 : Nat := 16 <<< 3
def LOG_LOCAL1 : Nat := 17 <<< 3
def LOG_LOCAL2 : Nat := 18 <<< 3
def LOG_LOCAL3 : Nat := 19 <<< 3
def LOG_LOCAL4 : Nat := 20 <<< 3
def LOG_LOCAL5 : Nat := 21 <<< 3
def LOG_LOCAL6 : Nat := 22 <<< 3
def LOG_LOCAL7 : Nat := 23 <<< 3

/-- Modelled from the spec: the mask of the facility field of a priority
(`syslog.FACILITY_MASK`). -/
def FACILITY_MASK : Nat := 0xf8

/-- Modelled from the spec: the mask of the severity field of a priority
(`syslog.SEVERITY_MASK`). -/
def SEVERITY_MASK : Nat := 0x07

/-! ## `sys.go`: tables, facility, framer -/

def SYS_FORMAT_UNIX : String := "unix"
def SYS_FORMAT_RFC3164 : String := "rfc3164"
def SYS_FORMAT_RFC5424 : String := "rfc5424"

def SYS_FORMATTER_RFC5424_NAME_MAX_LENGTH : Nat := 48

def URL_SCHEME_UDP : String := "udp"
def URL_SCHEME_TCP : String := "tcp"
def URL_SCHEME_TCP_TLS : String := "tcp+tls"
def URL_SCHEME_UNIX : String := "unix"
def URL_SCHEME_UNIXGRAM : String := "unixgram"

/-- The map `sysFacilities`, as its list of entries; the keys are distinct. -/
def sysFacilities : List (String × Nat) :=
  [("kern", LOG_KERN), ("user", LOG_USER), ("mail", LOG_MAIL), ("daemon", LOG_DAEMON),
   ("auth", LOG_AUTH), ("syslog", LOG_SYSLOG), ("lpr", LOG_LPR), ("news", LOG_NEWS),
   ("uucp", LOG_UUCP), ("cron", LOG_CRON), ("authpriv", LOG_AUTHPRIV), ("ftp", LOG_FTP),
   ("local0", LOG_LOCAL0), ("local1", LOG_LOCAL1), ("local2", LOG_LOCAL2),
   ("local3", LOG_LOCAL3), ("local4", LOG_LOCAL4), ("local5", LOG_LOCAL5),
   ("local6", LOG_LOCAL6), ("local7", LOG_LOCAL7)]

/-- Map lookup `sysFacilities[f]` with the `ok` flag: `none` for a missing key. -/
def sysFacilitiesGet (f : String) : Option Nat := sysFacilities.lookup f

/-- The slice `sysLevels`. -/
def sysLevels : List Nat :=
  [LOG_EMERG, LOG_CRIT, LOG_ERR, LOG_WARNING, LOG_INFO, LOG_DEBUG, LOG_NOTICE, LOG_ALERT]

/-- The slice `gelfLevels` of `gelf.go`; the GELF client package uses the
syslog severities under the same names. -/
def gelfLevels : List Nat :=
  [LOG_EMERG, LOG_CRIT, LOG_ERR, LOG_WARNING, LOG_INFO, LOG_DEBUG, LOG_NOTICE, LOG_ALERT]

/-- The function `sysFacility`. -/
def sysFacility (f : String) : Outcome Nat :=
  if f = EMPTY_STRING then .ok LOG_DAEMON
  else
    match sysFacilitiesGet f with
    | some syslogFacility => .ok syslogFacility
    | none =>
      let r := Atoi f
      if r.2 = none ∧ 0 ≤ r.1 ∧ r.1 ≤ 23 then .ok (r.1.toNat <<< 3)
      else .err "Invalid syslog facility"

/-- The function `sysFramerDefault`. -/
def sysFramerDefault (s : String) : String := s

/-- The function `sysFramerRFC5425`: `Sprintf("%d %s", len(s), s)`. -/
def sysFramerRFC5425 (s : String) : String :=
  toString s.utf8ByteSize ++ " " ++ s

/-- The two framer functions, as values: a `syslog.Framer` is one of these. -/
inductive SysFramer where
  | Default
  | RFC5425
  deriving DecidableEq, Repr

/-- Calling a framer value. -/
def SysFramer.call (f : SysFramer) (s : String) : String :=
  match f with
  | .Default => sysFramerDefault s
  | .RFC5425 => sysFramerRFC5425 s

/-- The function `sysFramer`. -/
def sysFramer (scheme : String) : SysFramer :=
  if scheme = URL_SCHEME_TCP_TLS then .RFC5425 else .Default

/-! ## `sys.go`: message formatters -/

/-- Value of a structured-data parameter (`interface` value in the source). -/
inductive ParamValue where
  | int (i : Int)
  | str (s : String)
  deriving DecidableEq, Repr

/-- Modelled from the spec: the type `syslog.RFC3164Header` of the syslog
client package, with the fields the source sets. -/
structure RFC3164Header where
  Hostname : String
  Tag : String
  TimestampIsUTC : Bool
  deriving DecidableEq, Repr

/-- Modelled from the spec: the type `syslog.RFC3164` of the syslog client
package, with the fields the source sets. -/
structure RFC3164 where
  Facility : Nat
  Header : RFC3164Header
  deriving DecidableEq, Repr

/-- Modelled from the spec: the type `syslog.RFC5424Header` of the syslog
client package, with the fields the source sets. -/
structure RFC5424Header where
  Hostname : String
  AppName : String
  MessageID : String
  TimestampIsUTC : Bool
  TimestampLevel : String
  deriving DecidableEq, Repr

/-- Modelled from the spec: the type `syslog.RFC5424Data`, one named group of
structured-data parameters. -/
structure RFC5424Data where
  ID : String
  Params : List (String × ParamValue)
  deriving DecidableEq, Repr

/-- Modelled from the spec: the type `syslog.RFC5424` of the syslog client
package, with the fields the source sets. -/
structure RFC5424 where
  Facility : Nat
  Header : RFC5424Header
  StructuredData : List RFC5424Data
  StructuredDataIDs : List String
  deriving DecidableEq, Repr

/-- The process, the clock and the two renderers of the syslog client package
that the formatters call. -/
structure Env where
  /-- Rendering of `time.Now()` (local for `false`, `.UTC()` for `true`) by
  `Format` with the given layout. -/
  now : Bool → String → String
  /-- Result of `os.Getpid()`. -/
  pid : Nat
  /-- Value of `os.Args[0]`. -/
  arg0 : String
  /-- Method `(*syslog.RFC3164).String`, not under src. -/
  rfc3164String : RFC3164 → Nat → String → String
  /-- Method `(*syslog.RFC5424).String`, not under src. -/
  rfc5424String : RFC5424 → Nat → String → String

/-- The UTF-8 encoding of a character, as the list of its bytes. -/
def charBytes (c : Char) : List Nat :=
  let n := c.toNat
  if n < 0x80 then [n]
  else if n < 0x800 then [0xC0 + n / 0x40, 0x80 + n % 0x40]
  else if n < 0x10000 then [0xE0 + n / 0x1000, 0x80 + n / 0x40 % 0x40, 0x80 + n % 0x40]
  else [0xF0 + n / 0x40000, 0x80 + n / 0x1000 % 0x40, 0x80 + n / 0x40 % 0x40, 0x80 + n % 0x40]

/-- The bytes of a Go string given as a Lean string. A Go string is a sequence
of bytes, and a slice of it may cut a character; where the source slices a
string, the embedding keeps the bytes. -/
def goBytes (s : String) : List Nat := (s.data.map charBytes).flatten

/-- `Sprintf` with the template `__SYS_FORMATTER_UNIX_STRING`, `<%d>%s %s[%d]: %s`. -/
def sprintfUnix (p : Nat) (ts tag : String) (pid : Nat) (content : String) : String :=
  "<" ++ toString p ++ ">" ++ ts ++ " " ++ tag ++ "[" ++ toString pid ++ "]: " ++ content

/-- `Sprintf` with the template `__SYS_FORMATTER_RFC3164_STRING`,
`<%d>%s %s %s[%d]: %s`. -/
def sprintfRFC3164 (p : Nat) (ts a b : String) (pid : Nat) (content : String) : String :=
  "<" ++ toString p ++ ">" ++ ts ++ " " ++ a ++ " " ++ b ++ "[" ++ toString pid ++ "]: "
    ++ content

/-- `Sprintf` with the template `__SYS_FORMATTER_RFC5424_STRING`,
`<%d>%d %s %s %s %d %s - %s`; the third string, the application name, is given
by its bytes, which `%s` copies. -/
def sprintfRFC5424 (p v : Nat) (ts a : String) (b : List Nat) (pid : Nat) (c m : String) :
    List Nat :=
  goBytes ("<" ++ toString p ++ ">" ++ toString v ++ " " ++ ts ++ " " ++ a ++ " ") ++ b
    ++ goBytes (" " ++ toString pid ++ " " ++ c ++ " - " ++ m)

def sysFormatterUnixTime (env : Env) (p : Nat) (_hostname _appName tag content : String) :
    String :=
  sprintfUnix p (env.now false TIME_FORMAT_STAMP) tag env.pid content

def sysFormatterUnixTimeUTC (env : Env) (p : Nat) (_hostname _appName tag content : String) :
    String :=
  sprintfUnix p (env.now true TIME_FORMAT_STAMP) tag env.pid content

def sysFormatterUnixTimeMilli (env : Env) (p : Nat) (_hostname _appName tag content : String) :
    String :=
  sprintfUnix p (env.now false TIME_FORMAT_STAMP_MILLI) tag env.pid content

def sysFormatterUnixTimeUTCMilli (env : Env) (p : Nat)
    (_hostname _appName tag content : String) : String :=
  sprintfUnix p (env.now true TIME_FORMAT_STAMP_MILLI) tag env.pid content

def sysFormatterUnixTimeMicro (env : Env) (p : Nat) (_hostname _appName tag content : String) :
    String :=
  sprintfUnix p (env.now false TIME_FORMAT_STAMP_MICRO) tag env.pid content

def sysFormatterUnixTimeUTCMicro (env : Env) (p : Nat)
    (_hostname _appName tag content : String) : String :=
  sprintfUnix p (env.now true TIME_FORMAT_STAMP_MICRO) tag env.pid content

def sysFormatterRFC3164Time (env : Env) (p : Nat) (hostname _appName tag content : String) :
    String :=
  sprintfRFC3164 p (env.now false TIME_FORMAT_STAMP) hostname tag env.pid content

def sysFormatterRFC3164TimeUTC (env : Env) (p : Nat) (hostname _appName tag content : String) :
    String :=
  sprintfRFC3164 p (env.now true TIME_FORMAT_STAMP) hostname tag env.pid content

def sysFormatterRFC3164TimeMilli (env : Env) (p : Nat) (hostname _appName tag content : String) :
    String :=
  sprintfRFC3164 p (env.now false TIME_FORMAT_STAMP_MILLI) hostname tag env.pid content

def sysFormatterRFC3164TimeUTCMilli (env : Env) (p : Nat)
    (hostname _appName tag content : String) : String :=
  sprintfRFC3164 p (env.now true TIME_FORMAT_STAMP_MILLI) hostname tag env.pid content

/-- The record `sysFormatterRFC3164TimeMicro` builds for the client package. -/
def rfc3164MicroRecord (hostname tag : String) : RFC3164 :=
  { Facility := LOG_DAEMON,
    Header := { Hostname := hostname, Tag := tag, TimestampIsUTC := true } }

def sysFormatterRFC3164TimeMicro (env : Env) (p : Nat) (hostname _appName tag content : String) :
    String :=
  env.rfc3164String (rfc3164MicroRecord hostname tag) p content

def sysFormatterRFC3164TimeUTCMicro (env : Env) (p : Nat)
    (hostname _appName tag content : String) : String :=
  sprintfRFC3164 p (env.now true TIME_FORMAT_STAMP_MICRO) hostname tag env.pid content

/-- The function `truncateStartStr`, on the bytes of its argument: the slice
`s[len(s)-48:]` when `len(s)` exceeds 48. -/
def truncateStartStr (s : List Nat) : List Nat :=
  if s.length > SYS_FORMATTER_RFC5424_NAME_MAX_LENGTH then
    s.drop (s.length - SYS_FORMATTER_RFC5424_NAME_MAX_LENGTH)
  else s

/-- The function `sysAppName`; the result is given by its bytes. -/
def sysAppName (env : Env) (an : String) : List Nat :=
  if an = EMPTY_STRING then truncateStartStr (goBytes env.arg0) else goBytes an

def sysFormatterRFC5424Time (env : Env) (p : Nat) (hostname appName tag m : String) : List Nat :=
  sprintfRFC5424 p 1 (env.now false TIME_FORMAT_RFC3339) hostname (sysAppName env appName)
    env.pid tag m

def sysFormatterRFC5424TimeUTC (env : Env) (p : Nat) (hostname appName tag m : String) :
    List Nat :=
  sprintfRFC5424 p 1 (env.now true TIME_FORMAT_RFC3339) hostname (sysAppName env appName)
    env.pid tag m

def sysFormatterRFC5424TimeMilli (env : Env) (p : Nat) (hostname appName tag m : String) :
    List Nat :=
  sprintfRFC5424 p 1 (env.now false TIME_FORMAT_RFC3339_MILLI) hostname
    (sysAppName env appName) env.pid tag m

def sysFormatterRFC5424TimeUTCMilli (env : Env) (p : Nat) (hostname appName tag m : String) :
    List Nat :=
  sprintfRFC5424 p 1 (env.now true TIME_FORMAT_RFC3339_MILLI) hostname
    (sysAppName env appName) env.pid tag m

/-- The record `sysFormatterRFC5424TimeMicro` builds for the client package. -/
def rfc5424MicroRecord (hostname appName tag : String) : RFC5424 :=
  { Facility := LOG_DAEMON,
    Header := { Hostname := hostname, AppName := appName, MessageID := tag,
                TimestampIsUTC := true, TimestampLevel := "micro" },
    StructuredData :=
      [{ ID := "test", Params := [("aarg1", .int 123), ("arg2", .str "ssssss")] }],
    StructuredDataIDs := [] }

def sysFormatterRFC5424TimeMicro (env : Env) (p : Nat) (hostname appName tag m : String) :
    String :=
  env.rfc5424String (rfc5424MicroRecord hostname appName tag) p m

def sysFormatterRFC5424TimeUTCMicro (env : Env) (p : Nat) (hostname appName tag m : String) :
    List Nat :=
  sprintfRFC5424 p 1 (env.now true TIME_FORMAT_RFC3339_MICRO) hostname
    (sysAppName env appName) env.pid tag m

/-- The eighteen formatter functions, as values: a `syslog.Formatter` is one
of these. -/
inductive SysFormatter where
  | UnixTime | UnixTimeUTC | UnixTimeMilli | UnixTimeUTCMilli | UnixTimeMicro
  | UnixTimeUTCMicro
  | RFC3164Time | RFC3164TimeUTC | RFC3164TimeMilli | RFC3164TimeUTCMilli | RFC3164TimeMicro
  | RFC3164TimeUTCMicro
  | RFC5424Time | RFC5424TimeUTC | RFC5424TimeMilli | RFC5424TimeUTCMilli | RFC5424TimeMicro
  | RFC5424TimeUTCMicro
  deriving DecidableEq, Repr

/-- Calling a formatter value; the message is given by its bytes. -/
def SysFormatter.call (f : SysFormatter) (env : Env) (p : Nat)
    (hostname appName tag content : String) : List Nat :=
  match f with
  | .UnixTime => goBytes (sysFormatterUnixTime env p hostname appName tag content)
  | .UnixTimeUTC => goBytes (sysFormatterUnixTimeUTC env p hostname appName tag content)
  | .UnixTimeMilli => goBytes (sysFormatterUnixTimeMilli env p hostname appName tag content)
  | .UnixTimeUTCMilli => goBytes (sysFormatterUnixTimeUTCMilli env p hostname appName tag content)
  | .UnixTimeMicro => goBytes (sysFormatterUnixTimeMicro env p hostname appName tag content)
  | .UnixTimeUTCMicro => goBytes (sysFormatterUnixTimeUTCMicro env p hostname appName tag content)
  | .RFC3164Time => goBytes (sysFormatterRFC3164Time env p hostname appName tag content)
  | .RFC3164TimeUTC => goBytes (sysFormatterRFC3164TimeUTC env p hostname appName tag content)
  | .RFC3164TimeMilli => goBytes (sysFormatterRFC3164TimeMilli env p hostname appName tag content)
  | .RFC3164TimeUTCMilli =>
    goBytes (sysFormatterRFC3164TimeUTCMilli env p hostname appName tag content)
  | .RFC3164TimeMicro => goBytes (sysFormatterRFC3164TimeMicro env p hostname appName tag content)
  | .RFC3164TimeUTCMicro =>
    goBytes (sysFormatterRFC3164TimeUTCMicro env p hostname appName tag content)
  | .RFC5424Time => sysFormatterRFC5424Time env p hostname appName tag content
  | .RFC5424TimeUTC => sysFormatterRFC5424TimeUTC env p hostname appName tag content
  | .RFC5424TimeMilli => sysFormatterRFC5424TimeMilli env p hostname appName tag content
  | .RFC5424TimeUTCMilli => sysFormatterRFC5424TimeUTCMilli env p hostname appName tag content
  | .RFC5424TimeMicro => goBytes (sysFormatterRFC5424TimeMicro env p hostname appName tag content)
  | .RFC5424TimeUTCMicro => sysFormatterRFC5424TimeUTCMicro env p hostname appName tag content

/-! ## `url.go`: the connection resolver -/

def URL_PORT_MIN : Int := 1
def URL_PORT_MAX : Int := 65535
def URL_HEAD_SEPARATOR : String := "://"
def URL_PORT_SEPARATOR : String := ":"

/-- The type `Connection` of `interface.go`. -/
structure Connection where
  URL : String := ""
  Scheme : String := ""
  Address : String := ""
  Host : String := ""
  Port : Int := 0
  SocketPath : String := ""
  Timeout : Int := 0
  WriteTimeout : Int := 0
  RetryWait : Int := 0
  MaxRetry : Int := 0
  MaxRetryWait : Int := 0
  BufferLimit : Int := 0
  IsAsync : Bool := false
  deriving DecidableEq, Repr

/-- The slice `schemes`. -/
def schemes : List String :=
  [URL_SCHEME_UDP, URL_SCHEME_TCP, URL_SCHEME_TCP_TLS, URL_SCHEME_UNIX, URL_SCHEME_UNIXGRAM]

/-- The entry `prefixes[URL_TYPE_SOCKET]`. -/
def socketPrefixes : List String :=
  ["udp://", "tcp://", "tcp+tls://", "unix://", "unixgram://"]

/-- Go `strings.HasPrefix`. -/
def HasPrefix (s p : String) : Bool := p.data.isPrefixOf s.data

/-- Go `strings.Contains`. -/
def Contains (s sub : String) : Bool := s.data.tails.any (fun t => sub.data.isPrefixOf t)

/-- The function `isURL`. -/
def isURL (s : String) (p : List String) : Bool := p.any (fun x => HasPrefix s x)

/-- The function `IsScheme`. -/
def IsScheme (s : String) : Bool := schemes.any (fun x => decide (s = x))

/-- The function `IsSocket`. -/
def IsSocket (s : String) : Bool := isURL s socketPrefixes

/-- The fields of a parsed `url.URL` that the package reads. -/
structure ParsedURL where
  Scheme : String
  Host : String
  Path : String
  deriving DecidableEq, Repr

/-- The network, the file system and the Go library calls of the resolver and
of the writer. An error is `some msg`, `nil` is `none`. -/
structure Net where
  /-- Go `url.Parse`. -/
  urlParse : String → Outcome ParsedURL
  /-- Go `net.SplitHostPort`: host, port and error. -/
  splitHostPort : String → String × String × Option String
  /-- Error of `os.Stat`. -/
  stat : String → Option String
  /-- Result of `os.Hostname`. -/
  hostname : String × Option String
  /-- Error of `syslog.Dial(network, raddr, priority, tag)`. -/
  dial : String → String → Nat → String → Option String
  /-- Error of `syslog.DialWithTLSConfig(network, raddr, priority, tag, config)`. -/
  dialTLS : String → String → Nat → String → Option String
  /-- Error of `tlsconfig.Client` on the three files, the passphrase and the
  insecure flag. -/
  tlsClient : String → String → String → String → Bool → Option String
  /-- Position, in the list `sysFacilities`, of the entry a `range` over the
  map yields first; Go leaves the order unspecified. -/
  rangeFirst : Fin 20

/-- The function `SocketAddressBuild`. -/
def SocketAddressBuild (c : Connection) : String :=
  c.Host ++ URL_PORT_SEPARATOR ++ toString c.Port

/-- The function `SocketURLBuild`. -/
def SocketURLBuild (c : Connection) : String :=
  if c.Address = EMPTY_STRING then
    c.Scheme ++ URL_HEAD_SEPARATOR ++ c.Host ++ URL_PORT_SEPARATOR ++ toString c.Port
  else
    c.Scheme ++ URL_HEAD_SEPARATOR ++ c.Address

/-- The function `SocketURL`: the connection after the call and the error. -/
def SocketURL (net : Net) (c : Connection) (udpPort tcpPort : Int) :
    Connection × Option String :=
  if !IsSocket c.URL then
    (c, some ("Socket address should be in form scheme://address, got " ++ c.URL))
  else
    match net.urlParse c.URL with
    | .fault => (c, some "fault")
    | .err e => (c, some e)
    | .ok sUrl =>
      let c1 := { c with Scheme := sUrl.Scheme }
      if sUrl.Scheme = URL_SCHEME_UNIX ∨ sUrl.Scheme = URL_SCHEME_UNIXGRAM then
        match net.stat sUrl.Path with
        | some e => (c1, some e)
        | none => ({ c1 with SocketPath := sUrl.Path }, none)
      else if sUrl.Scheme = URL_SCHEME_UDP ∨ sUrl.Scheme = URL_SCHEME_TCP
          ∨ sUrl.Scheme = URL_SCHEME_TCP_TLS then
        let r := net.splitHostPort sUrl.Host
        let host := r.1
        let port := r.2.1
        match r.2.2 with
        | some e =>
          if Contains e "missing port in address" then
            let c2 := { c1 with Port := if sUrl.Scheme = URL_SCHEME_UDP then udpPort else tcpPort }
            let c3 := { c2 with Host := host }
            let c4 := { c3 with Address := SocketAddressBuild c3 }
            ({ c4 with URL := SocketURLBuild c4 }, none)
          else
            (c1, some "Please provide socket address as scheme://host:port")
        | none =>
          let c2 := { c1 with Port := (Atoi port).1 }
          let c3 := { c2 with Host := host }
          let c4 := { c3 with Address := SocketAddressBuild c3 }
          ({ c4 with URL := SocketURLBuild c4 }, none)
      else
        (c1, none)

/-- The function `SocketScheme`. -/
def SocketScheme (c : Connection) : Option String :=
  if !IsScheme c.Scheme then
    some ("Scheme should be udp, tcp, tcp+tls, unix, unixgram, got " ++ c.Scheme)
  else none

/-- The function `SocketAddress`: the connection after the call and the error. -/
def SocketAddress (c : Connection) (_udpPort _tcpPort : Int) : Connection × Option String :=
  if c.Host = EMPTY_STRING then (c, some "Host should be defined")
  else if c.Port < URL_PORT_MIN ∧ c.Port > URL_PORT_MAX then
    (c, some "Port should be more 0 and less 65536")
  else ({ c with Address := SocketAddressBuild c }, none)

/-- The function `SocketConnection`: the connection after the call and the error. -/
def SocketConnection (net : Net) (c : Connection) (udpPort tcpPort : Int) :
    Connection × Option String :=
  if c.URL = EMPTY_STRING then
    match SocketScheme c with
    | some e => (c, some e)
    | none =>
      let r : Connection × Option String :=
        if c.Address = EMPTY_STRING then SocketAddress c udpPort tcpPort
        else (c, (net.splitHostPort c.Address).2.2)
      match r.2 with
      | some e => (r.1, some e)
      | none => ({ r.1 with URL := SocketURLBuild r.1 }, none)
  else
    SocketURL net c udpPort tcpPort

/-! ## `sys.go`: settings, formatter selection, writer -/

def SYS_DEFAULT_PORT_UDP : Int := 514
def SYS_DEFAULT_PORT_TCP : Int := 6514

/-- The type `TCPTLSFiles` of `interface.go`. -/
structure TCPTLSFiles where
  RootCACrt : String := ""
  ClientCrt : String := ""
  ClientKey : String := ""
  deriving DecidableEq, Repr

/-- The type `TCPTLS` of `interface.go`. -/
structure TCPTLS where
  Files : Option TCPTLSFiles := none
  Passphrase : String := ""
  IsInsecure : Bool := false
  deriving DecidableEq, Repr

/-- The type `SysTCP`. -/
structure SysTCP where
  TLS : Option TCPTLS := none
  deriving DecidableEq, Repr

/-- The type `SysTime`. -/
structure SysTime where
  IsUTC : Bool := false
  Level : Int := 0
  deriving DecidableEq, Repr

/-- The type `SysSettings`. -/
structure SysSettings where
  Connection : Option Connection := none
  Hostname : String := ""
  Facility : String := ""
  AppName : String := ""
  Format : String := ""
  Tag : String := ""
  TCP : Option SysTCP := none
  Time : Option SysTime := none
  deriving DecidableEq, Repr

/-- The switch on `s.Time.Level` and `s.Time.IsUTC` shared by the three
selectors: the value for micro and nano, for milli, and for the default, each
as the pair (UTC, local). -/
def selectByTime (t : SysTime) (micro milli dflt : SysFormatter × SysFormatter) :
    SysFormatter :=
  if t.Level = TIME_STAMP_LEVEL_MICRO ∨ t.Level = TIME_STAMP_LEVEL_NANO then
    if t.IsUTC then micro.1 else micro.2
  else if t.Level = TIME_STAMP_LEVEL_MILLI then
    if t.IsUTC then milli.1 else milli.2
  else
    if t.IsUTC then dflt.1 else dflt.2

/-- The function `sysFormatterUnix`; `none` is the fault on a nil `s.Time`. -/
def sysFormatterUnix (s : SysSettings) : Option SysFormatter :=
  s.Time.map fun t => selectByTime t (.UnixTimeUTCMicro, .UnixTimeMicro)
    (.UnixTimeUTCMilli, .UnixTimeMilli) (.UnixTimeUTC, .UnixTime)

/-- The function `sysFormatterRFC3164`; `none` is the fault on a nil `s.Time`. -/
def sysFormatterRFC3164 (s : SysSettings) : Option SysFormatter :=
  s.Time.map fun t => selectByTime t (.RFC3164TimeUTCMicro, .RFC3164TimeMicro)
    (.RFC3164TimeUTCMilli, .RFC3164TimeMilli) (.RFC3164TimeUTC, .RFC3164Time)

/-- The function `sysFormatterRFC5424`; `none` is the fault on a nil `s.Time`. -/
def sysFormatterRFC5424 (s : SysSettings) : Option SysFormatter :=
  s.Time.map fun t => selectByTime t (.RFC5424TimeUTCMicro, .RFC5424TimeMicro)
    (.RFC5424TimeUTCMilli, .RFC5424TimeMilli) (.RFC5424TimeUTC, .RFC5424Time)

/-- The function `sysFormatter`. -/
def sysFormatter (s : SysSettings) : Option SysFormatter :=
  if s.Format = SYS_FORMAT_UNIX then sysFormatterUnix s
  else if s.Format = SYS_FORMAT_RFC3164 then sysFormatterRFC3164 s
  else sysFormatterRFC5424 s

/-- The function `sysFormat`: the error, `none` for `nil`. -/
def sysFormat (f : String) : Option String :=
  if f = SYS_FORMAT_UNIX ∨ f = SYS_FORMAT_RFC3164 ∨ f = SYS_FORMAT_RFC5424 ∨ f = EMPTY_STRING
  then none else some "Invalid syslog format"

/-- Modelled from the spec: the type `syslog.Writer` of the syslog client
package, as the arguments of `Dial` and the values installed by
`SetFormatter`, `SetFramer` and `SetAppName`. -/
structure Writer where
  network : String
  raddr : String
  priority : Nat
  tag : String
  formatter : Option SysFormatter := none
  framer : Option SysFramer := none
  appName : String := ""
  deriving DecidableEq, Repr

/-- The function `TCPTLSConfig` of `interface.go`: it reads `t.Files` without
a nil check. -/
def TCPTLSConfig (net : Net) (t : Option TCPTLS) : Outcome Unit :=
  match t with
  | none => .fault
  | some t =>
    match t.Files with
    | none => .fault
    | some f =>
      match net.tlsClient f.RootCACrt f.ClientCrt f.ClientKey t.Passphrase t.IsInsecure with
      | some e => .err e
      | none => .ok ()

/-- An error value, `none` for `nil`, as the outcome of a dial. -/
def dialOutcome (w : Writer) (e : Option String) : Outcome (Option Writer) :=
  match e with
  | some msg => .err msg
  | none => .ok (some w)

/-- The `switch s.Connection.Scheme` of `sysWriter`: the dialled writer, `nil`
for a scheme outside the five cases. -/
def sysWriterDial (net : Net) (s : SysSettings) (c : Connection) (facility : Nat) :
    Outcome (Option Writer) :=
  if c.Scheme = URL_SCHEME_UDP ∨ c.Scheme = URL_SCHEME_TCP then
    dialOutcome { network := c.Scheme, raddr := c.Address, priority := facility, tag := s.Tag }
      (net.dial c.Scheme c.Address facility s.Tag)
  else if c.Scheme = URL_SCHEME_TCP_TLS then
    match s.TCP with
    | none => .fault
    | some tcp =>
      match TCPTLSConfig net tcp.TLS with
      | .fault => .fault
      | .err e => .err e
      | .ok _ =>
        dialOutcome
          { network := c.Scheme, raddr := c.Address, priority := facility, tag := s.Tag }
          (net.dialTLS c.Scheme c.Address facility s.Tag)
  else if c.Scheme = URL_SCHEME_UNIX ∨ c.Scheme = URL_SCHEME_UNIXGRAM then
    dialOutcome
      { network := c.Scheme, raddr := c.SocketPath, priority := facility, tag := s.Tag }
      (net.dial c.Scheme c.SocketPath facility s.Tag)
  else .ok none

/-- The loop `for key, value := range sysFacilities` of `sysWriter`: its body
ends in an unconditional `break`, so it runs for the first entry only. -/
def sysWriterFacilityName (net : Net) (s : SysSettings) (facility : Nat) : SysSettings :=
  let first := sysFacilities.get ⟨net.rangeFirst.val, net.rangeFirst.isLt⟩
  if first.2 = facility then { s with Facility := first.1 } else s

/-- The function `sysWriter`: the settings after the call and the writer. -/
def sysWriter (net : Net) (s : SysSettings) : SysSettings × Outcome Writer :=
  match sysFacility s.Facility with
  | .fault => (s, .fault)
  | .err e => (s, .err e)
  | .ok facility =>
    match s.Connection with
    | none => (s, .fault)
    | some c =>
      match sysWriterDial net s c facility with
      | .fault => (s, .fault)
      | .err e => (s, .err e)
      | .ok w =>
        let s1 := sysWriterFacilityName net s facility
        match sysFormatter s1, w with
        | some fm, some w =>
          (s1, .ok { w with formatter := some fm, framer := some (sysFramer c.Scheme),
                            appName := s1.AppName })
        | _, _ => (s1, .fault)

/-- The function `sysSettingsCheck`: the settings after the call and the error. -/
def sysSettingsCheck (net : Net) (s : SysSettings) : SysSettings × Outcome Unit :=
  match s.Connection with
  | none => (s, .fault)
  | some c =>
    let r := SocketConnection net c SYS_DEFAULT_PORT_UDP SYS_DEFAULT_PORT_TCP
    let s1 := { s with Connection := some r.1 }
    match r.2 with
    | some e => (s1, .err e)
    | none =>
      if s1.Hostname = EMPTY_STRING then
        ({ s1 with Hostname := net.hostname.1 },
          match net.hostname.2 with
          | some e => .err e
          | none => .ok ())
      else (s1, .ok ())

/-! ## `sys.go`: the logger -/

/-- The type `Labels` of `interface.go`. -/
structure Labels where
  Separator : String := ","
  String : String := ""
  deriving DecidableEq, Repr

/-- The type `Time` of `interface.go`. -/
structure Time where
  IsUTC : Bool := false
  IsStamp : Bool := false
  StampLevel : Int := 3
  StampLevelName : String := "nano"
  Format : String := "2006-01-02T15:04:05.999999999Z07:00"
  deriving DecidableEq, Repr

/-- The type `KeysNames` of `interface.go`, with the names `defaultFormatterKeys`
takes from the table `keys` of `new.go` for fields left empty. -/
structure KeysNames where
  Level : String := "level"
  Labels : String := "labels"
  Message : String := "msg"
  Time : String := "time"
  Timestamp : String := "timestamp"
  Environment : String := "env"
  Tag : String := "tag"
  deriving DecidableEq, Repr

/-- The type `Keys` of `interface.go`, after `defaultFormatterKeys`. -/
structure Keys where
  Names : KeysNames := {}
  Prefix : String := ""
  PrefixSeparator : String := ""
  deriving DecidableEq, Repr

/-- The type `Formatter` of `interface.go`, after `defaultFormatter` has
filled its nil fields; of the two output streams only `Stderr.IsPrintable` is
kept, which is all the backends read of them after construction. -/
structure Formatter where
  StderrIsPrintable : Bool := true
  Level : Int := 0
  Labels : Labels := {}
  Time : Time := {}
  Environment : String := ""
  Tag : String := ""
  Keys : Keys := {}
  deriving DecidableEq, Repr

/-- The type `Sys`; `Close` sets the three fields to nil. -/
structure Sys where
  format : Option Formatter
  settings : Option SysSettings
  writer : Option Writer
  deriving DecidableEq, Repr

/-- The two assignments to `format.Keys` in `NewJSON`, `NewFMT`, `NewGELF` and
`NewSys`: an empty prefix and an empty separator get the defaults of the
backend. -/
def defaultKeysPrefix (f : Formatter) (pre sep : String) : Formatter :=
  let k1 : Keys := if f.Keys.Prefix = EMPTY_STRING then { f.Keys with Prefix := pre } else f.Keys
  let k2 : Keys :=
    if k1.PrefixSeparator = EMPTY_STRING then { k1 with PrefixSeparator := sep } else k1
  { f with Keys := k2 }

/-- The function `NewSys`, from the point where `defaultFormatter` has
returned. -/
def NewSys (net : Net) (s : Option SysSettings) (f : Formatter) : Outcome Sys :=
  let settings0 : SysSettings := s.getD {}
  let settings1 : SysSettings :=
    if settings0.TCP = none then { settings0 with TCP := some {} } else settings0
  let settings : SysSettings :=
    if settings1.Time = none then { settings1 with Time := some {} } else settings1
  let format : Formatter :=
    defaultKeysPrefix { f with Time := { f.Time with IsStamp := false } } "fields" "."
  match sysFormat settings.Format with
  | some e => .err e
  | none =>
    match sysSettingsCheck net settings with
    | (_, .fault) => .fault
    | (_, .err e) => .err e
    | (checked, .ok _) =>
      match sysWriter net checked with
      | (_, .fault) => .fault
      | (_, .err e) => .err e
      | (final, .ok w) => .ok { format := some format, settings := some final, writer := some w }

/-- The value `priority` that `build` passes to `WriteWithPriority` at level
`l`: a missing map key reads as zero, an index outside `sysLevels` faults. -/
def Sys.buildPriority (s : Sys) (l : Int) : Outcome Nat :=
  match s.settings, index sysLevels l with
  | some st, some sev =>
    .ok ((((sysFacilitiesGet st.Facility).getD 0) &&& FACILITY_MASK) |||
      (sev &&& SEVERITY_MASK))
  | _, _ => .fault

/-- The method `IsTimeUTC`. -/
def Sys.IsTimeUTC (s : Sys) : Option Bool := s.format.map fun f => f.Time.IsUTC

/-- The method `TimeStampLevel`. -/
def Sys.TimeStampLevel (s : Sys) : Option Int := s.format.map fun f => f.Time.StampLevel

/-- The call `s.writer.SetFormatter(sysFormatter(s.settings))` shared by the
three setters, on a logger whose `format` field is already updated. -/
def Sys.refreshFormatter (f : Formatter) (s : Sys) : Outcome Sys :=
  match s.settings, s.writer with
  | some st, some w =>
    match sysFormatter st with
    | some fm =>
      .ok { format := some f, settings := some st, writer := some { w with formatter := some fm } }
    | none => .fault
  | _, _ => .fault

/-- The method `SetTimeUTC`. -/
def Sys.SetTimeUTC (s : Sys) (u : Bool) : Outcome Sys :=
  match s.format with
  | none => .fault
  | some f => Sys.refreshFormatter { f with Time := { f.Time with IsUTC := u } } s

/-- The method `SetTimeStampLevel`; on the error the logger is as before (the
error record that `Errorv` sends is not part of the state). -/
def Sys.SetTimeStampLevel (s : Sys) (l : Int) : Outcome Sys :=
  match s.format with
  | none => .fault
  | some f =>
    if IsTimeStampLevel l then
      Sys.refreshFormatter { f with Time := { f.Time with StampLevel := l } } s
    else .err "Invalid timestamp level"

/-- The method `SetTimeStampLevelName`: the index of the name is stored in
`s.format.Level`. -/
def Sys.SetTimeStampLevelName (lib : GoLib) (s : Sys) (l : String) : Outcome Sys :=
  match s.format with
  | none => .fault
  | some f =>
    let l1 := lib.ToLower (lib.TrimSpace l)
    if IsTimeStampLevelName lib l1 then
      Sys.refreshFormatter { f with Level := sliceIndex timeStampLevelNames l1 } s
    else .err "Invalid timestamp level name"

/-- The formatter installed in the writer of a logger, `none` when the call
did not return a logger or none is installed. -/
def installedFormatter (o : Outcome Sys) : Option SysFormatter :=
  match o with
  | .ok s => s.writer.bind fun w => w.formatter
  | _ => none

/-- The five RFC 3164 formatters that render with `Sprintf`, each with the
zone (UTC or local) and the layout of its time stamp. -/
def sprintfFormattersRFC3164 : List (SysFormatter × Bool × String) :=
  [(.RFC3164Time, false, TIME_FORMAT_STAMP), (.RFC3164TimeUTC, true, TIME_FORMAT_STAMP),
   (.RFC3164TimeMilli, false, TIME_FORMAT_STAMP_MILLI),
   (.RFC3164TimeUTCMilli, true, TIME_FORMAT_STAMP_MILLI),
   (.RFC3164TimeUTCMicro, true, TIME_FORMAT_STAMP_MICRO)]

/-- The five RFC 5424 formatters that render with `Sprintf`, each with the
zone (UTC or local) and the layout of its time stamp. -/
def sprintfFormattersRFC5424 : List (SysFormatter × Bool × String) :=
  [(.RFC5424Time, false, TIME_FORMAT_RFC3339), (.RFC5424TimeUTC, true, TIME_FORMAT_RFC3339),
   (.RFC5424TimeMilli, false, TIME_FORMAT_RFC3339_MILLI),
   (.RFC5424TimeUTCMilli, true, TIME_FORMAT_RFC3339_MILLI),
   (.RFC5424TimeUTCMicro, true, TIME_FORMAT_RFC3339_MICRO)]

/-! ## Concrete surroundings for the evaluations -/

/-- A process with pid 100 whose clock renders the Go reference time. -/
def exampleEnv : Env where
  now := fun utc layout =>
    if layout = TIME_FORMAT_STAMP then "Jan  2 15:04:05"
    else if layout = TIME_FORMAT_STAMP_MILLI then "Jan  2 15:04:05.000"
    else if layout = TIME_FORMAT_STAMP_MICRO then "Jan  2 15:04:05.000000"
    else if utc then "2006-01-02T15:04:05Z" else "2006-01-02T15:04:05-07:00"
  pid := 100
  arg0 := "logs"
  rfc3164String := fun _ _ content => content
  rfc5424String := fun _ _ content => content

/-- A network on which every dial succeeds; the map iteration starts at the
entry `kern`. -/
def exampleNet : Net where
  urlParse := fun _ => .err "parse"
  splitHostPort := fun _ => ("", "", some "missing port in address")
  stat := fun _ => none
  hostname := ("localhost", none)
  dial := fun _ _ _ _ => none
  dialTLS := fun _ _ _ _ => none
  tlsClient := fun _ _ _ _ _ => none
  rangeFirst := 0

/-- Go `unicode.IsSpace`: the white space of Latin-1 and the space characters
of the other planes. -/
def isGoSpace (c : Char) : Bool :=
  let n := c.toNat
  (9 ≤ n && n ≤ 13) || n = 0x20 || n = 0x85 || n = 0xA0 || n = 0x1680
    || (0x2000 ≤ n && n ≤ 0x200A) || n = 0x2028 || n = 0x2029 || n = 0x202F || n = 0x205F
    || n = 0x3000

/-- The two string functions for the evaluations: `TrimSpace` as in Go,
`ToLower` on the letters of ASCII. -/
def exampleLib : GoLib where
  ToLower := fun s => ⟨s.data.map Char.toLower⟩
  TrimSpace := fun s =>
    ⟨((s.data.dropWhile isGoSpace).reverse.dropWhile isGoSpace).reverse⟩

/-- An application name of 49 bytes. -/
def longAppName : String := ⟨List.replicate 49 'a'⟩

/-- Settings with a UDP connection given by discrete fields. -/
def exampleSettings (facility : String) : SysSettings :=
  { Connection := some { Scheme := "udp", Host := "h", Port := 514 },
    Facility := facility }

end Logs

namespace Logs

/-! ## Go `net.SplitHostPort` -/

/-- Position of the first occurrence of `c`, counted from `i`. -/
def indexByteFrom (c : Char) : List Char → Nat → Option Nat
  | [], _ => none
  | x :: xs, i => if x = c then some i else indexByteFrom c xs (i + 1)

/-- Go `strings.IndexByte`: position of the first occurrence, `none` for -1. -/
def indexByte (s : List Char) (c : Char) : Option Nat := indexByteFrom c s 0

/-- Position of the last occurrence of `c`, counted from `i`. -/
def lastIndexByteFrom (c : Char) : List Char → Nat → Option Nat
  | [], _ => none
  | x :: xs, i =>
    match lastIndexByteFrom c xs (i + 1) with
    | some j => some j
    | none => if x = c then some i else none

/-- Go `strings.LastIndexByte`: position of the last occurrence, `none` for -1. -/
def lastIndexByte (s : List Char) (c : Char) : Option Nat := lastIndexByteFrom c s 0

/-- The result of `addrErr` in `net.SplitHostPort`: empty host and port and an
`AddrError`, whose text is `address ADDR: WHY`, or `WHY` for an empty address. -/
def addrErr (addr why : String) : String × String × Option String :=
  ("", "", some (if addr = "" then why else "address " ++ addr ++ ": " ++ why))

/-- The two closing checks of `net.SplitHostPort`, for brackets after the
positions `j` and `k`, and the result. -/
def splitHostPortTail (hostport : String) (host : List Char) (i j k : Nat) :
    String × String × Option String :=
  if (indexByte (hostport.data.drop j) '[').isSome then
    addrErr hostport "unexpected \x27[\x27 in address"
  else if (indexByte (hostport.data.drop k) ']').isSome then
    addrErr hostport "unexpected \x27]\x27 in address"
  else (⟨host⟩, ⟨hostport.data.drop (i + 1)⟩, none)

/-- Go `net.SplitHostPort`: host, port and error. The port starts after the
last colon; a host in brackets ends at the first closing bracket. -/
def goSplitHostPort (hostport : String) : String × String × Option String :=
  match lastIndexByte hostport.data ':' with
  | none => addrErr hostport "missing port in address"
  | some i =>
    if hostport.data.head? = some '[' then
      match indexByte hostport.data ']' with
      | none => addrErr hostport "missing \x27]\x27 in address"
      | some e =>
        if e + 1 = hostport.data.length then addrErr hostport "missing port in address"
        else if e + 1 = i then
          splitHostPortTail hostport ((hostport.data.take e).drop 1) i 1 (e + 1)
        else if hostport.data.get? (e + 1) = some ':' then
          addrErr hostport "too many colons in address"
        else addrErr hostport "missing port in address"
    else
      if (indexByte (hostport.data.take i) ':').isSome then
        addrErr hostport "too many colons in address"
      else splitHostPortTail hostport (hostport.data.take i) i 0 0

/-- The values of Go `url.Parse` on the URLs of the evaluations: scheme, host
with port, and an empty path. -/
def exampleUrlParse (u : String) : Outcome ParsedURL :=
  if u = "tcp://example.com" then .ok { Scheme := "tcp", Host := "example.com", Path := "" }
  else if u = "udp://h:514" then .ok { Scheme := "udp", Host := "h:514", Path := "" }
  else if u = "udp://::1:514" then .ok { Scheme := "udp", Host := "::1:514", Path := "" }
  else .err "parse"

/-- The network of `exampleNet` with `net.SplitHostPort` as Go computes it and
`url.Parse` as on the URLs of the evaluations. -/
def stdNet : Net :=
  { exampleNet with urlParse := exampleUrlParse, splitHostPort := goSplitHostPort }

/-! ## `interface.go`: the TLS check -/

/-- The function `TCPTLSCheck`: the error, `none` for `nil`. -/
def TCPTLSCheck (t : Option TCPTLS) : Option String :=
  match t with
  | none => some "TLS block must be defined"
  | some t =>
    match t.Files with
    | some files =>
      let err1 : Option String :=
        if files.RootCACrt = EMPTY_STRING then
          some "TLS Files RootCACrt(root_ca_crt) must be defined"
        else none
      let err2 : Option String :=
        if files.ClientCrt = EMPTY_STRING ∧ err1 = none then
          some "TLS Files ClientCrt(client_crt) must be defined"
        else err1
      if files.ClientKey = EMPTY_STRING ∧ err2 = none then
        some "TLS Files ClientKey(client_key) must be defined"
      else err2
    | none => some "TLS Files(files) block must be defined"

/-! ## `gelf.go`: the settings check -/

def GELF_DEFAULT_PORT : Int := 12201
def GELF_UDP_COMPRESSION_TYPE_GZIP : String := "gzip"
def GELF_UDP_COMPRESSION_TYPE_ZLIB : String := "zlib"
def GELF_UDP_COMPRESSION_TYPE_NONE : String := "none"
def GELF_UDP_COMPRESSION_LEVEL_NO : Int := -1
def GELF_UDP_COMPRESSION_LEVEL_MIN : Int := 0
def GELF_UDP_COMPRESSION_LEVEL_MAX : Int := 9

/-- The type `GELFTCPReconnection`. -/
structure GELFTCPReconnection where
  Max : Int := 0
  Delay : Int := 0
  deriving DecidableEq, Repr

/-- The type `GELFTCP`. -/
structure GELFTCP where
  Reconnection : Option GELFTCPReconnection := none
  TLS : Option TCPTLS := none
  deriving DecidableEq, Repr

/-- The type `GELFUDPCompression`; `Type_` is its field `Type`. -/
structure GELFUDPCompression where
  Type_ : String := ""
  Level : Int := 0
  deriving DecidableEq, Repr

/-- The type `GELFUDP`. -/
structure GELFUDP where
  Compression : Option GELFUDPCompression := none
  deriving DecidableEq, Repr

/-- The type `GELFSettings`. -/
structure GELFSettings where
  Connection : Option Connection := none
  Hostname : String := ""
  Facility : String := ""
  UDP : Option GELFUDP := none
  TCP : Option GELFTCP := none
  deriving DecidableEq, Repr

/-- What `gelfSettingsCheck` returns and leaves behind: the settings after the
call, the two flags and the error (`none` for `nil`). -/
structure GELFCheck where
  settings : GELFSettings
  isUDP : Bool
  isTCPTLS : Bool
  err : Option String
  deriving DecidableEq, Repr

/-- The `case URL_SCHEME_UDP` of `gelfSettingsCheck`: the error after the two
checks of the compression settings. -/
def gelfCheckUDP (comp : GELFUDPCompression) : Option String :=
  let err1 : Option String :=
    if comp.Type_ = GELF_UDP_COMPRESSION_TYPE_GZIP ∨ comp.Type_ = GELF_UDP_COMPRESSION_TYPE_ZLIB
        ∨ comp.Type_ = GELF_UDP_COMPRESSION_TYPE_NONE then none
    else some "Invalid compression type"
  if comp.Level < GELF_UDP_COMPRESSION_LEVEL_NO ∧ comp.Level > GELF_UDP_COMPRESSION_LEVEL_MAX then
    some "Compression level must be more -2 and less 10"
  else err1

/-- The `case URL_SCHEME_TCP, URL_SCHEME_TCP_TLS` of `gelfSettingsCheck`: the
flag `isTCPTLS` and the error; for tcp+tls the result of `TCPTLSCheck` is
assigned to `err` whatever `err` held. -/
def gelfCheckTCP (scheme : String) (recon : GELFTCPReconnection) (tls : Option TCPTLS) :
    Bool × Option String :=
  let err1 : Option String :=
    if recon.Max < 0 then some "Max reconnection must be a positive integer" else none
  let err2 : Option String :=
    if recon.Delay < 0 then some "Delay reconnection must be a positive integer" else err1
  if scheme = URL_SCHEME_TCP_TLS then
    let err3 := TCPTLSCheck tls
    (decide (err3 = none), err3)
  else (false, err2)

/-- The function `gelfSettingsCheck`; `none` is the fault on a nil
`s.Connection`. -/
def gelfSettingsCheck (net : Net) (s : GELFSettings) : Option GELFCheck :=
  let udp0 : GELFUDP := s.UDP.getD {}
  let comp0 : GELFUDPCompression := udp0.Compression.getD {}
  let comp : GELFUDPCompression :=
    if comp0.Type_ = EMPTY_STRING then { comp0 with Type_ := GELF_UDP_COMPRESSION_TYPE_NONE }
    else comp0
  let tcp0 : GELFTCP := s.TCP.getD {}
  let recon : GELFTCPReconnection := tcp0.Reconnection.getD {}
  let s1 : GELFSettings :=
    { s with UDP := some { udp0 with Compression := some comp },
             TCP := some { tcp0 with Reconnection := some recon } }
  match s1.Connection with
  | none => none
  | some c =>
    let r := SocketConnection net c GELF_DEFAULT_PORT GELF_DEFAULT_PORT
    let s2 : GELFSettings := { s1 with Connection := some r.1 }
    match r.2 with
    | some e => some { settings := s2, isUDP := false, isTCPTLS := false, err := some e }
    | none =>
      if r.1.Scheme = URL_SCHEME_UDP then
        some { settings := s2, isUDP := true, isTCPTLS := false, err := gelfCheckUDP comp }
      else if r.1.Scheme = URL_SCHEME_TCP ∨ r.1.Scheme = URL_SCHEME_TCP_TLS then
        let t := gelfCheckTCP r.1.Scheme recon tcp0.TLS
        some { settings := s2, isUDP := false, isTCPTLS := t.1, err := t.2 }
      else
        some { settings := s2, isUDP := false, isTCPTLS := false, err := none }

/-- GELF settings with a connection given by discrete fields. -/
def exampleGELF (scheme : String) : GELFSettings :=
  { Connection := some { Scheme := scheme, Host := "h", Port := 12201 } }

/-- GELF settings for the given scheme with the given reconnection values and
TLS bundle. -/
def exampleGELFTCP (scheme : String) (max delay : Int) (tls : Option TCPTLS) : GELFSettings :=
  { Connection := some { Scheme := scheme, Host := "h", Port := 12201 },
    TCP := some { Reconnection := some { Max := max, Delay := delay }, TLS := tls } }

/-- GELF settings for a UDP connection with the given compression type and
level. -/
def exampleGELFUDP (type : String) (level : Int) : GELFSettings :=
  { Connection := some { Scheme := "udp", Host := "h", Port := 12201 },
    UDP := some { Compression := some { Type_ := type, Level := level } } }

/-- Syslog settings for a tcp+tls connection given by discrete fields, with the
given `TCP` block. -/
def exampleTLSSettings (tcp : Option SysTCP) : SysSettings :=
  { Connection := some { Scheme := "tcp+tls", Host := "h", Port := 6514 },
    TCP := tcp }

/-- A TLS bundle with all three files named. -/
def exampleTLS : TCPTLS :=
  { Files := some { RootCACrt := "ca.crt", ClientCrt := "client.crt", ClientKey := "client.key" } }

end Logs

namespace Logs

/-! ## The backends `Text`, `JSON`, `FMT` and `GELF` -/

def TEXT_FORMAT : Int := 0
def JSON_FORMAT : Int := 1
def FMT_FORMAT : Int := 2
def GELF_FORMAT : Int := 3
def SYS_FORMAT : Int := 4
def FLUENT_FORMAT : Int := 5

/-- The slice `formatNames` of `new.go`. -/
def formatNames : List String :=
  ["text", "json", "fmtlog", "gelf", "syslog", "fluent", "awslogs", "gcplogs", "splunk",
   "logentries", "journald"]

/-- The validator `IsFormat` of `interface.go`. -/
def IsFormat (f : Int) : Bool := decide (TEXT_FORMAT ≤ f) && decide (f ≤ SYS_FORMAT)

/-- The validator `IsFormatName` of `interface.go`. -/
def IsFormatName (lib : GoLib) (f : String) : Bool := isName lib formatNames f

/-- The validator `IsLevelName` of `interface.go`. -/
def IsLevelName (lib : GoLib) (l : String) : Bool := isName lib levelNames l

/-- The type `TextSettings`. -/
structure TextSettings where
  IsColorize : Bool := false
  deriving DecidableEq, Repr

/-- The type `Text`; a stream is `true` while its pointer is not nil. -/
structure Text where
  format : Option Formatter
  settings : Option TextSettings
  stdout : Bool
  stderr : Bool
  deriving DecidableEq, Repr

/-- The type `JSONKeys`. -/
structure JSONKeys where
  Level : String := ""
  Labels : String := ""
  Message : String := ""
  Time : String := ""
  Timestamp : String := ""
  Environment : String := ""
  Tag : String := ""
  deriving DecidableEq, Repr

/-- The type `JSONSettings`. -/
structure JSONSettings where
  KeysPrefix : String := ""
  KeysPrefixSeparator : String := ""
  Keys : Option JSONKeys := none
  deriving DecidableEq, Repr

/-- The type `JSON`; a stream is `true` while its pointer is not nil. -/
structure JSON where
  format : Option Formatter
  settings : Option JSONSettings
  stdout : Bool
  stderr : Bool
  deriving DecidableEq, Repr

/-- The type `FMTSettings`, which has no fields. -/
structure FMTSettings where
  deriving DecidableEq, Repr

/-- The type `FMT`; a stream is `true` while its pointer is not nil. -/
structure FMT where
  format : Option Formatter
  settings : Option FMTSettings
  stdout : Bool
  stderr : Bool
  deriving DecidableEq, Repr

/-- Modelled from the spec: the writer of the GELF client package, as the
transport chosen at construction, the address, and the values the source
stores in it. -/
structure GELFWriter where
  transport : String
  address : String
  compressionType : String := ""
  compressionLevel : Int := 0
  maxReconnect : Int := 0
  reconnectDelay : Int := 0
  deriving DecidableEq, Repr

/-- The type `GELF`. -/
structure GELF where
  format : Option Formatter
  settings : Option GELFSettings
  writer : Option GELFWriter
  deriving DecidableEq, Repr

/-- The function `NewText`, from the point where `defaultFormatter` has
returned. -/
def NewText (s : Option TextSettings) (f : Formatter) : Text :=
  { format := some f, settings := some (s.getD { IsColorize := true }), stdout := true,
    stderr := true }

/-- The function `NewJSON`, from the point where `defaultFormatter` has
returned. -/
def NewJSON (s : Option JSONSettings) (f : Formatter) : JSON :=
  { format := some (defaultKeysPrefix f "fields" "."), settings := some (s.getD {}),
    stdout := true, stderr := true }

/-- The function `NewFMT`, from the point where `defaultFormatter` has
returned. -/
def NewFMT (s : Option FMTSettings) (f : Formatter) : FMT :=
  { format := some (defaultKeysPrefix f "fields" "."), settings := some (s.getD {}),
    stdout := true, stderr := true }

/-- Modelled from the spec: the constants `DefaultMaxReconnect` and
`DefaultReconnectDelay` of the GELF client package. -/
def gelfDefaultMaxReconnect : Int := 3
/-- Modelled from the spec: the constant `DefaultReconnectDelay`. -/
def gelfDefaultReconnectDelay : Int := 1

/-- The functions `gelfWriter`, `gelfUDPWriter`, `gelfTCPWriter` and
`gelfTCPTLSWriter`: the settings after the call and the writer. The dials of
the client package are the dials of `net`. -/
def gelfWriter (net : Net) (s : GELFSettings) : GELFSettings × Outcome GELFWriter :=
  match gelfSettingsCheck net s with
  | none => (s, .fault)
  | some chk =>
    match chk.err, chk.settings.Connection, chk.settings.UDP.bind (fun u => u.Compression),
        chk.settings.TCP with
    | some e, _, _, _ => (chk.settings, .err e)
    | none, some c, some comp, some tcp =>
      let recon0 : GELFTCPReconnection := tcp.Reconnection.getD {}
      let recon1 : GELFTCPReconnection :=
        if recon0.Max = 0 then { recon0 with Max := gelfDefaultMaxReconnect } else recon0
      let recon : GELFTCPReconnection :=
        if recon1.Delay = 0 then { recon1 with Delay := gelfDefaultReconnectDelay } else recon1
      let s1 : GELFSettings :=
        if chk.isUDP then chk.settings
        else { chk.settings with TCP := some { tcp with Reconnection := some recon } }
      let dialled : Outcome GELFWriter :=
        if chk.isUDP then
          match net.dial "udp" c.Address 0 "" with
          | some e => .err ("Can not connect to GELF UDP endpoint: " ++ c.URL ++ " " ++ e)
          | none =>
            .ok { transport := "udp", address := c.Address, compressionType := comp.Type_,
                  compressionLevel := comp.Level }
        else if chk.isTCPTLS then
          match TCPTLSConfig net tcp.TLS with
          | .fault => .fault
          | .err e => .err e
          | .ok _ =>
            match net.dialTLS "tcp+tls" c.Address 0 "" with
            | some e => .err ("Can not connect to GELF TCP TLS endpoint: " ++ c.URL ++ " " ++ e)
            | none => .ok { transport := "tcp+tls", address := c.Address }
        else
          match net.dial "tcp" c.Address 0 "" with
          | some e => .err ("Can not connect to GELF TCP endpoint: " ++ c.URL ++ " " ++ e)
          | none =>
            .ok { transport := "tcp", address := c.Address, maxReconnect := recon.Max,
                  reconnectDelay := recon.Delay }
      match dialled with
      | .ok w =>
        if s1.Hostname = EMPTY_STRING then
          ({ s1 with Hostname := net.hostname.1 },
            match net.hostname.2 with
            | some e => .err e
            | none => .ok w)
        else (s1, .ok w)
      | other => (s1, other)
    | none, _, _, _ => (chk.settings, .fault)

/-- The function `NewGELF`, from the point where `defaultFormatter` has
returned. -/
def NewGELF (net : Net) (s : Option GELFSettings) (f : Formatter) : Outcome GELF :=
  let format0 : Formatter := { f with Time := { f.Time with IsStamp := true } }
  let format : Formatter := defaultKeysPrefix format0 "fields" "_"
  match gelfWriter net (s.getD {}) with
  | (_, .fault) => .fault
  | (_, .err e) => .err e
  | (settings, .ok w) => .ok { format := some format, settings := some settings, writer := some w }

/-! ## `Close` -/

/-- The method `Text.Close`; the receiver may be nil. -/
def Text.Close (t : Option Text) : Option Text × Option String :=
  match t with
  | none => (none, none)
  | some _ => (some { format := none, settings := none, stdout := false, stderr := false }, none)

/-- The method `JSON.Close`; the receiver may be nil. -/
def JSON.Close (j : Option JSON) : Option JSON × Option String :=
  match j with
  | none => (none, none)
  | some _ => (some { format := none, settings := none, stdout := false, stderr := false }, none)

/-- The method `FMT.Close`, which leaves the two streams; the receiver may be
nil. -/
def FMT.Close (f : Option FMT) : Option FMT × Option String :=
  match f with
  | none => (none, none)
  | some x => (some { x with format := none, settings := none }, none)

/-- The block `if x.writer != nil` shared by `Sys.Close` and `GELF.Close`: the
error left in `err` when the close of the transport returns `closeErr`; the
fault is the read of `x.format.Stderr.IsPrintable` through a nil `format`. -/
def closeWriterErr (format : Option Formatter) (closeErr : Option String) :
    Outcome (Option String) :=
  match closeErr with
  | none => .ok none
  | some e =>
    match format with
    | none => .fault
    | some f => if f.StderrIsPrintable then .ok none else .ok (some e)

/-- The method `Sys.Close`; the receiver may be nil, `closeErr` is what
`s.writer.Close()` returns. The result is the logger after the call and the
returned error. -/
def Sys.Close (closeErr : Option String) (s : Option Sys) :
    Outcome (Option Sys × Option String) :=
  match s with
  | none => .ok (none, none)
  | some x =>
    match x.writer with
    | none => .ok (some { format := none, settings := none, writer := none }, none)
    | some _ =>
      match closeWriterErr x.format closeErr with
      | .ok err => .ok (some { format := none, settings := none, writer := none }, err)
      | .err e => .err e
      | .fault => .fault

/-- The method `GELF.Close`; the receiver may be nil, `closeErr` is what
`g.writer.Close()` returns. The result is the logger after the call and the
returned error. -/
def GELF.Close (closeErr : Option String) (g : Option GELF) :
    Outcome (Option GELF × Option String) :=
  match g with
  | none => .ok (none, none)
  | some x =>
    match x.writer with
    | none => .ok (some { format := none, settings := none, writer := none }, none)
    | some _ =>
      match closeWriterErr x.format closeErr with
      | .ok err => .ok (some { format := none, settings := none, writer := none }, err)
      | .err e => .err e
      | .fault => .fault

end Logs

namespace Logs

/-! ## The interface `logger` and the methods the backends share -/

/-- A value of the interface `logger`: one of the five backend types. -/
inductive Logger where
  | text (t : Text)
  | json (j : JSON)
  | fmt (f : FMT)
  | gelf (g : GELF)
  | sys (s : Sys)
  deriving DecidableEq, Repr

/-- The method `Format`. -/
def Logger.Format : Logger → Int
  | .text _ => TEXT_FORMAT
  | .json _ => JSON_FORMAT
  | .fmt _ => FMT_FORMAT
  | .gelf _ => GELF_FORMAT
  | .sys _ => SYS_FORMAT

/-- The field `format` of the backend. -/
@[noinline]
def Logger.format : Logger → Option Formatter
  | .text t => t.format
  | .json j => j.format
  | .fmt f => f.format
  | .gelf g => g.format
  | .sys s => s.format

/-- An assignment through the pointer `format`: the backend with the record
behind `format` replaced. -/
@[noinline]
def Logger.store (l : Logger) (f : Formatter) : Logger :=
  match l with
  | .text t => .text { t with format := some f }
  | .json j => .json { j with format := some f }
  | .fmt x => .fmt { x with format := some f }
  | .gelf g => .gelf { g with format := some f }
  | .sys s => .sys { s with format := some f }

/-- A setter without a result: `none` is the fault on a nil `format`. -/
@[noinline]
def Logger.update (l : Logger) (g : Formatter → Formatter) : Option Logger :=
  l.format.map fun f => l.store (g f)

/-- The method `Level`; `none` is the fault on a nil `format`, as for the
getters below. -/
@[noinline]
def Logger.Level (l : Logger) : Option Int := l.format.map fun f => f.Level

/-- The method `Labels`. -/
@[noinline]
def Logger.Labels (l : Logger) : Option String := l.format.map fun f => f.Labels.String

/-- The method `LabelsSeparator`. -/
@[noinline]
def Logger.LabelsSeparator (l : Logger) : Option String :=
  l.format.map fun f => f.Labels.Separator

/-- The method `Environment`. -/
@[noinline]
def Logger.Environment (l : Logger) : Option String := l.format.map fun f => f.Environment

/-- The method `Tag`. -/
@[noinline]
def Logger.Tag (l : Logger) : Option String := l.format.map fun f => f.Tag

/-- The method `TimeFormat`. -/
@[noinline]
def Logger.TimeFormat (l : Logger) : Option String := l.format.map fun f => f.Time.Format

/-- The method `IsTimeUTC`. -/
@[noinline]
def Logger.IsTimeUTC (l : Logger) : Option Bool := l.format.map fun f => f.Time.IsUTC

/-- The method `IsTimeStamp`. -/
@[noinline]
def Logger.IsTimeStamp (l : Logger) : Option Bool := l.format.map fun f => f.Time.IsStamp

/-- The method `TimeStampLevel`. -/
@[noinline]
def Logger.TimeStampLevel (l : Logger) : Option Int := l.format.map fun f => f.Time.StampLevel

/-- The method `TimeStampLevelName`: it indexes the table of stamp level names
with `format.Level`. -/
def Logger.TimeStampLevelName (l : Logger) : Outcome String :=
  match l.format with
  | none => .fault
  | some f =>
    match index timeStampLevelNames f.Level with
    | some name => .ok name
    | none => .fault

/-- The eight families of log calls; the four methods of a family (plain, `v`,
`f`, `ln`) differ in how they form the message. -/
inductive Family where
  | Panic | Fatal | Error | Warn | Info | Debug | Trace | Print
  deriving DecidableEq, Repr

/-- The level constant of a family. -/
def Family.level : Family → Int
  | .Panic => PANIC_LEVEL
  | .Fatal => FATAL_LEVEL
  | .Error => ERROR_LEVEL
  | .Warn => WARN_LEVEL
  | .Info => INFO_LEVEL
  | .Debug => DEBUG_LEVEL
  | .Trace => TRACE_LEVEL
  | .Print => PRINT_LEVEL

/-- The fault inside `build`: `JSON.build` reads `j.settings.Keys.Message`
through the pointers `settings` and `Keys`. -/
def Logger.buildFaults (l : Logger) : Bool :=
  match l with
  | .json j => (j.settings.bind fun s => s.Keys).isNone
  | _ => false

/-- A log call of a family with the formed message `m`, as far as the setters
and the handle `Logs` depend on it: the logger after the call and the call of
`build` it makes, level and message, if any. The body is
`if x.format.Level >= K { ... x.build(K, m) ... }` in every backend, without
the test in the Print family; the call faults where `build` does. The record
and the write are not part of this function. -/
def Logger.log (l : Logger) (fam : Family) (m : String) :
    Outcome (Logger × Option (Int × String)) :=
  match l.format with
  | none => .fault
  | some f =>
    if fam = .Print ∨ f.Level ≥ fam.level then
      if l.buildFaults then .fault else .ok (l, some (fam.level, m))
    else .ok (l, none)

/-- The tail of a failed setter: the error record goes through `Errorv`, and
the setter returns the error. -/
def Logger.reject (l : Logger) (msg : String) : Outcome Logger :=
  match l.log .Error msg with
  | .ok _ => .err msg
  | .err e => .err e
  | .fault => .fault

/-- The method `SetLevel`. -/
@[noinline]
def Logger.SetLevel (l : Logger) (v : Int) : Outcome Logger :=
  match l.format with
  | none => .fault
  | some f => if IsLevel v then .ok (l.store { f with Level := v }) else l.reject "Invalid log level"

/-- The method `SetLevelName`. -/
def Logger.SetLevelName (lib : GoLib) (l : Logger) (name : String) : Outcome Logger :=
  match l.format with
  | none => .fault
  | some f =>
    let n := lib.ToLower (lib.TrimSpace name)
    if IsLevelName lib n then .ok (l.store { f with Level := sliceIndex levelNames n })
    else l.reject "Invalid log level name"

/-- The method `SetLabels`. -/
@[noinline]
def Logger.SetLabels (l : Logger) (v : String) : Option Logger :=
  l.update fun f => { f with Labels := { f.Labels with String := v } }

/-- The method `SetLabelsSeparator`; `Text` trims the argument. -/
@[noinline]
def Logger.SetLabelsSeparator (lib : GoLib) (l : Logger) (v : String) : Option Logger :=
  match l with
  | .text _ => l.update fun f => { f with Labels := { f.Labels with Separator := lib.TrimSpace v } }
  | _ => l.update fun f => { f with Labels := { f.Labels with Separator := v } }

/-- The method `SetEnvironment`. -/
@[noinline]
def Logger.SetEnvironment (lib : GoLib) (l : Logger) (v : String) : Option Logger :=
  l.update fun f => { f with Environment := lib.TrimSpace v }

/-- The method `SetTag`. -/
@[noinline]
def Logger.SetTag (lib : GoLib) (l : Logger) (v : String) : Option Logger :=
  l.update fun f => { f with Tag := lib.TrimSpace v }

/-- The method `SetTimeFormat`; `Text` trims the argument. -/
@[noinline]
def Logger.SetTimeFormat (lib : GoLib) (l : Logger) (v : String) : Option Logger :=
  match l with
  | .text _ => l.update fun f => { f with Time := { f.Time with Format := lib.TrimSpace v } }
  | _ => l.update fun f => { f with Time := { f.Time with Format := v } }

/-- An outcome without its error message: `none` is the fault, and a returned
error leaves the given logger. -/
@[noinline]
def Outcome.keep (o : Outcome Logger) (l : Logger) : Option Logger :=
  match o with
  | .ok x => some x
  | .err _ => some l
  | .fault => none

/-- The method `SetTimeUTC`; `Sys` also installs a formatter in the writer. -/
@[noinline]
def Logger.SetTimeUTC (l : Logger) (u : Bool) : Option Logger :=
  match l with
  | .sys s =>
    match s.SetTimeUTC u with
    | .ok s1 => some (.sys s1)
    | _ => none
  | _ => l.update fun f => { f with Time := { f.Time with IsUTC := u } }

/-- The method `SetTimeStamp`; `FMT` and `Sys` store false whatever the
argument. -/
@[noinline]
def Logger.SetTimeStamp (l : Logger) (t : Bool) : Option Logger :=
  match l with
  | .fmt _ => l.update fun f => { f with Time := { f.Time with IsStamp := false } }
  | .sys _ => l.update fun f => { f with Time := { f.Time with IsStamp := false } }
  | _ => l.update fun f => { f with Time := { f.Time with IsStamp := t } }

/-- The method `SetTimeStampLevel`; `Sys` also installs a formatter in the
writer. -/
@[noinline]
def Logger.SetTimeStampLevel (l : Logger) (v : Int) : Outcome Logger :=
  match l with
  | .sys s =>
    match s.SetTimeStampLevel v with
    | .ok s1 => .ok (.sys s1)
    | .err e => .err e
    | .fault => .fault
  | _ =>
    match l.format with
    | none => .fault
    | some f =>
      if IsTimeStampLevel v then .ok (l.store { f with Time := { f.Time with StampLevel := v } })
      else l.reject "Invalid timestamp level"

/-- The method `SetTimeStampLevelName`: the index of the name is stored in
`format.Level`; `Sys` also installs a formatter in the writer. -/
def Logger.SetTimeStampLevelName (lib : GoLib) (l : Logger) (name : String) : Outcome Logger :=
  match l with
  | .sys s =>
    match s.SetTimeStampLevelName lib name with
    | .ok s1 => .ok (.sys s1)
    | .err e => .err e
    | .fault => .fault
  | _ =>
    match l.format with
    | none => .fault
    | some f =>
      let n := lib.ToLower (lib.TrimSpace name)
      if IsTimeStampLevelName lib n then
        .ok (l.store { f with Level := sliceIndex timeStampLevelNames n })
      else l.reject "Invalid timestamp level name"

/-- The method `Close` of the backend behind the interface; `closeErr` is what
the close of a transport returns. -/
def Logger.Close (closeErr : Option String) (l : Logger) : Outcome (Logger × Option String) :=
  match l with
  | .text t => .ok (.text ((Text.Close (some t)).1.getD t), none)
  | .json j => .ok (.json ((JSON.Close (some j)).1.getD j), none)
  | .fmt f => .ok (.fmt ((FMT.Close (some f)).1.getD f), none)
  | .gelf g =>
    match GELF.Close closeErr (some g) with
    | .ok r => .ok (.gelf (r.1.getD g), r.2)
    | .err e => .err e
    | .fault => .fault
  | .sys s =>
    match Sys.Close closeErr (some s) with
    | .ok r => .ok (.sys (r.1.getD s), r.2)
    | .err e => .err e
    | .fault => .fault

/-! ## `new.go`: the handle `Logs` -/

/-- The type `Logs`; `none` is a nil interface, or an interface holding a nil
pointer, on which every method faults. -/
structure Logs where
  logger : Option Logger
  deriving DecidableEq, Repr

/-- The function `initLogger`: the new logger, nil for a format without a
backend and after a constructor error. Each constructor gets nil settings and
an empty `Formatter`. -/
def initLogger (net : Net) (format : Int) : Outcome (Option Logger) :=
  if format = TEXT_FORMAT then .ok (some (.text (NewText none {})))
  else if format = JSON_FORMAT then .ok (some (.json (NewJSON none {})))
  else if format = FMT_FORMAT then .ok (some (.fmt (NewFMT none {})))
  else if format = GELF_FORMAT then
    match NewGELF net none {} with
    | .ok g => .ok (some (.gelf g))
    | .err _ => .ok none
    | .fault => .fault
  else if format = SYS_FORMAT then
    match NewSys net none {} with
    | .ok s => .ok (some (.sys s))
    | .err _ => .ok none
    | .fault => .fault
  else .ok none

/-- The first three of the nine statements of `switchFormat` that carry the
settings of the old logger over to the new one: level, labels and separator.
Each argument is read from the old logger before the setter of the new logger
runs; `none` is a fault. -/
@[noinline]
def carryLabels (lib : GoLib) (old n0 : Logger) : Option Logger :=
  old.Level.bind fun level =>
  ((n0.SetLevel level).keep n0).bind fun n1 =>
  old.Labels.bind fun labels =>
  (n1.SetLabels labels).bind fun n2 =>
  old.LabelsSeparator.bind fun sep =>
  n2.SetLabelsSeparator lib sep

/-- The next three statements: environment, tag and time format. -/
@[noinline]
def carryNames (lib : GoLib) (old n3 : Logger) : Option Logger :=
  old.Environment.bind fun env =>
  (n3.SetEnvironment lib env).bind fun n4 =>
  old.Tag.bind fun tag =>
  (n4.SetTag lib tag).bind fun n5 =>
  old.TimeFormat.bind fun tf =>
  n5.SetTimeFormat lib tf

/-- The last three statements: UTC flag, stamp flag and stamp level. -/
@[noinline]
def carryTime (old n6 : Logger) : Option Logger :=
  old.IsTimeUTC.bind fun utc =>
  (n6.SetTimeUTC utc).bind fun n7 =>
  old.IsTimeStamp.bind fun stamp =>
  (n7.SetTimeStamp stamp).bind fun n8 =>
  old.TimeStampLevel.bind fun sl =>
  (n8.SetTimeStampLevel sl).keep n8

/-- The nine statements of `switchFormat` that carry the settings over, in the
order of the source; a nil new logger faults at the first of them. -/
def carryOver (lib : GoLib) (old : Logger) (new : Option Logger) : Option Logger :=
  new.bind fun n0 =>
  (carryLabels lib old n0).bind fun n3 =>
  (carryNames lib old n3).bind fun n6 =>
  carryTime old n6

/-- The method `Logs.switchFormat`. The old logger is closed first; its
settings are read after that. -/
def Logs.switchFormat (net : Net) (lib : GoLib) (closeErr : Option String) (ls : Logs)
    (f : Int) : Outcome Logs :=
  match ls.logger with
  | none => .fault
  | some current =>
    if f ≠ current.Format then
      match current.Close closeErr with
      | .fault => .fault
      | .err e => .err e
      | .ok (oldLogger, none) =>
        match initLogger net f with
        | .fault => .fault
        | .err e => .err e
        | .ok new =>
          match carryOver lib oldLogger new with
          | none => .fault
          | some n => .ok { logger := some n }
      | .ok (oldLogger, some e) =>
        match oldLogger.log .Error e with
        | .fault => .fault
        | .err e1 => .err e1
        | .ok _ => .ok { logger := some oldLogger }
    else .ok ls

/-- The tail of a failed setter of `Logs`: `ls.Errorv`, then the error. -/
def Logs.reject (ls : Logs) (msg : String) : Outcome Logs :=
  match ls.logger with
  | none => .fault
  | some l =>
    match l.log .Error msg with
    | .fault => .fault
    | _ => .err msg

/-- The method `Logs.SetFormat`. -/
def Logs.SetFormat (net : Net) (lib : GoLib) (closeErr : Option String) (ls : Logs) (f : Int) :
    Outcome Logs :=
  if IsFormat f then ls.switchFormat net lib closeErr f else ls.reject "Invalid log format"

/-- The method `Logs.SetFormatName`: the name is trimmed, not lower-cased,
before it is looked up. -/
def Logs.SetFormatName (net : Net) (lib : GoLib) (closeErr : Option String) (ls : Logs)
    (f : String) : Outcome Logs :=
  let name := lib.TrimSpace f
  if IsFormatName lib name then ls.switchFormat net lib closeErr (sliceIndex formatNames name)
  else ls.reject "Invalid log format name"

/-- The handle `New` returns: a `Text` backend with the default formatter. -/
def exampleLogs : Logs := { logger := some (.text (NewText none {})) }

/-- A `Text` logger at level info with the default stamp level nano. -/
def exampleText : Logger := .text (NewText none { Level := 4 })

end Logs

namespace Logs

/-! ## Field maps and the records of `GELF.build` and `JSON.build` -/

/-- The type `Vars`, a Go map from keys to values, as the list of its entries;
no key occurs twice. -/
abbrev Vars := List (String × ParamValue)

/-- Map lookup `v[k]`. -/
def Vars.get : Vars → String → Option ParamValue
  | [], _ => none
  | (k1, x) :: rest, k => if k1 = k then some x else Vars.get rest k

/-- Go `delete(v, k)`. -/
def Vars.delete : Vars → String → Vars
  | [], _ => []
  | (k1, x) :: rest, k =>
    if k1 = k then Vars.delete rest k else (k1, x) :: Vars.delete rest k

/-- Map assignment `v[k] = x`. -/
def Vars.set (v : Vars) (k : String) (x : ParamValue) : Vars := Vars.delete v k ++ [(k, x)]

/-- The keys of a map. -/
def Vars.keys (v : Vars) : List String := v.map fun e => e.1

/-- The key under which `GELF.build` stores a caller field whose key is one of
the reserved names. -/
def gelfRenamedKey (f : Formatter) (key : String) : String :=
  f.Keys.PrefixSeparator ++ f.Keys.Prefix ++ f.Keys.PrefixSeparator ++ key

/-- The case list of the `switch` in the loop of `GELF.build`: the labels,
environment and tag names of the formatter. -/
def gelfReserved (f : Formatter) (key : String) : Bool :=
  decide (key = f.Keys.Names.Labels) || decide (key = f.Keys.Names.Environment)
    || decide (key = f.Keys.Names.Tag)

/-- The loop `for key, value := range v` of `GELF.build`, over the keys the
map had at the start, in the order of the iteration: an entry still present
whose key is the labels, environment or tag name is stored under the renamed
key and deleted. Entries the loop itself inserts are not visited. -/
def gelfRename (f : Formatter) : List String → Vars → Vars
  | [], v => v
  | key :: rest, v =>
    match Vars.get v key with
    | none => gelfRename f rest v
    | some value =>
      if gelfReserved f key
      then gelfRename f rest (Vars.delete (Vars.set v (gelfRenamedKey f key) value) key)
      else gelfRename f rest v

/-- The three statements of `GELF.build` after the loop: environment, labels
and tag of the formatter, each stored under the separator and its name when it
is not empty. -/
def gelfAddFields (f : Formatter) (v0 : Vars) : Vars :=
  let v1 : Vars :=
    if f.Environment ≠ EMPTY_STRING then
      Vars.set v0 (f.Keys.PrefixSeparator ++ f.Keys.Names.Environment) (.str f.Environment)
    else v0
  let v2 : Vars :=
    if f.Labels.String ≠ EMPTY_STRING then
      Vars.set v1 (f.Keys.PrefixSeparator ++ f.Keys.Names.Labels) (.str f.Labels.String)
    else v1
  if f.Tag ≠ EMPTY_STRING then
    Vars.set v2 (f.Keys.PrefixSeparator ++ f.Keys.Names.Tag) (.str f.Tag)
  else v2

/-- The keys the three statements of `GELF.build` after the loop assign. -/
def gelfAddedKeys (f : Formatter) : List String :=
  (if f.Environment ≠ EMPTY_STRING then [f.Keys.PrefixSeparator ++ f.Keys.Names.Environment]
    else [])
  ++ (if f.Labels.String ≠ EMPTY_STRING then [f.Keys.PrefixSeparator ++ f.Keys.Names.Labels]
    else [])
  ++ (if f.Tag ≠ EMPTY_STRING then [f.Keys.PrefixSeparator ++ f.Keys.Names.Tag] else [])

/-- The keys `GELF.build` assigns itself for the field set `v`: the renamed
keys of the reserved keys of `v`, and the keys assigned after the loop. -/
def gelfWrittenKeys (f : Formatter) (v : Vars) : List String :=
  ((Vars.keys v).filter (gelfReserved f)).map (gelfRenamedKey f) ++ gelfAddedKeys f

/-- The map `v` of `GELF.build` at the call of `json.Marshal`: the extra fields
of the envelope. A nil `v` is the empty map. -/
def gelfBuildExtra (f : Formatter) (v : Option Vars) : Vars :=
  match v with
  | none => gelfAddFields f []
  | some v => gelfAddFields f (gelfRename f (Vars.keys v) v)

/-- The formatter of a GELF logger that `NewGELF` builds from an empty
`Formatter`, with the given environment, labels and tag. -/
def exampleGELFFormat (env labels tag : String) : Formatter :=
  defaultKeysPrefix
    { Environment := env, Labels := { String := labels }, Tag := tag,
      Time := { IsStamp := true } }
    "fields" "_"

/-- The function `timeStampLevel` of `new.go`, on an instant given by its
count of nanoseconds since the Unix epoch: `tt.Unix()` is the floor of the
seconds, the other divisions are Go integer divisions. -/
def timeStampLevel (tl : Int) (nano : Int) : Int :=
  if tl = TIME_STAMP_LEVEL_DEFAULT then Int.fdiv nano 1000000000
  else if tl = TIME_STAMP_LEVEL_MILLI then Int.tdiv nano 1000000
  else if tl = TIME_STAMP_LEVEL_MICRO then Int.tdiv nano 1000
  else if tl = TIME_STAMP_LEVEL_NANO then nano
  else Int.fdiv nano 1000000000

/-- The integer nearest to a rational; a rational half way between two integers
goes to the even one. -/
def roundHalfEven (x : ℚ) : ℤ :=
  let f := ⌊x⌋
  let r := x - f
  if r < 1 / 2 then f
  else if 1 / 2 < r then f + 1
  else if f % 2 = 0 then f else f + 1

/-- The `float64` nearest to a rational, as a rational: the conversion
`float64(tm)` and the result of a `float64` division are the exact value
rounded to 53 significant bits, to nearest and to even on a tie. The exponent
range of the type is not bounded here; every value the package forms lies in
the normal range. -/
def float64 (x : ℚ) : ℚ :=
  if x = 0 then 0
  else if 0 < x then (roundHalfEven (x / 2 ^ (Int.log 2 x - 52)) : ℚ) * 2 ^ (Int.log 2 x - 52)
  else -((roundHalfEven (-x / 2 ^ (Int.log 2 (-x) - 52)) : ℚ) * 2 ^ (Int.log 2 (-x) - 52))

/-- The method `GELF.timeStampLevel`: `float64(tm) / float64(d)` with `d` one
of `time.Microsecond`, `time.Millisecond` and `time.Second`, which are 1000,
1000000 and 1000000000; the result is the `float64` read as a rational. -/
def gelfTimeStampLevel (stampLevel : Int) (tm : Int) : ℚ :=
  if stampLevel = TIME_STAMP_LEVEL_MILLI then float64 (float64 tm / float64 1000)
  else if stampLevel = TIME_STAMP_LEVEL_MICRO then float64 (float64 tm / float64 1000000)
  else if stampLevel = TIME_STAMP_LEVEL_NANO then float64 (float64 tm / float64 1000000000)
  else float64 tm

/-- The method `GELF.timeStamp`, the value of the envelope field `TimeUnix`;
the conversion to UTC leaves the instant as it is. -/
def gelfTimeStamp (f : Formatter) (nano : Int) : ℚ :=
  gelfTimeStampLevel f.Time.StampLevel (timeStampLevel f.Time.StampLevel nano)

/-- The method `GELF.timeStampLevel`; `none` is the fault on a nil `format`. -/
def GELF.timeStampLevel (g : GELF) (tm : Int) : Option ℚ :=
  g.format.map fun f => gelfTimeStampLevel f.Time.StampLevel tm

/-- The method `GELF.timeStamp`; `none` is the fault on a nil `format`. -/
def GELF.timeStamp (g : GELF) (nano : Int) : Option ℚ :=
  g.format.map fun f => gelfTimeStamp f nano

/-- The extra fields `GELF.build` serialises for a logger; `none` is the fault
on a nil `format`. -/
def GELF.buildExtra (g : GELF) (v : Option Vars) : Option Vars :=
  g.format.map fun f => gelfBuildExtra f v

/-- A GELF logger over UDP with the given formatter. -/
def exampleGELFLogger (f : Formatter) : GELF :=
  { format := some f, settings := some (exampleGELF "udp"),
    writer := some { transport := "udp", address := "h:12201" } }

/-- A syslog logger over UDP with the given formatter. -/
def exampleSysLogger (f : Formatter) : Sys :=
  { format := some f, settings := some (exampleSettings "daemon"),
    writer := some { network := "udp", raddr := "h:514", priority := 24, tag := "" } }

/-- The key under which `JSON.build` stores a caller field whose key is one of
the reserved names. -/
def jsonRenamedKey (f : Formatter) (key : String) : String :=
  f.Keys.Prefix ++ f.Keys.PrefixSeparator ++ key

/-- The loop `for key, value := range v` of `JSON.build`, as `gelfRename` with
the seven reserved names. -/
def jsonRename (f : Formatter) : List String → Vars → Vars
  | [], v => v
  | key :: rest, v =>
    match Vars.get v key with
    | none => jsonRename f rest v
    | some value =>
      if key = f.Keys.Names.Level ∨ key = f.Keys.Names.Labels ∨ key = f.Keys.Names.Message
          ∨ key = f.Keys.Names.Timestamp ∨ key = f.Keys.Names.Time
          ∨ key = f.Keys.Names.Environment ∨ key = f.Keys.Names.Tag
      then jsonRename f rest (Vars.delete (Vars.set v (jsonRenamedKey f key) value) key)
      else jsonRename f rest v

/-- The statements of `JSON.build` after the message is stored: time or time
stamp, environment and tag. -/
def jsonBuildTail (env : Env) (nano : Int) (f : Formatter) (v : Vars) : Vars :=
  let v1 : Vars :=
    if f.Time.IsStamp then
      Vars.set v f.Keys.Names.Timestamp (.int (timeStampLevel f.Time.StampLevel nano))
    else Vars.set v f.Keys.Names.Time (.str (env.now f.Time.IsUTC f.Time.Format))
  let v2 : Vars :=
    if f.Environment ≠ EMPTY_STRING then Vars.set v1 f.Keys.Names.Environment (.str f.Environment)
    else v1
  if f.Tag ≠ EMPTY_STRING then Vars.set v2 f.Keys.Names.Tag (.str f.Tag) else v2

/-- The method `JSON.build`, up to the call of `json.Marshal`: the map that is
serialised. The message is stored under `j.settings.Keys.Message`, read through
the pointers `settings` and `Keys`. -/
def JSON.build (env : Env) (nano : Int) (j : JSON) (l : Int) (m : String) (v : Option Vars) :
    Outcome Vars :=
  match j.format with
  | none => .fault
  | some f =>
    let v0 : Vars :=
      match v with
      | none => []
      | some v => jsonRename f (Vars.keys v) v
    let v1 : Option Vars :=
      if l < PRINT_LEVEL then
        (index levelNames l).map fun name => Vars.set v0 f.Keys.Names.Level (.str name)
      else some v0
    match v1 with
    | none => .fault
    | some v1 =>
      let v2 : Vars :=
        if f.Labels.String ≠ EMPTY_STRING then
          Vars.set v1 f.Keys.Names.Labels (.str f.Labels.String)
        else v1
      match j.settings.bind (fun s => s.Keys) with
      | none => .fault
      | some keys => .ok (jsonBuildTail env nano f (Vars.set v2 keys.Message (.str m)))

/-- The two streams of a `JSON` logger. -/
inductive Stream where
  | stdout | stderr
  deriving DecidableEq, Repr

/-- What the method of `log.Logger` does after it has printed: `Print`
returns, `Panic` panics, `Fatal` exits. -/
inductive After where
  | returns | panics | exits
  deriving DecidableEq, Repr

/-- The stream the methods of a family print to in `json.go`: `j.stderr` in the
Panic, Fatal and Error families, `j.stdout` in the others. -/
def Family.stream : Family → Stream
  | .Panic => .stderr
  | .Fatal => .stderr
  | .Error => .stderr
  | _ => .stdout

/-- The method of `log.Logger` the methods of a family call in `json.go`. -/
def Family.after : Family → After
  | .Panic => .panics
  | .Fatal => .exits
  | _ => .returns

/-- A record a `JSON` log call emits: the stream, the map `build` serialises
and what the printing method does afterwards. -/
structure Emission where
  stream : Stream
  record : Vars
  after : After
  deriving DecidableEq, Repr

/-- A log call of a family on a `JSON` logger, with the formed message `m` and
the fields `v` (nil in the plain, `f` and `ln` methods): the body
`if j.format.Level >= K { j.stream.Print(j.build(K, m, v)) }`, without the test
in the Print family. The argument `j.build(...)` is evaluated before the call
on the stream, which faults on a nil stream. The logger is not assigned to. -/
def JSON.log (env : Env) (nano : Int) (j : JSON) (fam : Family) (m : String)
    (v : Option Vars) : Outcome (JSON × Option Emission) :=
  match j.format with
  | none => .fault
  | some f =>
    if fam = .Print ∨ f.Level ≥ fam.level then
      match JSON.build env nano j fam.level m v with
      | .fault => .fault
      | .err e => .err e
      | .ok record =>
        let present : Bool :=
          match fam.stream with
          | .stdout => j.stdout
          | .stderr => j.stderr
        if present then .ok (j, some { stream := fam.stream, record := record, after := fam.after })
        else .fault
    else .ok (j, none)

end Logs

namespace Logs

/-! ## Facts about the tables -/

set_option maxRecDepth 100000 in
theorem sysFacilities_code_injective :
    ∀ a ∈ sysFacilities, ∀ b ∈ sysFacilities, a.2 = b.2 → a.1 = b.1 := by
  decide

set_option maxRecDepth 100000 in
theorem sysFacility_of_entry : ∀ e ∈ sysFacilities, sysFacility e.1 = .ok e.2 := by
  decide

set_option maxRecDepth 100000 in
theorem sysFacilitiesGet_of_entry : ∀ e ∈ sysFacilities, sysFacilitiesGet e.1 = some e.2 := by
  decide

/-! ## C1: the framer -/

/-- C1: the framer chosen for scheme tcp+tls returns the decimal byte length of
the message, one space, then the message; the framer chosen for any other
scheme returns the message unchanged. -/
theorem sysFramer_octet_counting (m : String) :
    (sysFramer "tcp+tls").call m = toString m.utf8ByteSize ++ " " ++ m
    ∧ (∀ scheme : String, scheme ≠ "tcp+tls" → (sysFramer scheme).call m = m)
    ∧ (sysFramer "tcp+tls").call "hello" = "5 hello" := by
  refine ⟨rfl, ?_, by decide⟩
  intro scheme h
  have h1 : ¬ scheme = URL_SCHEME_TCP_TLS := h
  simp [sysFramer, h1, SysFramer.call, sysFramerDefault]

theorem sysFramer_octet_counting_witness :
    (sysFramer "tcp+tls").call "hello" = "5 hello" ∧ (sysFramer "udp").call "hello" = "hello" :=
  ⟨(sysFramer_octet_counting "hello").2.2, (sysFramer_octet_counting "hello").2.1 "udp" (by decide)⟩

end Logs

namespace Logs

/-! ## C2: the priority of a write -/

/-- C2: evaluation of the code where it departs from the claim. A logger built
from the numeric facility 5 (the facility syslog, code 40) writes Info with
priority 6, facility kern, and not 46; one built from the empty facility
(daemon, code 24) writes Info with priority 6 and not 30; one built from the
name syslog writes 46. -/
theorem build_priority_loses_unnamed_facility :
    sysFacility "5" = .ok 40
    ∧ (∃ s, NewSys exampleNet (some (exampleSettings "5")) {} = .ok s
        ∧ s.buildPriority INFO_LEVEL = .ok 6)
    ∧ (40 &&& FACILITY_MASK) ||| (LOG_INFO &&& SEVERITY_MASK) = 46
    ∧ sysFacility "" = .ok 24
    ∧ (∃ s, NewSys exampleNet (some (exampleSettings "")) {} = .ok s
        ∧ s.buildPriority INFO_LEVEL = .ok 6)
    ∧ (24 &&& FACILITY_MASK) ||| (LOG_INFO &&& SEVERITY_MASK) = 30
    ∧ (∃ s, NewSys exampleNet (some (exampleSettings "syslog")) {} = .ok s
        ∧ s.buildPriority INFO_LEVEL = .ok 46) := by
  refine ⟨by decide, ⟨_, rfl, by decide⟩, by decide, by decide, ⟨_, rfl, by decide⟩,
    by decide, ⟨_, rfl, by decide⟩⟩

/-! ## C3: numeric facilities -/

/-- C3, the claim as stated fails: the empty string is no facility name and no
numeric string, and `sysFacility` accepts it as daemon. -/
theorem sysFacility_accepts_empty :
    sysFacilitiesGet "" = none ∧ (Atoi "").2 = some .syntaxErr
    ∧ sysFacility "" = .ok LOG_DAEMON := by
  decide

/-- C3 as amended: for every non-empty string that is not one of the 20
facility names, `sysFacility` succeeds exactly when `Atoi` reads the string as a
number in [0,23], and then returns that number times 8; every other such string
is rejected. The decimal numerals 0..23 are accepted with code n*8. -/
theorem sysFacility_numeric (f : String) (hne : f ≠ EMPTY_STRING)
    (hname : sysFacilitiesGet f = none) :
    (((Atoi f).2 = none ∧ 0 ≤ (Atoi f).1 ∧ (Atoi f).1 ≤ 23) →
        sysFacility f = .ok ((Atoi f).1.toNat * 8))
    ∧ (¬ ((Atoi f).2 = none ∧ 0 ≤ (Atoi f).1 ∧ (Atoi f).1 ≤ 23) →
        sysFacility f = .err "Invalid syslog facility")
    ∧ (∀ n : Fin 24, sysFacility (toString n.val) = .ok (n.val * 8)) := by
  refine ⟨?_, ?_, by decide⟩
  · intro h
    simp only [sysFacility, if_neg hne, hname, if_pos h, Nat.shiftLeft_eq]
  · intro h
    simp only [sysFacility, if_neg hne, hname, if_neg h]

theorem sysFacility_numeric_witness :
    sysFacility "23" = .ok 184 ∧ sysFacility "24" = .err "Invalid syslog facility"
    ∧ sysFacility "x" = .err "Invalid syslog facility" :=
  ⟨(sysFacility_numeric "23" (by decide) (by decide)).1 (by decide),
   (sysFacility_numeric "24" (by decide) (by decide)).2.1 (by decide),
   (sysFacility_numeric "x" (by decide) (by decide)).2.1 (by decide)⟩

end Logs

namespace Logs

/-! ## C4: facility names -/

theorem sysWriterFacilityName_of_entry (net : Net) (s : SysSettings) (e : String × Nat)
    (he : e ∈ sysFacilities) (hs : s.Facility = e.1) :
    (sysWriterFacilityName net s e.2).Facility = e.1 := by
  unfold sysWriterFacilityName
  have hmem : sysFacilities.get ⟨net.rangeFirst.val, net.rangeFirst.isLt⟩ ∈ sysFacilities :=
    List.get_mem _ _ _
  by_cases hc : (sysFacilities.get ⟨net.rangeFirst.val, net.rangeFirst.isLt⟩).2 = e.2
  · simp only [hc, if_true]
    exact sysFacilities_code_injective _ hmem _ he hc
  · simp only [hc, if_false]
    exact hs

/-- C4: for each of the 20 named facilities, `sysFacility` returns the code of
the table, no other name has that code, and after `sysWriter`, whatever the
network does and wherever the map iteration starts, the facility name in the
settings is the original name, which the table maps to the same code. -/
theorem sysFacilities_name_roundtrip (name : String) (code : Nat)
    (h : (name, code) ∈ sysFacilities) :
    sysFacility name = .ok code
    ∧ (∀ other ∈ sysFacilities, other.2 = code → other.1 = name)
    ∧ (∀ (net : Net) (s : SysSettings), s.Facility = name →
        (sysWriter net s).1.Facility = name
        ∧ sysFacilitiesGet (sysWriter net s).1.Facility = some code) := by
  have hfac := sysFacility_of_entry _ h
  have hget := sysFacilitiesGet_of_entry _ h
  refine ⟨hfac, fun other ho hc => sysFacilities_code_injective other ho _ h hc, ?_⟩
  intro net s hs
  have key : (sysWriter net s).1.Facility = name := by
    unfold sysWriter
    rw [hs, hfac]
    simp only
    cases hc : s.Connection with
    | none => exact hs
    | some c =>
      simp only
      cases hd : sysWriterDial net s c code with
      | fault => exact hs
      | err e => exact hs
      | ok w =>
        simp only
        have hn := sysWriterFacilityName_of_entry net s (name, code) h hs
        split <;> exact hn
  exact ⟨key, by rw [key]; exact hget⟩

theorem sysFacilities_name_roundtrip_witness :
    sysFacility "local7" = .ok 184
    ∧ (sysWriter exampleNet (exampleSettings "local7")).1.Facility = "local7" :=
  ⟨(sysFacilities_name_roundtrip "local7" 184 (by decide)).1,
   ((sysFacilities_name_roundtrip "local7" 184 (by decide)).2.2 exampleNet
      (exampleSettings "local7") rfl).1⟩

/-! ## C5: the severity tables -/

theorem index_isSome {α : Type} (xs : List α) (l : Int) :
    (index xs l).isSome = true ↔ 0 ≤ l ∧ l < xs.length := by
  unfold index
  by_cases h0 : 0 ≤ l
  · rw [if_pos h0, Option.isSome_iff_ne_none, Ne, List.get?_eq_none]
    constructor
    · intro h; exact ⟨h0, by omega⟩
    · rintro ⟨_, h⟩; omega
  · rw [if_neg h0]
    simp [h0]

/-- C5, the claim as stated fails: in both tables print has the entry alert,
which is neither the entry of trace nor the least urgent severity debug nor the
numerically lowest severity emerg, and meta has no entry at all. -/
theorem sysLevels_no_clamping :
    index sysLevels PRINT_LEVEL = some LOG_ALERT
    ∧ index gelfLevels PRINT_LEVEL = some LOG_ALERT
    ∧ index sysLevels TRACE_LEVEL = some LOG_NOTICE
    ∧ LOG_ALERT ≠ LOG_NOTICE ∧ LOG_ALERT ≠ LOG_DEBUG ∧ LOG_ALERT ≠ LOG_EMERG
    ∧ index sysLevels META_LEVEL = none
    ∧ index gelfLevels META_LEVEL = none := by
  decide

/-- C5 as amended: in both severity tables the pseudo-level print has an entry
of its own, the severity alert (1), which none of the levels panic..trace has;
the lookup is defined exactly for the levels 0..7, so meta (8) has no entry. -/
theorem sysLevels_print_entry (l : Int) :
    index sysLevels PRINT_LEVEL = some LOG_ALERT
    ∧ index gelfLevels PRINT_LEVEL = some LOG_ALERT
    ∧ (IsLevel l = true → index sysLevels l ≠ some LOG_ALERT
        ∧ index gelfLevels l ≠ some LOG_ALERT)
    ∧ ((index sysLevels l).isSome = true ↔ 0 ≤ l ∧ l ≤ PRINT_LEVEL)
    ∧ ((index gelfLevels l).isSome = true ↔ 0 ≤ l ∧ l ≤ PRINT_LEVEL)
    ∧ index sysLevels l = index gelfLevels l := by
  refine ⟨by decide, by decide, ?_, ?_, ?_, rfl⟩
  · intro hl
    simp only [IsLevel, PANIC_LEVEL, TRACE_LEVEL, Bool.and_eq_true, decide_eq_true_eq] at hl
    obtain ⟨h0, h6⟩ := hl
    have : l = 0 ∨ l = 1 ∨ l = 2 ∨ l = 3 ∨ l = 4 ∨ l = 5 ∨ l = 6 := by omega
    rcases this with h | h | h | h | h | h | h <;> subst h <;> decide
  · rw [index_isSome]
    simp only [sysLevels, List.length_cons, List.length_nil, PRINT_LEVEL]
    constructor
    · rintro ⟨h0, h⟩
      exact ⟨h0, by push_cast at h; omega⟩
    · rintro ⟨h0, h⟩
      exact ⟨h0, by push_cast; omega⟩
  · rw [index_isSome]
    simp only [gelfLevels, List.length_cons, List.length_nil, PRINT_LEVEL]
    constructor
    · rintro ⟨h0, h⟩
      exact ⟨h0, by push_cast at h; omega⟩
    · rintro ⟨h0, h⟩
      exact ⟨h0, by push_cast; omega⟩

theorem sysLevels_print_entry_witness :
    (index sysLevels INFO_LEVEL ≠ some LOG_ALERT ∧ index gelfLevels INFO_LEVEL ≠ some LOG_ALERT)
    ∧ ¬ ((index sysLevels META_LEVEL).isSome = true) :=
  ⟨(sysLevels_print_entry INFO_LEVEL).2.2.1 (by decide),
   fun h => absurd ((sysLevels_print_entry META_LEVEL).2.2.2.1.1 h) (by decide)⟩

end Logs

namespace Logs

/-! ## C6: the formatter after a change of the time settings -/

/-- C6: evaluation of the code where it departs from the claim. The setters
write the new value into the formatter record of the logger, and select the
formatter from the settings record, which they leave as it was: for every
logger `SetTimeUTC true` and `SetTimeUTC false` install the same formatter. On
a logger built with the default settings, after `SetTimeUTC true` the logger
reports UTC while the writer keeps the local formatter; after
`SetTimeStampLevel milli` it reports milli while the writer keeps the formatter
of the default level; `SetTimeStampLevelName milli` stores 1 as the log level
and leaves the stamp level and the formatter as they were. -/
theorem sys_setters_keep_stale_formatter (s0 : Sys) :
    installedFormatter (s0.SetTimeUTC true) = installedFormatter (s0.SetTimeUTC false)
    ∧ ∃ s s1 s2 s3,
      NewSys exampleNet (some (exampleSettings "")) {} = .ok s
      ∧ s.SetTimeUTC true = .ok s1
      ∧ s1.IsTimeUTC = some true
      ∧ installedFormatter (.ok s1) = some .RFC5424Time
      ∧ sysFormatter { Format := "", Time := some { IsUTC := true, Level := 0 } }
          = some .RFC5424TimeUTC
      ∧ s.SetTimeStampLevel TIME_STAMP_LEVEL_MILLI = .ok s2
      ∧ s2.TimeStampLevel = some TIME_STAMP_LEVEL_MILLI
      ∧ installedFormatter (.ok s2) = some .RFC5424Time
      ∧ sysFormatter { Format := "", Time := some { IsUTC := false, Level := 1 } }
          = some .RFC5424TimeMilli
      ∧ s.SetTimeStampLevelName exampleLib "milli" = .ok s3
      ∧ s3.TimeStampLevel = s.TimeStampLevel
      ∧ s3.format.map (fun f => f.Level) = some 1
      ∧ installedFormatter (.ok s3) = some .RFC5424Time := by
  constructor
  · unfold Sys.SetTimeUTC
    cases hf : s0.format with
    | none => rfl
    | some f =>
      simp only [Sys.refreshFormatter]
      cases s0.settings with
      | none => rfl
      | some st =>
        cases s0.writer with
        | none => rfl
        | some w =>
          simp only
          cases sysFormatter st <;> rfl
  · refine ⟨_, _, _, _, rfl, rfl, by decide, by decide, by decide, rfl, by decide, by decide,
      by decide, rfl, by decide, by decide, by decide⟩

end Logs

namespace Logs

/-! ## C7, C8, C9: the rendered message -/

theorem goBytes_append (a b : String) : goBytes (a ++ b) = goBytes a ++ goBytes b := by
  unfold goBytes
  rw [String.data_append, List.map_append, List.flatten_append]

theorem truncateStartStr_short (s : List Nat)
    (h : s.length ≤ SYS_FORMATTER_RFC5424_NAME_MAX_LENGTH) : truncateStartStr s = s := by
  unfold truncateStartStr
  rw [if_neg (by omega)]

theorem truncateStartStr_long (s : List Nat)
    (h : SYS_FORMATTER_RFC5424_NAME_MAX_LENGTH < s.length) :
    (truncateStartStr s).length = SYS_FORMATTER_RFC5424_NAME_MAX_LENGTH
    ∧ s = s.take (s.length - SYS_FORMATTER_RFC5424_NAME_MAX_LENGTH) ++ truncateStartStr s := by
  unfold truncateStartStr
  rw [if_pos h]
  refine ⟨?_, (List.take_append_drop _ _).symm⟩
  rw [List.length_drop]
  omega

theorem sysAppName_nonempty (env : Env) (an : String) (h : an ≠ EMPTY_STRING) :
    sysAppName env an = goBytes an := by
  unfold sysAppName
  rw [if_neg h]

theorem rfc5424_sprintf_render (env : Env) (p : Nat) (hostname appName tag m : String) :
    ∀ x ∈ sprintfFormattersRFC5424,
      x.1.call env p hostname appName tag m
        = goBytes ("<" ++ toString p ++ ">" ++ toString 1 ++ " " ++ env.now x.2.1 x.2.2 ++ " "
            ++ hostname ++ " ")
          ++ sysAppName env appName
          ++ goBytes (" " ++ toString env.pid ++ " " ++ tag ++ " - " ++ m) := by
  intro x hx
  simp only [sprintfFormattersRFC5424, List.mem_cons, List.mem_singleton, List.not_mem_nil,
    or_false] at hx
  rcases hx with h | h | h | h | h <;> subst h <;> rfl

end Logs

namespace Logs

/-- C7, the claim as stated fails: the empty application name, which has at
most 48 bytes, is not carried unchanged, the program name logs takes its place;
and an application name of 49 bytes is carried whole in the APP-NAME field. -/
theorem rfc5424_appName_not_truncated :
    SysFormatter.RFC5424TimeUTC.call exampleEnv 14 "h" "" "t" "hello"
        = goBytes "<14>1 2006-01-02T15:04:05Z h logs 100 t - hello"
    ∧ (goBytes longAppName).length = 49
    ∧ SysFormatter.RFC5424TimeUTC.call exampleEnv 14 "h" longAppName "t" "hello"
        = goBytes ("<14>1 2006-01-02T15:04:05Z h " ++ longAppName ++ " 100 t - hello") := by
  decide

/-- C7 as amended: each RFC 5424 formatter that renders with `Sprintf` carries a
non-empty application name of at most 48 bytes unchanged in the APP-NAME field;
for the empty application name it carries the program name `os.Args[0]`,
unchanged when that has at most 48 bytes and cut to its last 48 bytes when it
is longer. -/
theorem rfc5424_appName_field (env : Env) (p : Nat) (hostname appName tag m : String) :
    (appName ≠ "" → (goBytes appName).length ≤ 48 →
      ∀ x ∈ sprintfFormattersRFC5424,
        x.1.call env p hostname appName tag m
          = goBytes ("<" ++ toString p ++ ">1 " ++ env.now x.2.1 x.2.2 ++ " " ++ hostname
              ++ " " ++ appName ++ " " ++ toString env.pid ++ " " ++ tag ++ " - " ++ m))
    ∧ (∀ x ∈ sprintfFormattersRFC5424,
        x.1.call env p hostname "" tag m
          = goBytes ("<" ++ toString p ++ ">1 " ++ env.now x.2.1 x.2.2 ++ " " ++ hostname ++ " ")
            ++ truncateStartStr (goBytes env.arg0)
            ++ goBytes (" " ++ toString env.pid ++ " " ++ tag ++ " - " ++ m))
    ∧ (∀ s : List Nat, s.length ≤ 48 → truncateStartStr s = s)
    ∧ (∀ s : List Nat, 48 < s.length →
        (truncateStartStr s).length = 48
        ∧ s = s.take (s.length - 48) ++ truncateStartStr s) := by
  refine ⟨?_, ?_, truncateStartStr_short, truncateStartStr_long⟩
  · intro ha _ x hx
    rw [rfc5424_sprintf_render env p hostname appName tag m x hx, sysAppName_nonempty env _ ha,
      ← goBytes_append, ← goBytes_append]
    simp only [String.append_assoc]
    rfl
  · intro x hx
    rw [rfc5424_sprintf_render env p hostname "" tag m x hx]
    simp only [String.append_assoc]
    rfl

theorem rfc5424_appName_field_witness :
    SysFormatter.RFC5424Time.call exampleEnv 14 "h" "app" "t" "hello"
        = goBytes "<14>1 2006-01-02T15:04:05-07:00 h app 100 t - hello"
    ∧ truncateStartStr (goBytes "logs") = goBytes "logs"
    ∧ (truncateStartStr (goBytes ("é" ++ ⟨List.replicate 47 'a'⟩))).length = 48
    ∧ goBytes "é" = [195, 169]
    ∧ truncateStartStr (goBytes ("é" ++ ⟨List.replicate 47 'a'⟩))
        = 169 :: goBytes ⟨List.replicate 47 'a'⟩ :=
  ⟨(rfc5424_appName_field exampleEnv 14 "h" "app" "t" "hello").1 (by decide) (by decide)
      (.RFC5424Time, false, TIME_FORMAT_RFC3339) (by decide),
   (rfc5424_appName_field exampleEnv 14 "h" "app" "t" "hello").2.2.1 (goBytes "logs")
      (by decide),
   ((rfc5424_appName_field exampleEnv 14 "h" "app" "t" "hello").2.2.2
      (goBytes ("é" ++ ⟨List.replicate 47 'a'⟩)) (by decide)).1,
   by decide, by decide⟩

/-- C8, the claim as stated fails: with application name a and tag t the
RFC 3164 formatter for UTC and milli precision puts the tag t, not the
application name, before the process id. -/
theorem rfc3164_renders_tag_not_appName :
    SysFormatter.RFC3164TimeUTCMilli.call exampleEnv 14 "h" "a" "t" "hello"
        = goBytes "<14>Jan  2 15:04:05.000 h t[100]: hello"
    ∧ SysFormatter.RFC3164TimeUTCMilli.call exampleEnv 14 "h" "a" "t" "hello"
        ≠ goBytes "<14>Jan  2 15:04:05.000 h a[100]: hello" := by
  decide

/-- C8 as amended: each RFC 3164 formatter that renders with `Sprintf` yields
exactly `<p>timestamp hostname tag[pid]: content`, the time stamp being the
current time in the layout and zone of the variant; the application name does
not enter the message. -/
theorem rfc3164_sprintf_render (env : Env) (p : Nat) (hostname appName tag content : String) :
    ∀ x ∈ sprintfFormattersRFC3164,
      x.1.call env p hostname appName tag content
        = goBytes ("<" ++ toString p ++ ">" ++ env.now x.2.1 x.2.2 ++ " " ++ hostname ++ " "
            ++ tag ++ "[" ++ toString env.pid ++ "]: " ++ content) := by
  intro x hx
  simp only [sprintfFormattersRFC3164, List.mem_cons, List.mem_singleton, List.not_mem_nil,
    or_false] at hx
  rcases hx with h | h | h | h | h <;> subst h <;> rfl

theorem rfc3164_sprintf_render_witness :
    SysFormatter.RFC3164TimeUTCMilli.call exampleEnv 14 "h" "a" "t" "hello"
      = goBytes ("<14>" ++ "Jan  2 15:04:05.000" ++ " " ++ "h" ++ " " ++ "t" ++ "[" ++ "100"
          ++ "]: " ++ "hello") :=
  rfc3164_sprintf_render exampleEnv 14 "h" "a" "t" "hello"
    (.RFC3164TimeUTCMilli, true, TIME_FORMAT_STAMP_MILLI) (by decide)

/-- C9: evaluation of the code where it departs from the claim. The formatter
selected for RFC 5424, local time and the stamp level micro or nano renders
nothing itself: it hands the message to the client package with a record whose
structured data is the fixed group test (aarg1 = 123, arg2 = ssssss), which no
caller supplied, whose time stamp is flagged UTC, and whose application name
has not passed `sysAppName`. The five other RFC 5424 formatters render the
template with version 1, the tag as message id and `-` as structured data. -/
theorem rfc5424_local_micro_delegates (env : Env) (p : Nat)
    (hostname appName tag m : String) :
    sysFormatterRFC5424 { Format := SYS_FORMAT_RFC5424,
                          Time := some { IsUTC := false, Level := TIME_STAMP_LEVEL_MICRO } }
        = some .RFC5424TimeMicro
    ∧ sysFormatterRFC5424 { Format := SYS_FORMAT_RFC5424,
                            Time := some { IsUTC := false, Level := TIME_STAMP_LEVEL_NANO } }
        = some .RFC5424TimeMicro
    ∧ SysFormatter.RFC5424TimeMicro.call env p hostname appName tag m
        = goBytes (env.rfc5424String (rfc5424MicroRecord hostname appName tag) p m)
    ∧ (rfc5424MicroRecord hostname appName tag).StructuredData
        = [{ ID := "test", Params := [("aarg1", .int 123), ("arg2", .str "ssssss")] }]
    ∧ (rfc5424MicroRecord hostname appName tag).Header.TimestampIsUTC = true
    ∧ (rfc5424MicroRecord hostname appName tag).Header.AppName = appName
    ∧ (appName ≠ "" → ∀ x ∈ sprintfFormattersRFC5424,
        x.1.call env p hostname appName tag m
          = goBytes ("<" ++ toString p ++ ">1 " ++ env.now x.2.1 x.2.2 ++ " " ++ hostname ++ " "
            ++ appName ++ " " ++ toString env.pid ++ " " ++ tag ++ " - " ++ m)) := by
  refine ⟨by decide, by decide, rfl, rfl, rfl, rfl, ?_⟩
  intro ha x hx
  rw [rfc5424_sprintf_render env p hostname appName tag m x hx, sysAppName_nonempty env _ ha,
    ← goBytes_append, ← goBytes_append]
  simp only [String.append_assoc]
  rfl

theorem rfc5424_local_micro_delegates_witness :
    SysFormatter.RFC5424TimeUTCMicro.call exampleEnv 14 "h" "a" "t" "hello"
        = goBytes "<14>1 2006-01-02T15:04:05Z h a 100 t - hello"
    ∧ SysFormatter.RFC5424TimeMicro.call exampleEnv 14 "h" "a" "t" "hello"
        = goBytes (exampleEnv.rfc5424String (rfc5424MicroRecord "h" "a" "t") 14 "hello") :=
  ⟨(rfc5424_local_micro_delegates exampleEnv 14 "h" "a" "t" "hello").2.2.2.2.2.2 (by decide)
      (.RFC5424TimeUTCMicro, true, TIME_FORMAT_RFC3339_MICRO) (by decide),
   (rfc5424_local_micro_delegates exampleEnv 14 "h" "a" "t" "hello").2.2.1⟩

/-! ## C10: the scheme of a connection given by fields -/

theorem IsScheme_iff (s : String) :
    IsScheme s = true ↔ s ∈ ["udp", "tcp", "tcp+tls", "unix", "unixgram"] := by
  simp [IsScheme, schemes, URL_SCHEME_UDP, URL_SCHEME_TCP, URL_SCHEME_TCP_TLS,
    URL_SCHEME_UNIX, URL_SCHEME_UNIXGRAM]

/-- C10: `SocketScheme` succeeds exactly on the schemes udp, tcp, tcp+tls, unix
and unixgram; for a connection with an empty URL and any other scheme
`SocketConnection` returns an error and leaves every field of the connection
as it was. -/
theorem socketConnection_rejects_scheme (net : Net) (c : Connection) (udpPort tcpPort : Int) :
    (SocketScheme c = none ↔ c.Scheme ∈ ["udp", "tcp", "tcp+tls", "unix", "unixgram"])
    ∧ (c.URL = "" → c.Scheme ∉ ["udp", "tcp", "tcp+tls", "unix", "unixgram"] →
        ∃ e, SocketConnection net c udpPort tcpPort = (c, some e)) := by
  have hs : SocketScheme c = none ↔ IsScheme c.Scheme = true := by
    unfold SocketScheme
    cases IsScheme c.Scheme <;> simp
  refine ⟨hs.trans (IsScheme_iff _), ?_⟩
  intro hurl hbad
  have hno : IsScheme c.Scheme = false := by
    cases h : IsScheme c.Scheme
    · rfl
    · exact absurd ((IsScheme_iff _).1 h) hbad
  refine ⟨"Scheme should be udp, tcp, tcp+tls, unix, unixgram, got " ++ c.Scheme, ?_⟩
  have hurl1 : c.URL = EMPTY_STRING := hurl
  unfold SocketConnection
  rw [if_pos hurl1]
  simp [SocketScheme, hno]

theorem socketConnection_rejects_scheme_witness :
    SocketScheme { Scheme := "tcp+tls" } = none
    ∧ ∃ e, SocketConnection exampleNet { Scheme := "http", Host := "h", Port := 80 } 514 6514
        = ({ Scheme := "http", Host := "h", Port := 80 }, some e) :=
  ⟨(socketConnection_rejects_scheme exampleNet { Scheme := "tcp+tls" } 514 6514).1.2
      (by decide),
   (socketConnection_rejects_scheme exampleNet { Scheme := "http", Host := "h", Port := 80 }
      514 6514).2 rfl (by decide)⟩

end Logs
namespace Logs

/-! ## Decimal numerals: `strconv.Itoa` followed by `strconv.Atoi` -/

theorem digitVal_digitChar (k : Nat) (h : k < 10) : digitVal (Nat.digitChar k) = some k := by
  interval_cases k <;> decide

theorem digitsVal_toDigitsCore (fuel : Nat) :
    ∀ (n : Nat) (ds : List Char), n < fuel →
      digitsVal (Nat.toDigitsCore 10 fuel n ds) 0 = digitsVal ds n := by
  induction fuel with
  | zero => intro n ds h; omega
  | succ fuel ih =>
    intro n ds h
    have hd : digitVal (Nat.digitChar (n % 10)) = some (n % 10) :=
      digitVal_digitChar _ (Nat.mod_lt _ (by decide))
    unfold Nat.toDigitsCore
    simp only
    by_cases h0 : n / 10 = 0
    · rw [if_pos h0]
      have hn : n % 10 = n := Nat.mod_eq_of_lt (by omega)
      rw [hn] at hd
      simp only [digitsVal, hd, Nat.zero_mul, Nat.zero_add, hn]
    · rw [if_neg h0, ih (n / 10) _ (by omega)]
      simp only [digitsVal, hd]
      congr 1
      omega

theorem digitsVal_toDigits (n : Nat) : digitsVal (Nat.toDigits 10 n) 0 = some n := by
  unfold Nat.toDigits
  rw [digitsVal_toDigitsCore (n + 1) n [] (by omega)]
  rfl

theorem toDigitsCore_ne_nil (fuel : Nat) :
    ∀ (n : Nat) (ds : List Char), (ds ≠ [] ∨ 0 < fuel) → Nat.toDigitsCore 10 fuel n ds ≠ [] := by
  induction fuel with
  | zero =>
    intro n ds h
    rcases h with h | h
    · simpa [Nat.toDigitsCore] using h
    · omega
  | succ fuel ih =>
    intro n ds _
    unfold Nat.toDigitsCore
    simp only
    by_cases h0 : n / 10 = 0
    · rw [if_pos h0]; exact List.cons_ne_nil _ _
    · rw [if_neg h0]; exact ih _ _ (Or.inl (List.cons_ne_nil _ _))

theorem Atoi_toString_nat (n : Nat) (h : n < 2 ^ 63) : Atoi (toString n) = ((n : Int), none) := by
  have hval := digitsVal_toDigits n
  have hne : Nat.toDigits 10 n ≠ [] := toDigitsCore_ne_nil _ _ _ (Or.inr (by omega))
  have hdata : (toString n).data = Nat.toDigits 10 n := rfl
  unfold Atoi
  rw [hdata]
  cases hl : Nat.toDigits 10 n with
  | nil => exact absurd hl hne
  | cons c cs =>
    rw [hl] at hval
    have hc : digitVal c ≠ none := by
      intro hnone
      simp [digitsVal, hnone] at hval
    have hminus : c ≠ '-' := by
      intro hEq; subst hEq; exact hc (by decide)
    have hplus : c ≠ '+' := by
      intro hEq; subst hEq; exact hc (by decide)
    simp only [hminus, hplus, if_false, atoiDigits, hval, atoiClamp, h, if_true]
    rfl

theorem Atoi_toString_int (p : Int) (h0 : 0 ≤ p) (h1 : p < 2 ^ 63) :
    Atoi (toString p) = (p, none) := by
  obtain ⟨n, rfl⟩ := Int.eq_ofNat_of_zero_le h0
  have hs : toString (n : Int) = toString n := rfl
  rw [hs]
  exact Atoi_toString_nat n (by exact_mod_cast h1)

end Logs

namespace Logs

/-! ## C11: the port of a connection given by fields -/

/-- C11: evaluation of the code where it departs from the claim. The port test
of `SocketAddress` asks for a port below 1 and above 65535 at once, so it never
fires: with a non-empty host every port is accepted, and `SocketConnection`
resolves the ports 0, -1 and 65536 without an error. -/
theorem socketAddress_accepts_every_port (c : Connection) (udpPort tcpPort : Int)
    (hhost : c.Host ≠ EMPTY_STRING) :
    SocketAddress c udpPort tcpPort = ({ c with Address := SocketAddressBuild c }, none)
    ∧ SocketConnection stdNet { Scheme := "udp", Host := "h", Port := 0 } 514 6514
        = ({ Scheme := "udp", Host := "h", Port := 0, Address := "h:0", URL := "udp://h:0" },
            none)
    ∧ SocketConnection stdNet { Scheme := "tcp", Host := "h", Port := -1 } 514 6514
        = ({ Scheme := "tcp", Host := "h", Port := -1, Address := "h:-1", URL := "tcp://h:-1" },
            none)
    ∧ SocketConnection stdNet { Scheme := "tcp+tls", Host := "h", Port := 65536 } 514 6514
        = ({ Scheme := "tcp+tls", Host := "h", Port := 65536, Address := "h:65536",
             URL := "tcp+tls://h:65536" }, none) := by
  refine ⟨?_, by decide, by decide, by decide⟩
  unfold SocketAddress
  rw [if_neg hhost, if_neg]
  intro h
  simp only [URL_PORT_MIN, URL_PORT_MAX] at h
  omega

theorem socketAddress_accepts_every_port_witness :
    SocketAddress { Scheme := "udp", Host := "h", Port := 0 } 514 6514
      = ({ Scheme := "udp", Host := "h", Port := 0, Address := "h:0" }, none) :=
  (socketAddress_accepts_every_port { Scheme := "udp", Host := "h", Port := 0 } 514 6514
    (by decide)).1

/-! ## C15: a unix socket given by fields -/

/-- C15: evaluation of the code where it departs from the claim. A connection
given as scheme unix or unixgram with a socket path, and no URL, host, port or
address, passes `SocketScheme` and is then rejected by `SocketAddress` for its
empty host. -/
theorem socketConnection_rejects_unix_fields (net : Net) (p : String) (udpPort tcpPort : Int) :
    SocketConnection net { Scheme := "unix", SocketPath := p } udpPort tcpPort
        = ({ Scheme := "unix", SocketPath := p }, some "Host should be defined")
    ∧ SocketConnection net { Scheme := "unixgram", SocketPath := p } udpPort tcpPort
        = ({ Scheme := "unixgram", SocketPath := p }, some "Host should be defined") := by
  constructor <;> rfl

/-! ## C17: the TLS check -/

/-- C17: `TCPTLSCheck` returns an error for an absent bundle and for a bundle
without the files block; for a bundle with `IsInsecure = false` it returns an
error whenever one of the three paths is empty, so every such bundle it accepts
has the three paths non-empty. The check does not read `IsInsecure`. -/
theorem TCPTLSCheck_requires_paths (t : TCPTLS) :
    TCPTLSCheck none ≠ none
    ∧ (t.Files = none → TCPTLSCheck (some t) ≠ none)
    ∧ (t.IsInsecure = false →
        (∀ f, t.Files = some f →
          (f.RootCACrt = "" ∨ f.ClientCrt = "" ∨ f.ClientKey = "") →
          TCPTLSCheck (some t) ≠ none)
        ∧ (TCPTLSCheck (some t) = none →
            ∃ f, t.Files = some f ∧ f.RootCACrt ≠ "" ∧ f.ClientCrt ≠ "" ∧ f.ClientKey ≠ ""))
    ∧ TCPTLSCheck (some { t with IsInsecure := true })
        = TCPTLSCheck (some { t with IsInsecure := false }) := by
  have key : ∀ f, t.Files = some f →
      (TCPTLSCheck (some t) = none ↔ f.RootCACrt ≠ "" ∧ f.ClientCrt ≠ "" ∧ f.ClientKey ≠ "") := by
    intro f hf
    simp only [TCPTLSCheck, hf, EMPTY_STRING]
    by_cases h1 : f.RootCACrt = "" <;> by_cases h2 : f.ClientCrt = "" <;>
      by_cases h3 : f.ClientKey = "" <;> simp [h1, h2, h3]
  refine ⟨by decide, ?_, ?_, rfl⟩
  · intro hf
    simp [TCPTLSCheck, hf]
  · intro _
    constructor
    · intro f hf hempty hok
      have := (key f hf).1 hok
      rcases hempty with h | h | h
      · exact this.1 h
      · exact this.2.1 h
      · exact this.2.2 h
    · intro hok
      cases hf : t.Files with
      | none => simp [TCPTLSCheck, hf] at hok
      | some f => exact ⟨f, rfl, (key f hf).1 hok⟩

theorem TCPTLSCheck_requires_paths_witness :
    TCPTLSCheck (some {}) ≠ none
    ∧ TCPTLSCheck (some { Files := some { RootCACrt := "ca.crt", ClientKey := "k" } }) ≠ none
    ∧ ∃ f, exampleTLS.Files = some f ∧ f.RootCACrt ≠ "" ∧ f.ClientCrt ≠ "" ∧ f.ClientKey ≠ "" :=
  ⟨(TCPTLSCheck_requires_paths {}).2.1 rfl,
   ((TCPTLSCheck_requires_paths { Files := some { RootCACrt := "ca.crt", ClientKey := "k" } }).2.2.1
      rfl).1 _ rfl (by decide),
   ((TCPTLSCheck_requires_paths exampleTLS).2.2.1 rfl).2 (by decide)⟩

/-! ## C18: a syslog writer over TLS without a bundle -/

/-- C18: evaluation of the code where it departs from the claim. `sysWriter`
passes `s.TCP.TLS` to `TCPTLSConfig` without calling `TCPTLSCheck`, and
`TCPTLSConfig` reads `t.Files` and its three paths unguarded: for a tcp+tls
connection with an absent bundle, or a bundle without files, the call faults
instead of returning an error, for `sysWriter` on every network and for `NewSys`
on settings that leave `TCP` nil. `TCPTLSCheck` would have reported both. -/
theorem sysWriter_tls_absent_bundle_faults (net : Net) (s : SysSettings) (c : Connection)
    (hc : s.Connection = some c) (hscheme : c.Scheme = URL_SCHEME_TCP_TLS)
    (hfac : ∃ code, sysFacility s.Facility = .ok code)
    (htls : s.TCP = some { TLS := none } ∨
      ∃ t : TCPTLS, t.Files = none ∧ s.TCP = some { TLS := some t }) :
    (sysWriter net s).2 = .fault
    ∧ NewSys stdNet (some (exampleTLSSettings none)) {} = .fault
    ∧ NewSys stdNet (some (exampleTLSSettings (some { TLS := some { Files := none } }))) {}
        = .fault
    ∧ TCPTLSCheck none = some "TLS block must be defined"
    ∧ TCPTLSCheck (some { Files := none }) = some "TLS Files(files) block must be defined" := by
  refine ⟨?_, by decide, by decide, by decide, by decide⟩
  have hdial : ∀ facility, sysWriterDial net s c facility = .fault := by
    intro facility
    have h1 : ¬ (c.Scheme = URL_SCHEME_UDP ∨ c.Scheme = URL_SCHEME_TCP) := by
      rw [hscheme]; decide
    unfold sysWriterDial
    rw [if_neg h1, if_pos hscheme]
    rcases htls with h | ⟨t, ht, h⟩
    · rw [h]; rfl
    · rw [h]; simp only [TCPTLSConfig, ht]
  obtain ⟨code, hcode⟩ := hfac
  unfold sysWriter
  simp only [hcode, hc, hdial]

theorem sysWriter_tls_absent_bundle_faults_witness :
    (sysWriter stdNet (exampleTLSSettings (some { TLS := none }))).2 = .fault :=
  (sysWriter_tls_absent_bundle_faults stdNet (exampleTLSSettings (some { TLS := none }))
    { Scheme := "tcp+tls", Host := "h", Port := 6514 } rfl rfl ⟨24, by decide⟩ (Or.inl rfl)).1

end Logs

namespace Logs

/-! ## C19, C20: the GELF settings check -/

/-- C19: evaluation of the code where it departs from the claim. For tcp+tls
the result of `TCPTLSCheck` is assigned to `err` after the two reconnection
tests, so with a complete TLS bundle a negative `Max` or `Delay` is accepted:
settings with Max = -1 and Delay = -5 pass with `isTCPTLS` set. For plain tcp
every negative `Max` or `Delay` is rejected. -/
theorem gelfSettingsCheck_tls_accepts_negative (recon : GELFTCPReconnection)
    (tls : Option TCPTLS) :
    (gelfSettingsCheck stdNet (exampleGELFTCP "tcp+tls" (-1) (-5) (some exampleTLS))).map
        (fun r => (r.settings.Connection.map (fun c => c.Scheme), r.isTCPTLS, r.err))
      = some (some "tcp+tls", true, none)
    ∧ gelfCheckTCP URL_SCHEME_TCP_TLS recon (some exampleTLS) = (true, none)
    ∧ (recon.Max < 0 ∨ recon.Delay < 0 → (gelfCheckTCP URL_SCHEME_TCP recon tls).2 ≠ none)
    ∧ (gelfSettingsCheck stdNet (exampleGELFTCP "tcp" (-1) 0 none)).map (fun r => r.err)
      = some (some "Max reconnection must be a positive integer") := by
  refine ⟨by decide, ?_, ?_, by decide⟩
  · have ht : TCPTLSCheck (some exampleTLS) = none := by decide
    simp only [gelfCheckTCP, if_true, ht, decide_True]
  intro h
  have hs : ¬ URL_SCHEME_TCP = URL_SCHEME_TCP_TLS := by decide
  simp only [gelfCheckTCP, if_neg hs]
  by_cases hd : recon.Delay < 0
  · simp [hd]
  · rcases h with h | h
    · simp [hd, h]
    · exact absurd h hd

theorem gelfSettingsCheck_tls_accepts_negative_witness :
    (gelfCheckTCP URL_SCHEME_TCP { Max := 0, Delay := -1 } none).2 ≠ none :=
  (gelfSettingsCheck_tls_accepts_negative { Max := 0, Delay := -1 } none).2.2.1
    (Or.inr (by decide))

/-- C20: evaluation of the code where it departs from the claim. The level test
of `gelfSettingsCheck` asks for a level below -1 and above 9 at once, so it
never fires: for udp the error depends on the compression type alone, and the
levels 10 and -2 are accepted with type gzip. A type outside gzip, zlib, none is
rejected, and the empty type is taken as none. -/
theorem gelfSettingsCheck_udp_accepts_every_level (comp : GELFUDPCompression) :
    (gelfCheckUDP comp = none ↔
        comp.Type_ = "gzip" ∨ comp.Type_ = "zlib" ∨ comp.Type_ = "none")
    ∧ (gelfSettingsCheck stdNet (exampleGELFUDP "gzip" 10)).map (fun r => (r.isUDP, r.err))
        = some (true, none)
    ∧ (gelfSettingsCheck stdNet (exampleGELFUDP "gzip" (-2))).map (fun r => (r.isUDP, r.err))
        = some (true, none)
    ∧ (gelfSettingsCheck stdNet (exampleGELFUDP "lz4" 1)).map (fun r => (r.isUDP, r.err))
        = some (true, some "Invalid compression type")
    ∧ (gelfSettingsCheck stdNet (exampleGELFUDP "" 1)).map (fun r => (r.isUDP, r.err))
        = some (true, none) := by
  refine ⟨?_, by decide, by decide, by decide, by decide⟩
  have hlevel : ¬ (comp.Level < GELF_UDP_COMPRESSION_LEVEL_NO
      ∧ comp.Level > GELF_UDP_COMPRESSION_LEVEL_MAX) := by
    simp only [GELF_UDP_COMPRESSION_LEVEL_NO, GELF_UDP_COMPRESSION_LEVEL_MAX]
    omega
  simp only [gelfCheckUDP, if_neg hlevel, GELF_UDP_COMPRESSION_TYPE_GZIP,
    GELF_UDP_COMPRESSION_TYPE_ZLIB, GELF_UDP_COMPRESSION_TYPE_NONE]
  constructor
  · intro h
    by_contra hn
    rw [if_neg hn] at h
    cases h
  · intro h
    rw [if_pos h]

/-! ## C16: socket URLs -/

theorem HasPrefix_iff (s p : String) : HasPrefix s p = true ↔ ∃ r : String, s = p ++ r := by
  unfold HasPrefix
  rw [List.isPrefixOf_iff_prefix]
  constructor
  · rintro ⟨t, ht⟩
    exact ⟨⟨t⟩, String.ext (by simp [← ht])⟩
  · rintro ⟨r, rfl⟩
    exact ⟨r.data, by simp⟩

/-- C16: `IsSocket` holds of a string exactly when it begins with one of
`udp://`, `tcp://`, `tcp+tls://`, `unix://`, `unixgram://`; it holds of
scheme, `://` and any remainder for every scheme `IsScheme` accepts, and of the
five URLs of the test. -/
theorem IsSocket_iff_begins (s : String) :
    (IsSocket s = true ↔
      ∃ p ∈ ["udp://", "tcp://", "tcp+tls://", "unix://", "unixgram://"],
        ∃ r : String, s = p ++ r)
    ∧ (∀ scheme r : String, IsScheme scheme = true → IsSocket (scheme ++ "://" ++ r) = true)
    ∧ (∀ u ∈ ["tcp://example.com", "tcp+tls://example.com", "udp://example.com",
          "unix:///example", "unixgram:///example"], IsSocket u = true) := by
  have hiff : ∀ x : String, IsSocket x = true ↔
      ∃ p ∈ ["udp://", "tcp://", "tcp+tls://", "unix://", "unixgram://"],
        ∃ r : String, x = p ++ r := by
    intro x
    unfold IsSocket isURL socketPrefixes
    rw [List.any_eq_true]
    constructor
    · rintro ⟨p, hp, h⟩
      exact ⟨p, hp, (HasPrefix_iff x p).1 h⟩
    · rintro ⟨p, hp, h⟩
      exact ⟨p, hp, (HasPrefix_iff x p).2 h⟩
  refine ⟨hiff s, ?_, by decide⟩
  intro scheme r hscheme
  rw [hiff]
  refine ⟨scheme ++ "://", ?_, r, rfl⟩
  have hmem := (IsScheme_iff scheme).1 hscheme
  simp only [List.mem_cons, List.mem_singleton, List.not_mem_nil, or_false] at hmem
  rcases hmem with h | h | h | h | h <;> subst h <;> decide

theorem IsSocket_iff_begins_witness :
    IsSocket ("tcp+tls" ++ "://" ++ "example.com") = true ∧ IsSocket "unix:///example" = true :=
  ⟨(IsSocket_iff_begins "").2.1 "tcp+tls" "example.com" (by decide),
   (IsSocket_iff_begins "").2.2 "unix:///example" (by decide)⟩

end Logs

namespace Logs

/-! ## C12, C13, C14: the resolved connection -/

theorem SocketURLBuild_of_address (c : Connection) (h : c.Address = SocketAddressBuild c) :
    SocketURLBuild c = c.Scheme ++ "://" ++ c.Address := by
  unfold SocketURLBuild
  by_cases he : c.Address = EMPTY_STRING
  · rw [if_pos he]
    rw [h]
    simp only [SocketAddressBuild, URL_HEAD_SEPARATOR, URL_PORT_SEPARATOR, String.append_assoc]
  · rw [if_neg he]
    rfl

theorem SocketURLBuild_of_nonempty (c : Connection) (h : c.Address ≠ EMPTY_STRING) :
    SocketURLBuild c = c.Scheme ++ "://" ++ c.Address := by
  unfold SocketURLBuild
  rw [if_neg h]
  rfl

theorem canonical_of_host_port (c : Connection) :
    ({ { c with Address := SocketAddressBuild c } with
        URL := SocketURLBuild { c with Address := SocketAddressBuild c } } : Connection).Address
      = c.Host ++ ":" ++ toString c.Port
    ∧ ({ { c with Address := SocketAddressBuild c } with
        URL := SocketURLBuild { c with Address := SocketAddressBuild c } } : Connection).URL
      = c.Scheme ++ "://" ++ SocketAddressBuild c :=
  ⟨rfl, SocketURLBuild_of_address { c with Address := SocketAddressBuild c } rfl⟩

theorem socketConnection_fields_canonical (net : Net) (c : Connection) (udpPort tcpPort : Int)
    (hurl : c.URL = EMPTY_STRING)
    (hok : (SocketConnection net c udpPort tcpPort).2 = none) :
    (SocketConnection net c udpPort tcpPort).1.URL
        = (SocketConnection net c udpPort tcpPort).1.Scheme ++ "://"
          ++ (SocketConnection net c udpPort tcpPort).1.Address
    ∧ (c.Address = EMPTY_STRING →
        (SocketConnection net c udpPort tcpPort).1.Address
          = (SocketConnection net c udpPort tcpPort).1.Host ++ ":"
            ++ toString (SocketConnection net c udpPort tcpPort).1.Port) := by
  unfold SocketConnection at hok ⊢
  rw [if_pos hurl] at hok ⊢
  cases hs : SocketScheme c with
  | some e => rw [hs] at hok; cases hok
  | none =>
    rw [hs] at hok
    simp only at hok ⊢
    by_cases ha : c.Address = EMPTY_STRING
    · rw [if_pos ha] at hok ⊢
      unfold SocketAddress at hok ⊢
      by_cases hh : c.Host = EMPTY_STRING
      · rw [if_pos hh] at hok; cases hok
      · rw [if_neg hh] at hok ⊢
        by_cases hp : c.Port < URL_PORT_MIN ∧ c.Port > URL_PORT_MAX
        · rw [if_pos hp] at hok; cases hok
        · rw [if_neg hp]
          exact ⟨(canonical_of_host_port c).2, fun _ => rfl⟩
    · rw [if_neg ha] at hok ⊢
      cases he : (net.splitHostPort c.Address).2.2 with
      | some e => simp only [he] at hok; cases hok
      | none =>
        simp only [he]
        exact ⟨SocketURLBuild_of_nonempty c ha, fun h => absurd h ha⟩

theorem socketURL_canonical (net : Net) (c : Connection) (udpPort tcpPort : Int)
    (hok : (SocketURL net c udpPort tcpPort).2 = none)
    (hscheme : (SocketURL net c udpPort tcpPort).1.Scheme ∈ ["udp", "tcp", "tcp+tls"]) :
    (SocketURL net c udpPort tcpPort).1.Address
        = (SocketURL net c udpPort tcpPort).1.Host ++ ":"
          ++ toString (SocketURL net c udpPort tcpPort).1.Port
    ∧ (SocketURL net c udpPort tcpPort).1.URL
        = (SocketURL net c udpPort tcpPort).1.Scheme ++ "://"
          ++ (SocketURL net c udpPort tcpPort).1.Address := by
  unfold SocketURL at hok hscheme ⊢
  by_cases hsock : IsSocket c.URL = true
  · simp only [hsock, Bool.not_true, Bool.false_eq_true, if_false] at hok hscheme ⊢
    cases hparse : net.urlParse c.URL with
    | fault => rw [hparse] at hok; cases hok
    | err e => rw [hparse] at hok; cases hok
    | ok sUrl =>
      rw [hparse] at hok hscheme
      simp only at hok hscheme ⊢
      by_cases hunix : sUrl.Scheme = URL_SCHEME_UNIX ∨ sUrl.Scheme = URL_SCHEME_UNIXGRAM
      · rw [if_pos hunix] at hok hscheme
        exfalso
        cases hst : net.stat sUrl.Path with
        | some e => rw [hst] at hok; cases hok
        | none =>
          rw [hst] at hscheme
          simp only [List.mem_cons, List.mem_singleton, List.not_mem_nil, or_false] at hscheme
          rcases hunix with h | h <;> rw [h] at hscheme <;> revert hscheme <;> decide
      · rw [if_neg hunix] at hok hscheme ⊢
        by_cases hthree : sUrl.Scheme = URL_SCHEME_UDP ∨ sUrl.Scheme = URL_SCHEME_TCP
            ∨ sUrl.Scheme = URL_SCHEME_TCP_TLS
        · rw [if_pos hthree] at hok hscheme ⊢
          cases hsp : (net.splitHostPort sUrl.Host).2.2 with
          | some e =>
            simp only [hsp] at hok hscheme ⊢
            by_cases hc : Contains e "missing port in address" = true
            · rw [if_pos hc]
              exact ⟨rfl, SocketURLBuild_of_address _ rfl⟩
            · rw [if_neg hc] at hok; cases hok
          | none =>
            simp only [hsp]
            exact ⟨rfl, SocketURLBuild_of_address _ rfl⟩
        · rw [if_neg hthree] at hscheme
          exfalso
          simp only [List.mem_cons, List.mem_singleton, List.not_mem_nil, or_false] at hscheme
          exact hthree hscheme
  · simp only [hsock, Bool.not_false, if_true] at hok
    rw [Bool.not_eq_true] at hsock
    simp [hsock] at hok

end Logs

namespace Logs

/-- C12, the claim as stated fails: a connection given as scheme and address
resolves without an error while its host and port stay empty and zero, so its
address is not host, colon, port. -/
theorem socketConnection_address_not_from_host :
    SocketConnection stdNet { Scheme := "udp", Address := "h:514" } 514 6514
        = ({ Scheme := "udp", Address := "h:514", URL := "udp://h:514" }, none)
    ∧ (SocketConnection stdNet { Scheme := "udp", Address := "h:514" } 514 6514).1.Address
        ≠ (SocketConnection stdNet { Scheme := "udp", Address := "h:514" } 514 6514).1.Host
          ++ ":"
          ++ toString (SocketConnection stdNet { Scheme := "udp", Address := "h:514" } 514
              6514).1.Port := by
  decide

/-- C12 as amended: after every successful `SocketConnection` of a connection
given by fields the URL is scheme, `://`, address, and when no address was given
the address is host, colon, decimal port; after every successful
`SocketConnection` of a connection given as a URL whose scheme is udp, tcp or
tcp+tls both equations hold. A connection given as scheme and address keeps the
host and port it was given. -/
theorem socketConnection_canonical (net : Net) (c : Connection) (udpPort tcpPort : Int)
    (hok : (SocketConnection net c udpPort tcpPort).2 = none) :
    (c.URL = "" →
      (SocketConnection net c udpPort tcpPort).1.URL
          = (SocketConnection net c udpPort tcpPort).1.Scheme ++ "://"
            ++ (SocketConnection net c udpPort tcpPort).1.Address
      ∧ (c.Address = "" →
          (SocketConnection net c udpPort tcpPort).1.Address
            = (SocketConnection net c udpPort tcpPort).1.Host ++ ":"
              ++ toString (SocketConnection net c udpPort tcpPort).1.Port)
      ∧ (c.Address ≠ "" →
          (SocketConnection net c udpPort tcpPort).1.Host = c.Host
          ∧ (SocketConnection net c udpPort tcpPort).1.Port = c.Port))
    ∧ (c.URL ≠ "" →
      (SocketConnection net c udpPort tcpPort).1.Scheme ∈ ["udp", "tcp", "tcp+tls"] →
      (SocketConnection net c udpPort tcpPort).1.Address
          = (SocketConnection net c udpPort tcpPort).1.Host ++ ":"
            ++ toString (SocketConnection net c udpPort tcpPort).1.Port
      ∧ (SocketConnection net c udpPort tcpPort).1.URL
          = (SocketConnection net c udpPort tcpPort).1.Scheme ++ "://"
            ++ (SocketConnection net c udpPort tcpPort).1.Address) := by
  constructor
  · intro hurl
    have h := socketConnection_fields_canonical net c udpPort tcpPort hurl hok
    refine ⟨h.1, h.2, ?_⟩
    intro ha
    have ha1 : ¬ c.Address = EMPTY_STRING := ha
    have hurl1 : c.URL = EMPTY_STRING := hurl
    unfold SocketConnection at hok ⊢
    rw [if_pos hurl1] at hok ⊢
    cases hs : SocketScheme c with
    | some e => rw [hs] at hok; cases hok
    | none =>
      rw [hs] at hok
      simp only [if_neg ha1] at hok ⊢
      cases he : (net.splitHostPort c.Address).2.2 with
      | some e => simp only [he] at hok; cases hok
      | none => exact ⟨rfl, rfl⟩
  · intro hurl hscheme
    have hurl1 : ¬ c.URL = EMPTY_STRING := hurl
    have heq : SocketConnection net c udpPort tcpPort = SocketURL net c udpPort tcpPort := by
      unfold SocketConnection
      rw [if_neg hurl1]
    rw [heq] at hok hscheme ⊢
    exact socketURL_canonical net c udpPort tcpPort hok hscheme

theorem socketConnection_canonical_witness :
    (SocketConnection stdNet { Scheme := "udp", Host := "h", Port := 514 } 514 6514).1.URL
        = "udp" ++ "://" ++ "h:514"
    ∧ (SocketConnection stdNet { URL := "udp://h:514" } 514 6514).1.Address
        = "h" ++ ":" ++ toString (514 : Int) :=
  ⟨((socketConnection_canonical stdNet { Scheme := "udp", Host := "h", Port := 514 } 514 6514
      (by decide)).1 rfl).1,
   ((socketConnection_canonical stdNet { URL := "udp://h:514" } 514 6514 (by decide)).2
      (by decide) (by decide)).1⟩

/-- C13: evaluation of the code where it departs from the claim. For the URL
`tcp://example.com` the call `net.SplitHostPort("example.com")` fails for the
missing port and returns an empty host; `SocketURL` substitutes the default
port 6514 and then stores that empty host: the connection ends with Host empty,
Address `:6514` and URL `tcp://:6514`, where the claim has Host `example.com`,
Address `example.com:6514` and URL `tcp://example.com:6514`. -/
theorem socketURL_default_port_loses_host :
    goSplitHostPort "example.com"
        = ("", "", some "address example.com: missing port in address")
    ∧ SocketURL stdNet { URL := "tcp://example.com" } 514 6514
        = ({ URL := "tcp://:6514", Scheme := "tcp", Address := ":6514", Host := "",
             Port := 6514 }, none)
    ∧ SocketConnection stdNet { URL := "tcp://example.com" } 514 6514
        = ({ URL := "tcp://:6514", Scheme := "tcp", Address := ":6514", Host := "",
             Port := 6514 }, none) := by
  decide

/-- C14, the claim as stated fails: for scheme udp, the non-empty host `::1`
and port 514 the fields resolve to the URL `udp://::1:514`, and resolving a
connection that holds only this URL is an error, since `net.SplitHostPort`
finds too many colons. -/
theorem socketConnection_roundtrip_fails_ipv6 :
    SocketConnection stdNet { Scheme := "udp", Host := "::1", Port := 514 } 514 6514
        = ({ Scheme := "udp", Host := "::1", Port := 514, Address := "::1:514",
             URL := "udp://::1:514" }, none)
    ∧ goSplitHostPort "::1:514" = ("", "", some "address ::1:514: too many colons in address")
    ∧ (SocketConnection stdNet { URL := "udp://::1:514" } 514 6514).2
        = some "Please provide socket address as scheme://host:port" := by
  decide

/-- C14 as amended: for every scheme in udp, tcp, tcp+tls, every port in
[1,65535] and every non-empty host such that `url.Parse` reads the URL
scheme://host:port as that scheme with the authority host:port and
`net.SplitHostPort` splits host:port into host and port, resolving the fields
yields the URL scheme://host:port, and resolving a fresh connection holding
only that URL yields the same scheme, host and port. -/
theorem socketConnection_url_roundtrip (net : Net) (scheme host path : String)
    (port udpPort tcpPort : Int)
    (hscheme : scheme ∈ ["udp", "tcp", "tcp+tls"]) (hhost : host ≠ "")
    (hport : 1 ≤ port ∧ port ≤ 65535)
    (hparse : net.urlParse (scheme ++ "://" ++ (host ++ ":" ++ toString port))
      = .ok { Scheme := scheme, Host := host ++ ":" ++ toString port, Path := path })
    (hsplit : net.splitHostPort (host ++ ":" ++ toString port) = (host, toString port, none)) :
    ∃ c1 c2 : Connection,
      SocketConnection net { Scheme := scheme, Host := host, Port := port } udpPort tcpPort
        = (c1, none)
      ∧ c1.URL = scheme ++ "://" ++ (host ++ ":" ++ toString port)
      ∧ SocketConnection net { URL := c1.URL } udpPort tcpPort = (c2, none)
      ∧ c2.Scheme = scheme ∧ c2.Host = host ∧ c2.Port = port := by
  have hIsScheme : IsScheme scheme = true := by
    rw [IsScheme_iff]
    simp only [List.mem_cons, List.mem_singleton, List.not_mem_nil, or_false] at hscheme ⊢
    rcases hscheme with h | h | h
    · exact Or.inl h
    · exact Or.inr (Or.inl h)
    · exact Or.inr (Or.inr (Or.inl h))
  have hsock : IsSocket (scheme ++ "://" ++ (host ++ ":" ++ toString port)) = true :=
    (IsSocket_iff_begins "").2.1 scheme _ hIsScheme
  have hne : ¬ (scheme ++ "://" ++ (host ++ ":" ++ toString port)) = EMPTY_STRING := by
    intro h
    rw [h] at hsock
    revert hsock
    decide
  have hatoi : Atoi (toString port) = (port, none) :=
    Atoi_toString_int port (by omega) (by omega)
  have hthree : scheme = URL_SCHEME_UDP ∨ scheme = URL_SCHEME_TCP
      ∨ scheme = URL_SCHEME_TCP_TLS := by
    simpa only [List.mem_cons, List.mem_singleton, List.not_mem_nil, or_false] using hscheme
  have hnotunix : ¬ (scheme = URL_SCHEME_UNIX ∨ scheme = URL_SCHEME_UNIXGRAM) := by
    rcases hthree with h | h | h <;> rw [h] <;> decide
  have hfirst :
      SocketConnection net { Scheme := scheme, Host := host, Port := port } udpPort tcpPort
        = ({ Scheme := scheme, Host := host, Port := port,
             Address := host ++ ":" ++ toString port,
             URL := scheme ++ "://" ++ (host ++ ":" ++ toString port) }, none) := by
    have hp : ¬ (port < URL_PORT_MIN ∧ port > URL_PORT_MAX) := by
      simp only [URL_PORT_MIN, URL_PORT_MAX]; omega
    simp only [SocketConnection, SocketScheme, hIsScheme, SocketAddress, hhost, hp,
      EMPTY_STRING, Bool.not_true, Bool.false_eq_true, if_false, if_true]
    rw [SocketURLBuild_of_address _ rfl]
    rfl
  refine ⟨_, { Scheme := scheme, Host := host, Port := port,
                Address := host ++ ":" ++ toString port,
                URL := scheme ++ "://" ++ (host ++ ":" ++ toString port) },
    hfirst, rfl, ?_, rfl, rfl, rfl⟩
  simp only [SocketConnection, if_neg hne, SocketURL, hsock, hparse, hsplit, hatoi,
    if_neg hnotunix, if_pos hthree, Bool.not_true, Bool.false_eq_true, if_false]
  rw [SocketURLBuild_of_address _ rfl]
  rfl

theorem socketConnection_url_roundtrip_witness :
    ∃ c1 c2 : Connection,
      SocketConnection stdNet { Scheme := "udp", Host := "h", Port := 514 } 514 6514
        = (c1, none)
      ∧ c1.URL = "udp" ++ "://" ++ ("h" ++ ":" ++ toString (514 : Int))
      ∧ SocketConnection stdNet { URL := c1.URL } 514 6514 = (c2, none)
      ∧ c2.Scheme = "udp" ∧ c2.Host = "h" ∧ c2.Port = 514 :=
  socketConnection_url_roundtrip stdNet "udp" "h" "" 514 514 6514 (by decide) (by decide)
    (by decide) (by decide) (by decide)

end Logs
namespace Logs

/-! ## C22, C23: `Close` -/

theorem sysClose_released (e1 : Option String) (s : Sys) (s1 : Option Sys)
    (r : Option String) (h : Sys.Close e1 (some s) = .ok (s1, r)) :
    s1 = some { format := none, settings := none, writer := none } := by
  unfold Sys.Close at h
  simp only at h
  cases hw : s.writer with
  | none => rw [hw] at h; simp only [Outcome.ok.injEq, Prod.mk.injEq] at h; exact h.1.symm
  | some w =>
    rw [hw] at h
    simp only at h
    cases hc : closeWriterErr s.format e1 with
    | ok err => rw [hc] at h; simp only [Outcome.ok.injEq, Prod.mk.injEq] at h; exact h.1.symm
    | err e => rw [hc] at h; cases h
    | fault => rw [hc] at h; cases h

theorem gelfClose_released (e1 : Option String) (g : GELF) (g1 : Option GELF)
    (r : Option String) (h : GELF.Close e1 (some g) = .ok (g1, r)) :
    g1 = some { format := none, settings := none, writer := none } := by
  unfold GELF.Close at h
  simp only at h
  cases hw : g.writer with
  | none => rw [hw] at h; simp only [Outcome.ok.injEq, Prod.mk.injEq] at h; exact h.1.symm
  | some w =>
    rw [hw] at h
    simp only at h
    cases hc : closeWriterErr g.format e1 with
    | ok err => rw [hc] at h; simp only [Outcome.ok.injEq, Prod.mk.injEq] at h; exact h.1.symm
    | err e => rw [hc] at h; cases h
    | fault => rw [hc] at h; cases h

theorem sysClose_returns (e1 : Option String) (s : Sys) (f : Formatter)
    (hf : s.format = some f) :
    ∃ r, Sys.Close e1 (some s)
      = .ok (some { format := none, settings := none, writer := none }, r) := by
  unfold Sys.Close closeWriterErr
  simp only [hf]
  cases s.writer with
  | none => exact ⟨none, rfl⟩
  | some w =>
    cases e1 with
    | none => exact ⟨none, rfl⟩
    | some e => cases hp : f.StderrIsPrintable <;> simp

theorem gelfClose_returns (e1 : Option String) (g : GELF) (f : Formatter)
    (hf : g.format = some f) :
    ∃ r, GELF.Close e1 (some g)
      = .ok (some { format := none, settings := none, writer := none }, r) := by
  unfold GELF.Close closeWriterErr
  simp only [hf]
  cases g.writer with
  | none => exact ⟨none, rfl⟩
  | some w =>
    cases e1 with
    | none => exact ⟨none, rfl⟩
    | some e => cases hp : f.StderrIsPrintable <;> simp

/-- C22: `Close` of a nil syslog or GELF logger returns success. A first
`Close` of a logger that has its formatter returns, whatever the close of the
transport reports; after a first `Close` that returned, the logger has its
three fields released, and a second `Close` returns success and leaves it
so. -/
theorem close_twice (e1 e2 : Option String) :
    Sys.Close e1 none = .ok (none, none)
    ∧ GELF.Close e1 none = .ok (none, none)
    ∧ (∀ (s : Sys) (f : Formatter), s.format = some f →
        ∃ r, Sys.Close e1 (some s)
          = .ok (some { format := none, settings := none, writer := none }, r))
    ∧ (∀ (g : GELF) (f : Formatter), g.format = some f →
        ∃ r, GELF.Close e1 (some g)
          = .ok (some { format := none, settings := none, writer := none }, r))
    ∧ (∀ (s : Sys) (s1 : Option Sys) (r : Option String),
        Sys.Close e1 (some s) = .ok (s1, r) →
          s1 = some { format := none, settings := none, writer := none }
          ∧ Sys.Close e2 s1 = .ok (s1, none))
    ∧ (∀ (g : GELF) (g1 : Option GELF) (r : Option String),
        GELF.Close e1 (some g) = .ok (g1, r) →
          g1 = some { format := none, settings := none, writer := none }
          ∧ GELF.Close e2 g1 = .ok (g1, none)) := by
  refine ⟨rfl, rfl, sysClose_returns e1, gelfClose_returns e1, ?_, ?_⟩
  · intro s s1 r h
    have hs := sysClose_released e1 s s1 r h
    subst hs
    exact ⟨rfl, rfl⟩
  · intro g g1 r h
    have hs := gelfClose_released e1 g g1 r h
    subst hs
    exact ⟨rfl, rfl⟩

theorem close_twice_witness :
    Sys.Close none (some { format := none, settings := none, writer := none })
        = .ok (some { format := none, settings := none, writer := none }, none)
    ∧ GELF.Close (some "again") (some { format := none, settings := none, writer := none })
        = .ok (some { format := none, settings := none, writer := none }, none)
    ∧ (∃ r, Sys.Close (some "broken pipe") (some (exampleSysLogger {}))
        = .ok (some { format := none, settings := none, writer := none }, r)) :=
  ⟨((close_twice (some "broken pipe") none).2.2.2.2.1 (exampleSysLogger {}) _ none rfl).2,
   ((close_twice (some "broken pipe") (some "again")).2.2.2.2.2 (exampleGELFLogger {}) _ none
      rfl).2,
   (close_twice (some "broken pipe") none).2.2.1 (exampleSysLogger {}) {} rfl⟩

/-- C23, the claim as stated fails: with the side channel enabled `Sys.Close`
returns success when the close of the transport fails, and with the side
channel disabled `GELF.Close` returns the error of the transport. -/
theorem close_error_not_asymmetric :
    Sys.Close (some "broken pipe") (some (exampleSysLogger { StderrIsPrintable := true }))
        = .ok (some { format := none, settings := none, writer := none }, none)
    ∧ GELF.Close (some "broken pipe") (some (exampleGELFLogger { StderrIsPrintable := false }))
        = .ok (some { format := none, settings := none, writer := none }, some "broken pipe") := by
  decide

/-- C23 as amended: `Sys.Close` and `GELF.Close` treat a failed close of the
transport alike. With the side channel enabled the error is printed there and
the call returns success; with the side channel disabled the call returns the
error to the caller. In both cases the logger is released. -/
theorem close_error_by_side_channel (e : String) (f : Formatter)
    (ss : Option SysSettings) (w : Writer) (gs : Option GELFSettings) (gw : GELFWriter) :
    Sys.Close (some e) (some { format := some f, settings := ss, writer := some w })
        = .ok (some { format := none, settings := none, writer := none },
            if f.StderrIsPrintable then none else some e)
    ∧ GELF.Close (some e) (some { format := some f, settings := gs, writer := some gw })
        = .ok (some { format := none, settings := none, writer := none },
            if f.StderrIsPrintable then none else some e) := by
  constructor <;> cases hp : f.StderrIsPrintable <;> simp [Sys.Close, GELF.Close, closeWriterErr, hp]

end Logs

namespace Logs

/-! ## C24: a switch of the backend -/

theorem Logger.Close_releases (closeErr : Option String) (l l1 : Logger) (r : Option String)
    (h : l.Close closeErr = .ok (l1, r)) : l1.format = none := by
  cases l with
  | text t =>
    simp only [Logger.Close, Text.Close, Option.getD_some, Outcome.ok.injEq, Prod.mk.injEq] at h
    rw [← h.1]; rfl
  | json j =>
    simp only [Logger.Close, JSON.Close, Option.getD_some, Outcome.ok.injEq, Prod.mk.injEq] at h
    rw [← h.1]; rfl
  | fmt f =>
    simp only [Logger.Close, FMT.Close, Option.getD_some, Outcome.ok.injEq, Prod.mk.injEq] at h
    rw [← h.1]; rfl
  | gelf g =>
    unfold Logger.Close at h
    simp only at h
    cases hc : GELF.Close closeErr (some g) with
    | fault => rw [hc] at h; cases h
    | err e => rw [hc] at h; cases h
    | ok p =>
      rw [hc] at h
      simp only [Outcome.ok.injEq, Prod.mk.injEq] at h
      have h2 := gelfClose_released closeErr g p.1 p.2 hc
      rw [← h.1, h2]; rfl
  | sys s =>
    unfold Logger.Close at h
    simp only at h
    cases hc : Sys.Close closeErr (some s) with
    | fault => rw [hc] at h; cases h
    | err e => rw [hc] at h; cases h
    | ok p =>
      rw [hc] at h
      simp only [Outcome.ok.injEq, Prod.mk.injEq] at h
      have h2 := sysClose_released closeErr s p.1 p.2 hc
      rw [← h.1, h2]; rfl

theorem closeWriterErr_ne_err (format : Option Formatter) (closeErr : Option String)
    (x : String) : closeWriterErr format closeErr ≠ .err x := by
  unfold closeWriterErr
  cases closeErr with
  | none => simp
  | some e =>
    cases format with
    | none => simp
    | some f => cases hp : f.StderrIsPrintable <;> simp [hp]

theorem Logger.Close_ne_err (closeErr : Option String) (l : Logger) (x : String) :
    l.Close closeErr ≠ .err x := by
  cases l with
  | text t => simp [Logger.Close]
  | json j => simp [Logger.Close]
  | fmt f => simp [Logger.Close]
  | gelf g =>
    unfold Logger.Close GELF.Close
    simp only
    cases g.writer with
    | none => simp
    | some w =>
      simp only
      have := closeWriterErr_ne_err g.format closeErr
      cases hc : closeWriterErr g.format closeErr with
      | ok r => simp
      | err e => exact absurd hc (this e)
      | fault => simp
  | sys s =>
    unfold Logger.Close Sys.Close
    simp only
    cases s.writer with
    | none => simp
    | some w =>
      simp only
      have := closeWriterErr_ne_err s.format closeErr
      cases hc : closeWriterErr s.format closeErr with
      | ok r => simp
      | err e => exact absurd hc (this e)
      | fault => simp

theorem carryOver_closed (lib : GoLib) (old : Logger) (new : Option Logger)
    (h : old.format = none) : carryOver lib old new = none := by
  cases new with
  | none => rfl
  | some n0 => simp [carryOver, carryLabels, Logger.Level, h]

/-- C24: evaluation of the code where it departs from the claim. `switchFormat`
closes the old logger first, which sets its `format` to nil, and only then reads
its level, labels, separator, environment, tag, time format and flags to carry
them over: the first read, `oldLogger.Level()`, goes through the nil pointer.
For every handle and every valid format different from the current one
`SetFormat` faults, whatever the network and the close of the transport do; a
handle on the text backend faults on the switch to JSON. -/
theorem setFormat_switch_faults (net : Net) (lib : GoLib) (closeErr : Option String)
    (current : Logger) (f : Int) (hvalid : IsFormat f = true) (hne : f ≠ current.Format) :
    Logs.SetFormat net lib closeErr { logger := some current } f = .fault
    ∧ Logs.SetFormat stdNet exampleLib none exampleLogs JSON_FORMAT = .fault := by
  refine ⟨?_, by decide⟩
  unfold Logs.SetFormat Logs.switchFormat
  rw [if_pos hvalid]
  simp only [if_pos hne]
  cases hc : current.Close closeErr with
  | fault => rfl
  | err e =>
    exact absurd hc (Logger.Close_ne_err closeErr current e)
  | ok p =>
    obtain ⟨oldLogger, r⟩ := p
    have hrel := Logger.Close_releases closeErr current oldLogger r hc
    cases r with
    | none =>
      simp only
      cases hi : initLogger net f with
      | fault => rfl
      | err e =>
        exfalso
        unfold initLogger at hi
        split at hi
        · cases hi
        · split at hi
          · cases hi
          · split at hi
            · cases hi
            · split at hi
              · split at hi <;> cases hi
              · split at hi
                · split at hi <;> cases hi
                · cases hi
      | ok new =>
        simp only [carryOver_closed lib oldLogger new hrel]
    | some e =>
      simp only [Logger.log, hrel]

theorem setFormat_switch_faults_witness :
    Logs.SetFormat stdNet exampleLib none { logger := some exampleText } FMT_FORMAT = .fault :=
  (setFormat_switch_faults stdNet exampleLib none exampleText FMT_FORMAT (by decide)
    (by decide)).1

end Logs

namespace Logs

/-! ## Field maps -/

theorem Vars.get_cons (k1 k : String) (x : ParamValue) (rest : Vars) :
    Vars.get ((k1, x) :: rest) k = if k1 = k then some x else Vars.get rest k := rfl

theorem Vars.delete_cons (k1 key : String) (x : ParamValue) (rest : Vars) :
    Vars.delete ((k1, x) :: rest) key
      = if k1 = key then Vars.delete rest key else (k1, x) :: Vars.delete rest key := rfl

theorem Vars.get_eq_none_iff (v : Vars) (k : String) :
    Vars.get v k = none ↔ k ∉ Vars.keys v := by
  induction v with
  | nil => simp [Vars.get, Vars.keys]
  | cons e rest ih =>
    obtain ⟨k1, x⟩ := e
    rw [Vars.get_cons]
    by_cases h : k1 = k
    · simp [h, Vars.keys]
    · simp only [if_neg h]
      rw [ih]
      have h2 : ¬ k = k1 := fun e => h e.symm
      simp [Vars.keys, h2]

theorem Vars.mem_keys_delete (v : Vars) (k key : String) :
    k ∈ Vars.keys (Vars.delete v key) ↔ k ≠ key ∧ k ∈ Vars.keys v := by
  induction v with
  | nil => simp [Vars.delete, Vars.keys]
  | cons e rest ih =>
    obtain ⟨k1, x⟩ := e
    rw [Vars.delete_cons]
    by_cases h : k1 = key
    · simp only [if_pos h]
      rw [ih]
      subst h
      simp only [Vars.keys, List.map_cons, List.mem_cons]
      constructor
      · rintro ⟨a, b⟩; exact ⟨a, Or.inr b⟩
      · rintro ⟨a, b | b⟩
        · exact absurd b a
        · exact ⟨a, b⟩
    · simp only [if_neg h]
      simp only [Vars.keys, List.map_cons, List.mem_cons] at ih ⊢
      rw [ih]
      constructor
      · rintro (a | ⟨a, b⟩)
        · exact ⟨fun e => h (a ▸ e), Or.inl a⟩
        · exact ⟨a, Or.inr b⟩
      · rintro ⟨a, b | b⟩
        · exact Or.inl b
        · exact Or.inr ⟨a, b⟩

theorem Vars.get_delete_ne (v : Vars) (k key : String) (h : k ≠ key) :
    Vars.get (Vars.delete v key) k = Vars.get v k := by
  induction v with
  | nil => rfl
  | cons e rest ih =>
    obtain ⟨k1, x⟩ := e
    rw [Vars.delete_cons]
    by_cases h1 : k1 = key
    · rw [if_pos h1, ih, Vars.get_cons]
      have : ¬ k1 = k := fun e => h (e ▸ h1)
      rw [if_neg this]
    · rw [if_neg h1, Vars.get_cons, Vars.get_cons, ih]

theorem Vars.get_delete_self (v : Vars) (key : String) :
    Vars.get (Vars.delete v key) key = none := by
  rw [Vars.get_eq_none_iff, Vars.mem_keys_delete]
  exact fun h => h.1 rfl

theorem Vars.get_append_single (a : Vars) (t k : String) (x : ParamValue) :
    Vars.get (a ++ [(t, x)]) k
      = match Vars.get a k with
        | some y => some y
        | none => if t = k then some x else none := by
  induction a with
  | nil => simp [Vars.get]
  | cons e rest ih =>
    obtain ⟨k1, y⟩ := e
    simp only [List.cons_append]
    rw [Vars.get_cons, Vars.get_cons]
    by_cases h : k1 = k
    · simp only [if_pos h]
    · simp only [if_neg h]
      exact ih

theorem Vars.get_set_self (v : Vars) (t : String) (x : ParamValue) :
    Vars.get (Vars.set v t x) t = some x := by
  unfold Vars.set
  rw [Vars.get_append_single, Vars.get_delete_self]
  simp

theorem Vars.get_set_ne (v : Vars) (t k : String) (x : ParamValue) (h : k ≠ t) :
    Vars.get (Vars.set v t x) k = Vars.get v k := by
  unfold Vars.set
  rw [Vars.get_append_single, Vars.get_delete_ne v k t h]
  have h2 : ¬ t = k := fun e => h e.symm
  cases Vars.get v k <;> simp [h2]

theorem Vars.mem_keys_set (v : Vars) (t k : String) (x : ParamValue) :
    k ∈ Vars.keys (Vars.set v t x) ↔ k = t ∨ k ∈ Vars.keys v := by
  unfold Vars.set
  have : Vars.keys (Vars.delete v t ++ [(t, x)]) = Vars.keys (Vars.delete v t) ++ [t] := by
    simp [Vars.keys]
  rw [this, List.mem_append, Vars.mem_keys_delete]
  simp only [List.mem_singleton]
  constructor
  · rintro (⟨_, b⟩ | b)
    · exact Or.inr b
    · exact Or.inl b
  · rintro (a | b)
    · exact Or.inr a
    · by_cases h : k = t
      · exact Or.inr h
      · exact Or.inl ⟨h, b⟩

end Logs

namespace Logs

/-! ## C26: the level filter of the log calls -/

theorem NewJSON_build_faults (env : Env) (nano : Int) (f : Formatter) (l : Int) (m : String)
    (v : Option Vars) : JSON.build env nano (NewJSON none f) l m v = .fault := by
  unfold JSON.build NewJSON
  simp only [Option.getD_none]
  split
  · rfl
  · rfl

theorem Family.level_lt_print (fam : Family) (h : fam ≠ .Print) : fam.level < PRINT_LEVEL := by
  cases fam <;> first | exact absurd rfl h | decide

theorem Family.level_nonneg (fam : Family) : 0 ≤ fam.level := by
  cases fam <;> decide

/-- The method `JSON.build` returns on a logger with a formatter and settings
that have keys, at the level of a family. -/
theorem JSON.build_returns (env : Env) (nano : Int) (j : JSON) (f : Formatter)
    (s : JSONSettings) (keys : JSONKeys) (fam : Family) (m : String) (v : Option Vars)
    (hf : j.format = some f) (hs : j.settings = some s) (hk : s.Keys = some keys) :
    ∃ record, JSON.build env nano j fam.level m v = .ok record := by
  cases fam <;>
    simp [JSON.build, hf, hs, hk, Family.level, PANIC_LEVEL, FATAL_LEVEL, ERROR_LEVEL,
      WARN_LEVEL, INFO_LEVEL, DEBUG_LEVEL, TRACE_LEVEL, PRINT_LEVEL, index, levelNames]

/-- C26: evaluation of the code where it departs from the claim. On a `JSON`
logger from `NewJSON` with nil settings (the logger `initLogger` makes) every
call that passes the level test faults inside `build`, at
`j.settings.Keys.Message`, and emits nothing: a leveled call of a family at a
configured level at or above the level of the family, and every call of the
Print family. A call below the level of its family returns without a record
and leaves the logger as it was. On a `JSON` logger whose settings have keys
and whose streams are open the test decides as the claim says: a leveled call
emits a record if and only if the configured level is at least the level of
its family, a Print call always emits, and the logger is unchanged. -/
theorem json_level_filter_faults (env : Env) (nano : Int) (f : Formatter) (fam : Family)
    (m : String) (v : Option Vars) :
    ((fam = .Print ∨ f.Level ≥ fam.level) →
      JSON.log env nano (NewJSON none f) fam m v = .fault)
    ∧ (fam ≠ .Print → ¬ f.Level ≥ fam.level →
      JSON.log env nano (NewJSON none f) fam m v = .ok (NewJSON none f, none))
    ∧ (∀ (s : JSONSettings) (keys : JSONKeys), s.Keys = some keys →
        ((fam = .Print ∨ f.Level ≥ fam.level) ↔
          ∃ record, JSON.build env nano (NewJSON (some s) f) fam.level m v = .ok record
            ∧ JSON.log env nano (NewJSON (some s) f) fam m v
              = .ok (NewJSON (some s) f,
                  some { stream := fam.stream, record := record, after := fam.after }))
        ∧ (¬ (fam = .Print ∨ f.Level ≥ fam.level) ↔
          JSON.log env nano (NewJSON (some s) f) fam m v = .ok (NewJSON (some s) f, none))) := by
  have hfmt : ∀ s : Option JSONSettings,
      (NewJSON s f).format = some (defaultKeysPrefix f "fields" ".") := fun _ => rfl
  have hlevel : (defaultKeysPrefix f "fields" ".").Level = f.Level := rfl
  refine ⟨?_, ?_, ?_⟩
  · intro hg
    unfold JSON.log
    rw [hfmt]
    simp only [hlevel]
    simp only [if_pos hg, NewJSON_build_faults]
  · intro hp hl
    unfold JSON.log
    rw [hfmt]
    simp only [hlevel]
    have hg : ¬ (fam = .Print ∨ f.Level ≥ fam.level) := fun h => h.elim hp hl
    simp only [if_neg hg]
  · intro s keys hk
    obtain ⟨record, hrec⟩ := JSON.build_returns env nano (NewJSON (some s) f)
      (defaultKeysPrefix f "fields" ".") s keys fam m v rfl rfl hk
    have hout : (NewJSON (some s) f).stdout = true := rfl
    have herr : (NewJSON (some s) f).stderr = true := rfl
    by_cases hg : fam = .Print ∨ f.Level ≥ fam.level
    · have hlog : JSON.log env nano (NewJSON (some s) f) fam m v
          = .ok (NewJSON (some s) f,
              some { stream := fam.stream, record := record, after := fam.after }) := by
        unfold JSON.log
        rw [hfmt]
        simp only [hlevel]
        simp only [if_pos hg, hrec]
        cases hst : fam.stream <;> simp [hout, herr]
      refine ⟨⟨fun _ => ⟨record, hrec, hlog⟩, fun _ => hg⟩, ⟨fun h => absurd hg h, ?_⟩⟩
      intro h
      rw [hlog] at h
      simp at h
    · have hlog : JSON.log env nano (NewJSON (some s) f) fam m v
          = .ok (NewJSON (some s) f, none) := by
        unfold JSON.log
        rw [hfmt]
        simp only [hlevel]
        simp only [if_neg hg]
      refine ⟨⟨fun h => absurd h hg, ?_⟩, ⟨fun _ => hlog, fun _ => hg⟩⟩
      rintro ⟨r, _, h⟩
      rw [hlog] at h
      simp at h

theorem json_level_filter_faults_witness :
    JSON.log exampleEnv 1500000000 (NewJSON none { Level := INFO_LEVEL }) .Info "m" none
        = .fault
    ∧ JSON.log exampleEnv 1500000000 (NewJSON none { Level := WARN_LEVEL }) .Info "m" none
        = .ok (NewJSON none { Level := WARN_LEVEL }, none)
    ∧ JSON.log exampleEnv 1500000000
          (NewJSON (some { Keys := some { Message := "message" } }) { Level := WARN_LEVEL })
          .Info "m" none
        = .ok (NewJSON (some { Keys := some { Message := "message" } }) { Level := WARN_LEVEL },
            none) :=
  ⟨(json_level_filter_faults exampleEnv 1500000000 { Level := INFO_LEVEL } .Info "m" none).1
      (by decide),
   (json_level_filter_faults exampleEnv 1500000000 { Level := WARN_LEVEL } .Info "m" none).2.1
      (by decide) (by decide),
   (((json_level_filter_faults exampleEnv 1500000000 { Level := WARN_LEVEL } .Info "m"
      none).2.2 { Keys := some { Message := "message" } } { Message := "message" } rfl).2).1
      (by decide)⟩

end Logs

namespace Logs

/-! ## C27: `SetTimeStampLevelName` -/

theorem store_format (l : Logger) (f : Formatter) : (l.store f).format = some f := by
  cases l <;> rfl

theorem reject_ne_ok (l l1 : Logger) (msg : String) : l.reject msg ≠ .ok l1 := by
  unfold Logger.reject
  cases l.log .Error msg <;> simp

theorem refreshFormatter_format (f : Formatter) (s s1 : Sys)
    (h : Sys.refreshFormatter f s = .ok s1) : s1.format = some f := by
  unfold Sys.refreshFormatter at h
  split at h
  · split at h
    · simp only [Outcome.ok.injEq] at h
      rw [← h]
    · cases h
  · cases h

theorem setTimeStampLevelName_format (lib : GoLib) (l l1 : Logger) (name : String)
    (h : l.SetTimeStampLevelName lib name = .ok l1) :
    ∃ f, l.format = some f
      ∧ l1.format = some { f with
          Level := sliceIndex timeStampLevelNames (lib.ToLower (lib.TrimSpace name)) } := by
  have generic : ∀ l : Logger,
      (match l.format with
        | none => Outcome.fault
        | some f =>
          if IsTimeStampLevelName lib (lib.ToLower (lib.TrimSpace name)) then
            Outcome.ok (l.store { f with
              Level := sliceIndex timeStampLevelNames (lib.ToLower (lib.TrimSpace name)) })
          else l.reject "Invalid timestamp level name") = .ok l1 →
      ∃ f, l.format = some f
        ∧ l1.format = some { f with
            Level := sliceIndex timeStampLevelNames (lib.ToLower (lib.TrimSpace name)) } := by
    intro l h
    cases hf : l.format with
    | none => rw [hf] at h; cases h
    | some f =>
      rw [hf] at h
      simp only at h
      split at h
      · simp only [Outcome.ok.injEq] at h
        exact ⟨f, rfl, by rw [← h, store_format]⟩
      · exact absurd h (reject_ne_ok _ _ _)
  cases l with
  | text t => exact generic (.text t) h
  | json j => exact generic (.json j) h
  | fmt x => exact generic (.fmt x) h
  | gelf g => exact generic (.gelf g) h
  | sys s =>
    unfold Logger.SetTimeStampLevelName at h
    simp only at h
    cases hs : s.SetTimeStampLevelName lib name with
    | fault => rw [hs] at h; cases h
    | err e => rw [hs] at h; cases h
    | ok s1 =>
      rw [hs] at h
      simp only [Outcome.ok.injEq] at h
      unfold Sys.SetTimeStampLevelName at hs
      cases hf : s.format with
      | none => rw [hf] at hs; cases hs
      | some f =>
        rw [hf] at hs
        simp only at hs
        split at hs
        · refine ⟨f, hf, ?_⟩
          rw [← h]
          exact refreshFormatter_format _ s s1 hs
        · cases hs

/-- C27: evaluation of the code where it departs from the claim. In every
backend `SetTimeStampLevelName` with a valid name stores the index of the name
in `format.Level`, the log level, and leaves the stamp level as it was: after
a call that returns without error `Level` reports the index of the name and
`TimeStampLevel` its old value. A text logger at level info with stamp level
nano is, after the name milli, at level fatal with stamp level nano. -/
theorem setTimeStampLevelName_writes_level (lib : GoLib) (l l1 : Logger) (name : String)
    (h : l.SetTimeStampLevelName lib name = .ok l1) :
    l1.Level = some (sliceIndex timeStampLevelNames (lib.ToLower (lib.TrimSpace name)))
    ∧ l1.TimeStampLevel = l.TimeStampLevel
    ∧ exampleText.Level = some INFO_LEVEL
    ∧ exampleText.TimeStampLevel = some TIME_STAMP_LEVEL_NANO
    ∧ exampleText.SetTimeStampLevelName exampleLib " Milli "
        = .ok (.text (NewText none { Level := FATAL_LEVEL })) := by
  refine ⟨?_, ?_, by decide, by decide, by decide⟩
  · obtain ⟨f, _, h1⟩ := setTimeStampLevelName_format lib l l1 name h
    simp [Logger.Level, h1]
  · obtain ⟨f, h0, h1⟩ := setTimeStampLevelName_format lib l l1 name h
    simp [Logger.TimeStampLevel, h0, h1]

theorem setTimeStampLevelName_writes_level_witness :
    (Logger.text (NewText none { Level := FATAL_LEVEL })).Level
        = some (sliceIndex timeStampLevelNames
            (exampleLib.ToLower (exampleLib.TrimSpace " Milli ")))
    ∧ (Logger.text (NewText none { Level := FATAL_LEVEL })).TimeStampLevel
        = exampleText.TimeStampLevel :=
  ⟨(setTimeStampLevelName_writes_level exampleLib exampleText _ " Milli " (by decide)).1,
   (setTimeStampLevelName_writes_level exampleLib exampleText _ " Milli " (by decide)).2.1⟩

end Logs

namespace Logs

/-! ## C28: `TimeStampLevelName` -/

/-- C28: evaluation of the code where it departs from the claim.
`TimeStampLevelName` indexes the table of four stamp level names with
`format.Level`, the log level, not with the stamp level. At the valid log
levels info, debug and trace, and at every level above warn, the index is
outside the table and the call faults, whatever the stamp level; a name that
is returned is the entry at the index of the log level. A text logger at level
info faults; a text logger at level panic with stamp level nano returns
default. -/
theorem timeStampLevelName_indexes_level (l : Logger) (f : Formatter)
    (h : l.format = some f) :
    (WARN_LEVEL < f.Level → l.TimeStampLevelName = .fault)
    ∧ (∀ name, l.TimeStampLevelName = .ok name → index timeStampLevelNames f.Level = some name)
    ∧ IsLevel INFO_LEVEL = true
    ∧ exampleText.Level = some INFO_LEVEL
    ∧ exampleText.TimeStampLevel = some TIME_STAMP_LEVEL_NANO
    ∧ exampleText.TimeStampLevelName = .fault
    ∧ (Logger.text (NewText none {})).Level = some PANIC_LEVEL
    ∧ (Logger.text (NewText none {})).TimeStampLevel = some TIME_STAMP_LEVEL_NANO
    ∧ (Logger.text (NewText none {})).TimeStampLevelName = .ok "default"
    ∧ index timeStampLevelNames TIME_STAMP_LEVEL_NANO = some "nano" := by
  refine ⟨?_, ?_, by decide, by decide, by decide, by decide, by decide, by decide, by decide,
    by decide⟩
  · intro hl
    have hnone : index timeStampLevelNames f.Level = none := by
      cases hi : index timeStampLevelNames f.Level with
      | none => rfl
      | some x =>
        have := (index_isSome timeStampLevelNames f.Level).1 (by rw [hi]; rfl)
        have hlen : timeStampLevelNames.length = 4 := rfl
        have hw : WARN_LEVEL = 3 := rfl
        rw [hlen] at this
        rw [hw] at hl
        omega
    unfold Logger.TimeStampLevelName
    rw [h]
    simp only [hnone]
  · intro name hn
    unfold Logger.TimeStampLevelName at hn
    rw [h] at hn
    simp only at hn
    cases hi : index timeStampLevelNames f.Level with
    | none => rw [hi] at hn; cases hn
    | some x =>
      rw [hi] at hn
      simp only [Outcome.ok.injEq] at hn
      rw [hn]

theorem timeStampLevelName_indexes_level_witness :
    (Logger.sys (exampleSysLogger { Level := DEBUG_LEVEL })).TimeStampLevelName = .fault :=
  (timeStampLevelName_indexes_level (.sys (exampleSysLogger { Level := DEBUG_LEVEL }))
    { Level := DEBUG_LEVEL } rfl).1 (by decide)

/-! ## C29: names and numbers -/

/-- C29: evaluation of the code where it departs from the claim. The name
validators search the whole tables, which are longer than the ranges of the
integer validators. `IsFormatName` accepts fluent, whose index 5 `IsFormat`
rejects and for which `initLogger` returns no backend; `SetFormatName` on it
faults. `IsFormatName` accepts JSON through its lower-cased form, while
`SetFormatName` looks the trimmed name up as it is and gets -1. `IsLevelName`
accepts print, whose index 7 `IsLevel` rejects, and `SetLevelName` stores it. -/
theorem name_validators_accept_more :
    (∀ lib, IsFormatName lib "fluent" = true)
    ∧ sliceIndex formatNames (exampleLib.TrimSpace "fluent") = FLUENT_FORMAT
    ∧ IsFormat FLUENT_FORMAT = false
    ∧ (∀ net, initLogger net FLUENT_FORMAT = .ok none)
    ∧ Logs.SetFormatName stdNet exampleLib none exampleLogs "fluent" = .fault
    ∧ IsFormatName exampleLib "JSON" = true
    ∧ sliceIndex formatNames (exampleLib.TrimSpace "JSON") = -1
    ∧ Logs.SetFormatName stdNet exampleLib none exampleLogs "JSON" = .fault
    ∧ (∀ lib, IsLevelName lib "print" = true)
    ∧ sliceIndex levelNames (exampleLib.ToLower (exampleLib.TrimSpace "print")) = PRINT_LEVEL
    ∧ IsLevel PRINT_LEVEL = false
    ∧ exampleText.SetLevelName exampleLib "print"
        = .ok (.text (NewText none { Level := PRINT_LEVEL })) := by
  refine ⟨?_, by decide, by decide, ?_, by decide, by decide, by decide, by decide, ?_,
    by decide, by decide, by decide⟩
  · intro lib
    simp [IsFormatName, isName, formatNames]
  · intro net
    rfl
  · intro lib
    simp [IsLevelName, isName, levelNames]

/-! ## C30: `JSON.build` after `NewJSON(nil)` -/

/-- C30: evaluation of the code where it departs from the claim. `NewJSON` with
nil settings installs settings whose pointer `Keys` is nil, and `JSON.build`
reads the message key as `j.settings.Keys.Message`: for every formatter, level,
message and field set the call faults. With settings that have keys, the
message is under the key of the settings, not under `Keys.Names.Message` of the
formatter. -/
theorem json_build_nil_settings_faults (env : Env) (nano : Int) (f : Formatter) (l : Int)
    (m : String) (v : Option Vars) :
    JSON.build env nano (NewJSON none f) l m v = .fault
    ∧ JSON.build exampleEnv 1500000000
        (NewJSON (some { Keys := some { Message := "message" } }) {}) PRINT_LEVEL "hello" none
      = .ok [("message", .str "hello"),
          ("time", .str (exampleEnv.now false "2006-01-02T15:04:05.999999999Z07:00"))] := by
  refine ⟨?_, by decide⟩
  unfold JSON.build NewJSON
  simp only [Option.getD_none]
  split
  · rfl
  · rfl

end Logs

namespace Logs

/-! ## C25: the time stamp of the GELF envelope -/

theorem roundHalfEven_intCast (n : ℤ) : roundHalfEven (n : ℚ) = n := by
  unfold roundHalfEven
  simp

theorem roundHalfEven_bounds (x : ℚ) : ⌊x⌋ ≤ roundHalfEven x ∧ roundHalfEven x ≤ ⌊x⌋ + 1 := by
  unfold roundHalfEven
  simp only
  split_ifs <;> constructor <;> omega

theorem roundHalfEven_mono (x y : ℚ) (h : x ≤ y) : roundHalfEven x ≤ roundHalfEven y := by
  have hf : ⌊x⌋ ≤ ⌊y⌋ := Int.floor_mono h
  rcases lt_or_eq_of_le hf with hlt | heq
  · have h1 := (roundHalfEven_bounds x).2
    have h2 := (roundHalfEven_bounds y).1
    omega
  · unfold roundHalfEven
    simp only
    rw [heq]
    have hr : x - ⌊y⌋ ≤ y - ⌊y⌋ := by linarith
    split_ifs <;> first | omega | (exfalso; linarith)

theorem float64_pos (x : ℚ) (h : 0 < x) :
    float64 x = (roundHalfEven (x / 2 ^ (Int.log 2 x - 52)) : ℚ) * 2 ^ (Int.log 2 x - 52) := by
  unfold float64
  rw [if_neg (ne_of_gt h), if_pos h]

theorem scaled_bounds (x : ℚ) (h : 0 < x) :
    (2 : ℚ) ^ (52 : ℕ) ≤ x / 2 ^ (Int.log 2 x - 52)
    ∧ x / 2 ^ (Int.log 2 x - 52) < (2 : ℚ) ^ (53 : ℕ) := by
  have h1 : (2 : ℚ) ^ (Int.log 2 x) ≤ x := by
    have := Int.zpow_log_le_self (b := 2) (by norm_num) h
    simpa using this
  have h2 : x < (2 : ℚ) ^ (Int.log 2 x + 1) := by
    have := Int.lt_zpow_succ_log_self (b := 2) (by norm_num) x
    simpa using this
  have hpos : (0 : ℚ) < 2 ^ (Int.log 2 x - 52) := zpow_pos (by norm_num) _
  have e1 : (2 : ℚ) ^ (Int.log 2 x) = 2 ^ (52 : ℕ) * 2 ^ (Int.log 2 x - 52) := by
    rw [← zpow_natCast, ← zpow_add₀ (by norm_num)]
    congr 1
    push_cast
    ring
  have e2 : (2 : ℚ) ^ (Int.log 2 x + 1) = 2 ^ (53 : ℕ) * 2 ^ (Int.log 2 x - 52) := by
    rw [← zpow_natCast, ← zpow_add₀ (by norm_num)]
    congr 1
    push_cast
    ring
  constructor
  · rw [le_div_iff₀ hpos, ← e1]
    exact h1
  · rw [div_lt_iff₀ hpos, ← e2]
    exact h2

theorem float64_zero : float64 0 = 0 := by
  unfold float64
  rw [if_pos rfl]

/-- A number with at most 53 significant bits is a `float64`. -/
theorem float64_exact (m : ℕ) (e : ℤ) (hm : m < 2 ^ 53) :
    float64 ((m : ℚ) * 2 ^ e) = (m : ℚ) * 2 ^ e := by
  rcases Nat.eq_zero_or_pos m with h0 | hpos
  · subst h0
    simp [float64_zero]
  have h2e : (0 : ℚ) < 2 ^ e := zpow_pos (by norm_num) _
  have hx : (0 : ℚ) < (m : ℚ) * 2 ^ e := mul_pos (by exact_mod_cast hpos) h2e
  rw [float64_pos _ hx]
  set k := Int.log 2 ((m : ℚ) * 2 ^ e) with hk
  -- the exponent is at most e
  have hlt : (m : ℚ) * 2 ^ e < (2 : ℚ) ^ (53 + e) := by
    rw [zpow_add₀ (by norm_num)]
    apply mul_lt_mul_of_pos_right _ h2e
    show (m : ℚ) < 2 ^ ((53 : ℕ) : ℤ)
    have : (m : ℚ) < ((2 ^ 53 : ℕ) : ℚ) := by exact_mod_cast hm
    rw [zpow_natCast] 
    exact_mod_cast this
  have hk53 : k < 53 + e := by
    have := (Int.lt_zpow_iff_log_lt (b := 2) (by norm_num) hx (x := 53 + e)).1 (by simpa using hlt)
    exact this
  obtain ⟨d, hd⟩ : ∃ d : ℕ, e - (k - 52) = (d : ℤ) := ⟨(e - (k - 52)).toNat, by omega⟩
  have hdiv : (m : ℚ) * 2 ^ e / 2 ^ (k - 52) = ((m * 2 ^ d : ℕ) : ℤ) := by
    rw [mul_div_assoc, ← zpow_sub₀ (by norm_num), hd, zpow_natCast]
    push_cast
    rfl
  rw [hdiv, roundHalfEven_intCast]
  push_cast
  rw [mul_assoc, ← zpow_natCast, ← zpow_add₀ (by norm_num), ← hd]
  congr 2
  ring

theorem float64_natCast (n : ℕ) (h : n < 2 ^ 53) : float64 (n : ℚ) = n := by
  have := float64_exact n 0 h
  simpa using this

theorem float64_nonneg (x : ℚ) (h : 0 ≤ x) : 0 ≤ float64 x := by
  rcases eq_or_lt_of_le h with h0 | hpos
  · rw [← h0, float64_zero]
  · rw [float64_pos x hpos]
    apply mul_nonneg _ (le_of_lt (zpow_pos (by norm_num) _))
    have hb := (roundHalfEven_bounds (x / 2 ^ (Int.log 2 x - 52))).1
    have hs := (scaled_bounds x hpos).1
    have hfl : (0 : ℤ) ≤ ⌊x / 2 ^ (Int.log 2 x - 52)⌋ := by
      apply Int.floor_nonneg.2
      linarith [show (0 : ℚ) ≤ 2 ^ (52 : ℕ) by positivity]
    exact_mod_cast le_trans hfl hb

theorem float64_mono (x y : ℚ) (hx : 0 ≤ x) (h : x ≤ y) : float64 x ≤ float64 y := by
  rcases eq_or_lt_of_le hx with h0 | hpos
  · rw [← h0, float64_zero]
    exact float64_nonneg y (le_trans hx h)
  have hy : 0 < y := lt_of_lt_of_le hpos h
  rw [float64_pos x hpos, float64_pos y hy]
  have hlog : Int.log 2 x ≤ Int.log 2 y := Int.log_mono_right hpos h
  rcases lt_or_eq_of_le hlog with hlt | heq
  · -- different binades
    have hxs := (scaled_bounds x hpos).2
    have hys := (scaled_bounds y hy).1
    have h1 : roundHalfEven (x / 2 ^ (Int.log 2 x - 52)) ≤ 2 ^ 53 := by
      have := roundHalfEven_mono _ _ (le_of_lt hxs)
      have e : ((2 : ℚ) ^ (53 : ℕ)) = ((2 ^ 53 : ℤ) : ℚ) := by push_cast; rfl
      rw [e, roundHalfEven_intCast] at this
      exact this
    have h2 : (2 : ℤ) ^ 52 ≤ roundHalfEven (y / 2 ^ (Int.log 2 y - 52)) := by
      have := roundHalfEven_mono _ _ hys
      have e : ((2 : ℚ) ^ (52 : ℕ)) = ((2 ^ 52 : ℤ) : ℚ) := by push_cast; rfl
      rw [e, roundHalfEven_intCast] at this
      exact this
    have hpx : (0 : ℚ) < 2 ^ (Int.log 2 x - 52) := zpow_pos (by norm_num) _
    have hpy : (0 : ℚ) < 2 ^ (Int.log 2 y - 52) := zpow_pos (by norm_num) _
    calc (roundHalfEven (x / 2 ^ (Int.log 2 x - 52)) : ℚ) * 2 ^ (Int.log 2 x - 52)
        ≤ (2 : ℚ) ^ (53 : ℕ) * 2 ^ (Int.log 2 x - 52) := by
          apply mul_le_mul_of_nonneg_right _ (le_of_lt hpx)
          exact_mod_cast h1
      _ = (2 : ℚ) ^ (Int.log 2 x + 1) := by
          rw [← zpow_natCast, ← zpow_add₀ (by norm_num)]
          congr 1
          push_cast
          ring
      _ ≤ (2 : ℚ) ^ (Int.log 2 y) := zpow_le_zpow_right₀ (by norm_num) (by omega)
      _ = (2 : ℚ) ^ (52 : ℕ) * 2 ^ (Int.log 2 y - 52) := by
          rw [← zpow_natCast, ← zpow_add₀ (by norm_num)]
          congr 1
          push_cast
          ring
      _ ≤ (roundHalfEven (y / 2 ^ (Int.log 2 y - 52)) : ℚ) * 2 ^ (Int.log 2 y - 52) := by
          apply mul_le_mul_of_nonneg_right _ (le_of_lt hpy)
          exact_mod_cast h2
  · rw [heq]
    have hpy : (0 : ℚ) < 2 ^ (Int.log 2 y - 52) := zpow_pos (by norm_num) _
    apply mul_le_mul_of_nonneg_right _ (le_of_lt hpy)
    have : x / 2 ^ (Int.log 2 y - 52) ≤ y / 2 ^ (Int.log 2 y - 52) :=
      div_le_div_of_nonneg_right h (le_of_lt hpy)
    exact_mod_cast roundHalfEven_mono _ _ this

theorem float64_of_bounds (x : ℚ) (k : ℤ) (hx : 0 < x) (hlo : (2 : ℚ) ^ k ≤ x)
    (hhi : x < (2 : ℚ) ^ (k + 1)) :
    float64 x = (roundHalfEven (x / 2 ^ (k - 52)) : ℚ) * 2 ^ (k - 52) := by
  have h1 : k ≤ Int.log 2 x :=
    (Int.zpow_le_iff_le_log (b := 2) (by norm_num) hx).1 (by simpa using hlo)
  have h2 : Int.log 2 x < k + 1 :=
    (Int.lt_zpow_iff_log_lt (b := 2) (by norm_num) hx).1 (by simpa using hhi)
  have hk : Int.log 2 x = k := by omega
  rw [float64_pos x hx, hk]

theorem roundHalfEven_of_floor (x : ℚ) (f : ℤ) (h1 : (f : ℚ) ≤ x) (h2 : x < f + 1) :
    roundHalfEven x
      = if x - f < 1 / 2 then f else if 1 / 2 < x - f then f + 1
        else if f % 2 = 0 then f else f + 1 := by
  have hf : ⌊x⌋ = f := Int.floor_eq_iff.2 ⟨h1, h2⟩
  unfold roundHalfEven
  simp only [hf]

/-- The time stamp one nanosecond before a full second, at the level nano. -/
theorem float64_before_second :
    float64 (1499999999999999999 : ℚ) = 1500000000000000000 := by
  rw [float64_of_bounds _ 60 (by norm_num) (by norm_num) (by norm_num)]
  rw [roundHalfEven_of_floor _ 5859374999999999 (by norm_num) (by norm_num)]
  norm_num

theorem float64_odd_second :
    float64 (4611686021000000000 : ℚ) = 4611686020999999488 := by
  rw [float64_of_bounds _ 62 (by norm_num) (by norm_num) (by norm_num)]
  rw [roundHalfEven_of_floor _ 4503599629882812 (by norm_num) (by norm_num)]
  norm_num

theorem float64_below_second :
    float64 ((4611686020999999488 : ℚ) / 1000000000) = 4611686021 - 1 / 2 ^ 20 := by
  rw [float64_of_bounds _ 32 (by norm_num) (by norm_num) (by norm_num)]
  rw [roundHalfEven_of_floor _ 4835703281156095 (by norm_num) (by norm_num)]
  norm_num

theorem float64_thousand : float64 (1000 : ℚ) = 1000 := by
  have := float64_natCast 1000 (by norm_num)
  simpa using this

theorem float64_million : float64 (1000000 : ℚ) = 1000000 := by
  have := float64_natCast 1000000 (by norm_num)
  simpa using this

theorem float64_billion : float64 (1000000000 : ℚ) = 1000000000 := by
  have := float64_natCast 1000000000 (by norm_num)
  simpa using this

theorem float64_between (q : ℚ) (U : ℕ) (hU : U < 2 ^ 33) (h1 : (U : ℚ) ≤ q)
    (h2 : q ≤ (U : ℚ) + 1 - 1 / 2 ^ 20) :
    (U : ℚ) ≤ float64 q ∧ float64 q < (U : ℚ) + 1 := by
  have hU0 : (0 : ℚ) ≤ (U : ℚ) := by positivity
  constructor
  · have := float64_mono (U : ℚ) q hU0 h1
    rwa [float64_natCast U (by omega)] at this
  · have hz : (((U + 1) * 2 ^ 20 - 1 : ℕ) : ℚ) * 2 ^ (-20 : ℤ) = (U : ℚ) + 1 - 1 / 2 ^ 20 := by
      have hge : 1 ≤ (U + 1) * 2 ^ 20 := by omega
      rw [Nat.cast_sub hge]
      push_cast
      rw [zpow_neg]
      norm_num
      ring
    have hex := float64_exact ((U + 1) * 2 ^ 20 - 1) (-20) (by omega)
    rw [hz] at hex
    have := float64_mono q _ (le_trans hU0 h1) h2
    rw [hex] at this
    have hpos : (0 : ℚ) < 1 / 2 ^ 20 := by positivity
    linarith

theorem float64_between_closed (q : ℚ) (U : ℕ) (hU : U + 1 < 2 ^ 53) (h1 : (U : ℚ) ≤ q)
    (h2 : q ≤ (U : ℚ) + 1) :
    (U : ℚ) ≤ float64 q ∧ float64 q ≤ (U : ℚ) + 1 := by
  have hU0 : (0 : ℚ) ≤ (U : ℚ) := by positivity
  constructor
  · have := float64_mono (U : ℚ) q hU0 h1
    rwa [float64_natCast U (by omega)] at this
  · have := float64_mono q ((U + 1 : ℕ) : ℚ) (le_trans hU0 h1) (by push_cast; exact h2)
    rw [float64_natCast (U + 1) hU] at this
    push_cast at this
    exact this

/-- The conversion `float64(tm)` of a count of nanoseconds below 2^62 lies
between the full seconds around it. -/
theorem float64_nano_between (n : ℕ) (h62 : n < 2 ^ 62) :
    ((n / 1000000000 : ℕ) : ℚ) * 1000000000 ≤ float64 (n : ℚ)
    ∧ float64 (n : ℚ) ≤ (((n / 1000000000 : ℕ) : ℚ) + 1) * 1000000000 := by
  set U := n / 1000000000 with hUdef
  have hU : U ≤ 4611686018 := by omega
  have hn0 : (0 : ℚ) ≤ (n : ℚ) := by positivity
  constructor
  · have hex := float64_exact (U * 1953125) 9 (by omega)
    have e : ((U * 1953125 : ℕ) : ℚ) * 2 ^ (9 : ℤ) = (U : ℚ) * 1000000000 := by
      push_cast
      norm_num
      ring
    rw [e] at hex
    have hle : (U : ℚ) * 1000000000 ≤ (n : ℚ) := by
      have : U * 1000000000 ≤ n := by omega
      exact_mod_cast this
    have := float64_mono _ _ (by positivity) hle
    rwa [hex] at this
  · rcases Nat.lt_or_ge U 4611686018 with hlt | hge
    · have hex := float64_exact ((U + 1) * 1953125) 9 (by omega)
      have e : (((U + 1) * 1953125 : ℕ) : ℚ) * 2 ^ (9 : ℤ) = ((U : ℚ) + 1) * 1000000000 := by
        push_cast
        norm_num
        ring
      rw [e] at hex
      have hle : (n : ℚ) ≤ ((U : ℚ) + 1) * 1000000000 := by
        have : n ≤ (U + 1) * 1000000000 := by omega
        exact_mod_cast this
      have := float64_mono _ _ hn0 hle
      rwa [hex] at this
    · have hex := float64_exact 1 62 (by norm_num)
      have e : ((1 : ℕ) : ℚ) * 2 ^ (62 : ℤ) = 4611686018427387904 := by norm_num
      rw [e] at hex
      have hle : (n : ℚ) ≤ 4611686018427387904 := by
        have : n ≤ 4611686018427387904 := by omega
        exact_mod_cast this
      have := float64_mono _ _ hn0 hle
      rw [hex] at this
      have hUq : (4611686018 : ℚ) ≤ (U : ℚ) := by exact_mod_cast hge
      linarith

/-- C25, the claim as stated fails: at the level nano the instant one
nanosecond before the second 1500000000 has the time stamp 1500000000, which
is the Unix second of the instant plus one and so not below it; and at a full
second late in the range of 64 bits the time stamp is below the Unix second of
the instant. -/
theorem gelf_timestamp_reaches_next_second :
    gelfTimeStamp { Time := { StampLevel := TIME_STAMP_LEVEL_NANO } } 1499999999999999999
        = 1500000000
    ∧ Int.fdiv 1499999999999999999 1000000000 = 1499999999
    ∧ gelfTimeStamp { Time := { StampLevel := TIME_STAMP_LEVEL_NANO } } 4611686021000000000
        = 4611686021 - 1 / 2 ^ 20
    ∧ Int.fdiv 4611686021000000000 1000000000 = 4611686021
    ∧ (4611686021000000000 : Int) < 2 ^ 63 := by
  have hlev : ∀ tm : Int, gelfTimeStamp { Time := { StampLevel := TIME_STAMP_LEVEL_NANO } } tm
      = float64 (float64 (tm : ℚ) / float64 1000000000) := by
    intro tm
    simp [gelfTimeStamp, gelfTimeStampLevel, timeStampLevel, TIME_STAMP_LEVEL_NANO,
      TIME_STAMP_LEVEL_MILLI, TIME_STAMP_LEVEL_MICRO, TIME_STAMP_LEVEL_DEFAULT]
  refine ⟨?_, by norm_num [Int.fdiv_eq_ediv], ?_, by norm_num [Int.fdiv_eq_ediv], by norm_num⟩
  · rw [hlev, float64_billion]
    have e : (((1499999999999999999 : ℤ) : ℚ)) = 1499999999999999999 := by norm_num
    rw [e, float64_before_second]
    have := float64_natCast 1500000000 (by norm_num)
    norm_num at this ⊢
    exact this
  · rw [hlev, float64_billion]
    have e : (((4611686021000000000 : ℤ) : ℚ)) = 4611686021000000000 := by norm_num
    rw [e, float64_odd_second, float64_below_second]

/-- C25 as amended: for every instant at or after the Unix epoch whose count of
nanoseconds is below 2^62, the time stamp of the GELF envelope, the `float64`
of the code read as a rational, is at the level milli the `float64` nearest to
the count of milliseconds divided by 1000 and at the level micro the `float64`
nearest to the count of microseconds divided by 1000000, both at least the Unix
second of the instant and below the next second; at the level nano it is the
`float64` quotient of the converted count of nanoseconds by 1000000000, at
least the Unix second and at most the next second; at the default level it is
the Unix second. -/
theorem gelf_timestamp_float (f : Formatter) (nano : Int) (h0 : 0 ≤ nano)
    (h62 : nano < 2 ^ 62) :
    (f.Time.StampLevel = TIME_STAMP_LEVEL_MILLI →
      gelfTimeStamp f nano = float64 (((nano / 1000000 : Int) : ℚ) / 1000)
      ∧ ((Int.fdiv nano 1000000000 : Int) : ℚ) ≤ gelfTimeStamp f nano
      ∧ gelfTimeStamp f nano < ((Int.fdiv nano 1000000000 : Int) : ℚ) + 1)
    ∧ (f.Time.StampLevel = TIME_STAMP_LEVEL_MICRO →
      gelfTimeStamp f nano = float64 (((nano / 1000 : Int) : ℚ) / 1000000)
      ∧ ((Int.fdiv nano 1000000000 : Int) : ℚ) ≤ gelfTimeStamp f nano
      ∧ gelfTimeStamp f nano < ((Int.fdiv nano 1000000000 : Int) : ℚ) + 1)
    ∧ (f.Time.StampLevel = TIME_STAMP_LEVEL_NANO →
      gelfTimeStamp f nano = float64 (float64 (nano : ℚ) / 1000000000)
      ∧ ((Int.fdiv nano 1000000000 : Int) : ℚ) ≤ gelfTimeStamp f nano
      ∧ gelfTimeStamp f nano ≤ ((Int.fdiv nano 1000000000 : Int) : ℚ) + 1)
    ∧ (f.Time.StampLevel = TIME_STAMP_LEVEL_DEFAULT →
      gelfTimeStamp f nano = ((Int.fdiv nano 1000000000 : Int) : ℚ)) := by
  obtain ⟨n, rfl⟩ := Int.eq_ofNat_of_zero_le h0
  have hn : n < 2 ^ 62 := by exact_mod_cast h62
  have hu : Int.fdiv (n : Int) 1000000000 = ((n / 1000000000 : ℕ) : Int) := by
    rw [Int.fdiv_eq_ediv _ (by decide)]
    rfl
  have hm : Int.tdiv (n : Int) 1000000 = ((n / 1000000 : ℕ) : Int) := by
    rw [Int.tdiv_eq_ediv (by omega) (by decide)]
    rfl
  have hc : Int.tdiv (n : Int) 1000 = ((n / 1000 : ℕ) : Int) := by
    rw [Int.tdiv_eq_ediv (by omega) (by decide)]
    rfl
  have em : ((n : Int) / 1000000 : Int) = ((n / 1000000 : ℕ) : Int) := rfl
  have ec : ((n : Int) / 1000 : Int) = ((n / 1000 : ℕ) : Int) := rfl
  rw [hu, em, ec]
  simp only [Int.cast_natCast]
  have hUlt : n / 1000000000 < 2 ^ 33 := by omega
  refine ⟨?_, ?_, ?_, ?_⟩
  · intro hl
    have hts : gelfTimeStamp f (n : Int) = float64 (((n / 1000000 : ℕ) : ℚ) / 1000) := by
      unfold gelfTimeStamp gelfTimeStampLevel timeStampLevel
      rw [hl]
      simp only [TIME_STAMP_LEVEL_MILLI, TIME_STAMP_LEVEL_DEFAULT, TIME_STAMP_LEVEL_MICRO,
        TIME_STAMP_LEVEL_NANO]
      norm_num
      rw [hm, float64_thousand]
      simp only [Int.cast_natCast]
      rw [float64_natCast _ (by omega)]
    refine ⟨hts, ?_⟩
    rw [hts]
    apply float64_between _ _ hUlt
    · rw [le_div_iff₀ (by norm_num)]
      have : n / 1000000000 * 1000 ≤ n / 1000000 := by omega
      exact_mod_cast this
    · have : n / 1000000 ≤ n / 1000000000 * 1000 + 999 := by omega
      have hq : ((n / 1000000 : ℕ) : ℚ) ≤ ((n / 1000000000 : ℕ) : ℚ) * 1000 + 999 := by
        exact_mod_cast this
      rw [div_le_iff₀ (by norm_num)]
      have : ((n / 1000000000 : ℕ) : ℚ) * 1000 + 999
          ≤ (((n / 1000000000 : ℕ) : ℚ) + 1 - 1 / 2 ^ 20) * 1000 := by
        norm_num
        linarith
      linarith
  · intro hl
    have hts : gelfTimeStamp f (n : Int) = float64 (((n / 1000 : ℕ) : ℚ) / 1000000) := by
      unfold gelfTimeStamp gelfTimeStampLevel timeStampLevel
      rw [hl]
      simp only [TIME_STAMP_LEVEL_MILLI, TIME_STAMP_LEVEL_DEFAULT, TIME_STAMP_LEVEL_MICRO,
        TIME_STAMP_LEVEL_NANO]
      norm_num
      rw [hc, float64_million]
      simp only [Int.cast_natCast]
      rw [float64_natCast _ (by omega)]
    refine ⟨hts, ?_⟩
    rw [hts]
    apply float64_between _ _ hUlt
    · rw [le_div_iff₀ (by norm_num)]
      have : n / 1000000000 * 1000000 ≤ n / 1000 := by omega
      exact_mod_cast this
    · have : n / 1000 ≤ n / 1000000000 * 1000000 + 999999 := by omega
      have hq : ((n / 1000 : ℕ) : ℚ) ≤ ((n / 1000000000 : ℕ) : ℚ) * 1000000 + 999999 := by
        exact_mod_cast this
      rw [div_le_iff₀ (by norm_num)]
      have : ((n / 1000000000 : ℕ) : ℚ) * 1000000 + 999999
          ≤ (((n / 1000000000 : ℕ) : ℚ) + 1 - 1 / 2 ^ 20) * 1000000 := by
        norm_num
        linarith
      linarith
  · intro hl
    have hts : gelfTimeStamp f (n : Int) = float64 (float64 (n : ℚ) / 1000000000) := by
      unfold gelfTimeStamp gelfTimeStampLevel timeStampLevel
      rw [hl]
      simp only [TIME_STAMP_LEVEL_MILLI, TIME_STAMP_LEVEL_DEFAULT, TIME_STAMP_LEVEL_MICRO,
        TIME_STAMP_LEVEL_NANO]
      norm_num
      rw [float64_billion]
    have hts2 : gelfTimeStamp f (n : Int) = float64 (float64 (((n : Int) : ℚ)) / 1000000000) := by
      rw [hts]
      simp only [Int.cast_natCast]
    refine ⟨hts2, ?_⟩
    rw [hts]
    obtain ⟨hlo, hhi⟩ := float64_nano_between n hn
    apply float64_between_closed _ _ (by omega)
    · rw [le_div_iff₀ (by norm_num)]
      exact hlo
    · rw [div_le_iff₀ (by norm_num)]
      exact hhi
  · intro hl
    unfold gelfTimeStamp gelfTimeStampLevel timeStampLevel
    rw [hl]
    simp only [TIME_STAMP_LEVEL_MILLI, TIME_STAMP_LEVEL_DEFAULT, TIME_STAMP_LEVEL_MICRO,
      TIME_STAMP_LEVEL_NANO]
    norm_num
    rw [hu]
    simp only [Int.cast_natCast]
    exact float64_natCast _ (by omega)

theorem gelf_timestamp_float_witness :
    gelfTimeStamp { Time := { StampLevel := TIME_STAMP_LEVEL_MILLI } } 1500000000500000000
        = float64 (((1500000000500000000 / 1000000 : Int) : ℚ) / 1000)
    ∧ ((Int.fdiv 1500000000500000000 1000000000 : Int) : ℚ)
        ≤ gelfTimeStamp { Time := { StampLevel := TIME_STAMP_LEVEL_NANO } } 1500000000500000000
    ∧ gelfTimeStamp { Time := { StampLevel := TIME_STAMP_LEVEL_DEFAULT } } 1500000000500000000
        = ((Int.fdiv 1500000000500000000 1000000000 : Int) : ℚ) :=
  ⟨((gelf_timestamp_float { Time := { StampLevel := TIME_STAMP_LEVEL_MILLI } }
      1500000000500000000 (by decide) (by decide)).1 rfl).1,
   ((gelf_timestamp_float { Time := { StampLevel := TIME_STAMP_LEVEL_NANO } }
      1500000000500000000 (by decide) (by decide)).2.2.1 rfl).2.1,
   (gelf_timestamp_float { Time := { StampLevel := TIME_STAMP_LEVEL_DEFAULT } }
      1500000000500000000 (by decide) (by decide)).2.2.2 rfl⟩

end Logs

namespace Logs

/-! ## C21: the extra fields of the GELF envelope -/

theorem gelfRenamedKey_begins (f : Formatter) (key : String) :
    HasPrefix (gelfRenamedKey f key) f.Keys.PrefixSeparator = true := by
  rw [HasPrefix_iff]
  exact ⟨f.Keys.Prefix ++ f.Keys.PrefixSeparator ++ key, by
    simp [gelfRenamedKey, String.append_assoc]⟩

theorem append_left_cancel_str (p a b : String) (h : p ++ a = p ++ b) : a = b := by
  have h2 := congrArg String.data h
  simp only [String.data_append, List.append_cancel_left_eq] at h2
  exact String.ext h2

theorem gelfRenamedKey_inj (f : Formatter) (a b : String)
    (h : gelfRenamedKey f a = gelfRenamedKey f b) : a = b :=
  append_left_cancel_str _ a b h

/-- The loop leaves the value under a key that is not reserved and is not the
renamed form of a reserved key of the iteration. -/
theorem gelfRename_get_other (f : Formatter) (keys : List String) (k : String)
    (hk : gelfReserved f k = false)
    (hne : ∀ key ∈ keys, gelfReserved f key = true → gelfRenamedKey f key ≠ k) (v : Vars) :
    Vars.get (gelfRename f keys v) k = Vars.get v k := by
  induction keys generalizing v with
  | nil => rfl
  | cons key rest ih =>
    have ihr := ih (fun key hkey => hne key (List.mem_cons_of_mem _ hkey))
    unfold gelfRename
    cases hg : Vars.get v key with
    | none => exact ihr v
    | some value =>
      simp only
      by_cases hr : gelfReserved f key = true
      · rw [if_pos hr, ihr]
        have h1 : k ≠ key := fun e => by rw [e, hr] at hk; cases hk
        have h2 : k ≠ gelfRenamedKey f key := fun e => hne key (List.mem_cons_self _ _) hr e.symm
        rw [Vars.get_delete_ne _ _ _ h1, Vars.get_set_ne _ _ _ _ h2]
      · rw [if_neg hr]
        exact ihr v

/-- After the loop every key begins with the separator or is a key of the
caller that is not reserved or was not visited. -/
theorem gelfRename_keys (f : Formatter) (keys : List String) (v : Vars) (k : String)
    (h : k ∈ Vars.keys (gelfRename f keys v)) :
    HasPrefix k f.Keys.PrefixSeparator = true
      ∨ (k ∈ Vars.keys v ∧ ¬ (gelfReserved f k = true ∧ k ∈ keys)) := by
  induction keys generalizing v with
  | nil =>
    right
    exact ⟨h, fun c => by simp at c⟩
  | cons key rest ih =>
    unfold gelfRename at h
    cases hg : Vars.get v key with
    | none =>
      rw [hg] at h
      rcases ih v h with hp | ⟨hm, hn⟩
      · exact Or.inl hp
      · right
        refine ⟨hm, ?_⟩
        rintro ⟨hr, hmem⟩
        rcases List.mem_cons.1 hmem with e | e
        · rw [e] at hm
          exact (Vars.get_eq_none_iff v key).1 hg hm
        · exact hn ⟨hr, e⟩
    | some value =>
      rw [hg] at h
      simp only at h
      by_cases hr : gelfReserved f key = true
      · rw [if_pos hr] at h
        rcases ih _ h with hp | ⟨hm, hn⟩
        · exact Or.inl hp
        · rw [Vars.mem_keys_delete, Vars.mem_keys_set] at hm
          obtain ⟨hne, hm | hm⟩ := hm
          · left
            rw [hm]
            exact gelfRenamedKey_begins f key
          · right
            refine ⟨hm, ?_⟩
            rintro ⟨hr2, hmem⟩
            rcases List.mem_cons.1 hmem with e | e
            · exact hne e
            · exact hn ⟨hr2, e⟩
      · rw [if_neg hr] at h
        rcases ih v h with hp | ⟨hm, hn⟩
        · exact Or.inl hp
        · right
          refine ⟨hm, ?_⟩
          rintro ⟨hr2, hmem⟩
          rcases List.mem_cons.1 hmem with e | e
          · rw [e] at hr2
            exact hr hr2
          · exact hn ⟨hr2, e⟩

/-- The loop stores the value of a reserved key of the caller under the renamed
key, when no renamed key is itself reserved. -/
theorem gelfRename_get_renamed (f : Formatter)
    (hnr : ∀ r, gelfReserved f r = true → gelfReserved f (gelfRenamedKey f r) = false)
    (keys : List String) (hnd : keys.Nodup) (k : String) (x : ParamValue)
    (hk : gelfReserved f k = true) (hmem : k ∈ keys) (v : Vars)
    (hget : Vars.get v k = some x) :
    Vars.get (gelfRename f keys v) (gelfRenamedKey f k) = some x := by
  induction keys generalizing v with
  | nil => simp at hmem
  | cons key rest ih =>
    obtain ⟨hnotin, hnd2⟩ := List.nodup_cons.1 hnd
    unfold gelfRename
    by_cases e : key = k
    · subst e
      simp only [hget, if_pos hk]
      have hne : ∀ key2 ∈ rest, gelfReserved f key2 = true →
          gelfRenamedKey f key2 ≠ gelfRenamedKey f key := by
        intro key2 hm _ heq
        exact hnotin (gelfRenamedKey_inj f key2 key heq ▸ hm)
      rw [gelfRename_get_other f rest (gelfRenamedKey f key) (hnr key hk) hne]
      have h1 : gelfRenamedKey f key ≠ key := fun e => by
        have := hnr key hk
        rw [e, hk] at this
        cases this
      rw [Vars.get_delete_ne _ _ _ h1, Vars.get_set_self]
    · have hrest : k ∈ rest := by
        rcases List.mem_cons.1 hmem with h | h
        · exact absurd h.symm e
        · exact h
      cases hg : Vars.get v key with
      | none => exact ih hnd2 hrest v hget
      | some value =>
        simp only
        by_cases hr : gelfReserved f key = true
        · rw [if_pos hr]
          apply ih hnd2 hrest
          have h1 : k ≠ key := fun h => e h.symm
          have h2 : k ≠ gelfRenamedKey f key := fun h => by
            have := hnr key hr
            rw [← h, hk] at this
            cases this
          rw [Vars.get_delete_ne _ _ _ h1, Vars.get_set_ne _ _ _ _ h2]
          exact hget
        · rw [if_neg hr]
          exact ih hnd2 hrest v hget

theorem Vars.get_set_if (c : Prop) [Decidable c] (v : Vars) (t k : String) (x : ParamValue)
    (h : c → k ≠ t) :
    Vars.get (if c then Vars.set v t x else v) k = Vars.get v k := by
  split_ifs with hc
  · exact Vars.get_set_ne v t k x (h hc)
  · rfl

theorem gelfAddFields_get_other (f : Formatter) (v0 : Vars) (k : String)
    (h : k ∉ gelfAddedKeys f) :
    Vars.get (gelfAddFields f v0) k = Vars.get v0 k := by
  have h1 : f.Environment ≠ EMPTY_STRING →
      k ≠ f.Keys.PrefixSeparator ++ f.Keys.Names.Environment := by
    intro hc e
    apply h
    unfold gelfAddedKeys
    rw [if_pos hc, e]
    simp
  have h2 : f.Labels.String ≠ EMPTY_STRING →
      k ≠ f.Keys.PrefixSeparator ++ f.Keys.Names.Labels := by
    intro hc e
    apply h
    unfold gelfAddedKeys
    rw [if_pos hc, e]
    simp
  have h3 : f.Tag ≠ EMPTY_STRING → k ≠ f.Keys.PrefixSeparator ++ f.Keys.Names.Tag := by
    intro hc e
    apply h
    unfold gelfAddedKeys
    rw [if_pos hc, e]
    simp
  unfold gelfAddFields
  simp only
  rw [Vars.get_set_if _ _ _ _ _ h3, Vars.get_set_if _ _ _ _ _ h2, Vars.get_set_if _ _ _ _ _ h1]

theorem gelfAddFields_keys (f : Formatter) (v0 : Vars) (k : String)
    (h : k ∈ Vars.keys (gelfAddFields f v0)) :
    HasPrefix k f.Keys.PrefixSeparator = true ∨ k ∈ Vars.keys v0 := by
  have hp : ∀ name : String, HasPrefix (f.Keys.PrefixSeparator ++ name) f.Keys.PrefixSeparator
      = true := fun name => (HasPrefix_iff _ _).2 ⟨name, rfl⟩
  unfold gelfAddFields at h
  simp only at h
  split_ifs at h
  all_goals try simp only [Vars.mem_keys_set] at h
  all_goals
    first
    | exact Or.inr h
    | (rcases h with h | h | h | h
       · exact Or.inl (h ▸ hp _)
       · exact Or.inl (h ▸ hp _)
       · exact Or.inl (h ▸ hp _)
       · exact Or.inr h)
    | (rcases h with h | h | h
       · exact Or.inl (h ▸ hp _)
       · exact Or.inl (h ▸ hp _)
       · exact Or.inr h)
    | (rcases h with h | h
       · exact Or.inl (h ▸ hp _)
       · exact Or.inr h)

/-- C21, the claim as stated fails: a field of the caller whose key is not one
of the three reserved names is serialised under its own key, without an
underscore, and a field of the caller under a key that `build` adds is
overwritten. A GELF logger from `NewGELF` with the default keys, environment
prod and tag t, called with the fields user and _env, serialises the key user
and puts prod under _env, where the caller had mine. -/
theorem gelf_extra_keys_not_all_prefixed :
    GELF.buildExtra (exampleGELFLogger (exampleGELFFormat "prod" "" "t"))
        (some [("user", .str "u"), ("tag", .int 1), ("_env", .str "mine")])
      = some [("user", .str "u"), ("_fields_tag", .int 1), ("_env", .str "prod"),
          ("_tag", .str "t")]
    ∧ (exampleGELFFormat "prod" "" "t").Keys.PrefixSeparator = "_"
    ∧ HasPrefix "user" "_" = false := by
  decide

/-- C21 as amended: in the extra-field object that `GELF.build` serialises,
every key begins with the separator of the formatter (an underscore after
`NewGELF` with the default keys) or is a key of the caller that is not one of
the reserved names labels, environment and tag; without fields of the caller
every key begins with the separator. A field of the caller whose key is not
reserved is present under its own key, unchanged, unless `build` itself
assigns that key (as the renamed key of a reserved key of the caller, or as
the key of the environment, labels or tag of the formatter). A field of the
caller under a reserved name is present under the separator, the prefix, the
separator and its key, when the field set has no repeated key, no renamed key
is itself a reserved name, and `build` does not assign that key after the
loop. -/
theorem gelf_extra_keys (f : Formatter) (v : Vars) :
    (∀ k ∈ Vars.keys (gelfBuildExtra f (some v)),
      HasPrefix k f.Keys.PrefixSeparator = true
        ∨ (k ∈ Vars.keys v ∧ gelfReserved f k = false))
    ∧ (∀ k ∈ Vars.keys (gelfBuildExtra f none), HasPrefix k f.Keys.PrefixSeparator = true)
    ∧ (∀ k x, Vars.get v k = some x → gelfReserved f k = false →
        k ∉ gelfWrittenKeys f v →
        Vars.get (gelfBuildExtra f (some v)) k = some x)
    ∧ ((∀ r, gelfReserved f r = true → gelfReserved f (gelfRenamedKey f r) = false) →
        (Vars.keys v).Nodup →
        ∀ k x, Vars.get v k = some x → gelfReserved f k = true →
          gelfRenamedKey f k ∉ gelfAddedKeys f →
          Vars.get (gelfBuildExtra f (some v)) (gelfRenamedKey f k) = some x) := by
  refine ⟨?_, ?_, ?_, ?_⟩
  · intro k hk
    rcases gelfAddFields_keys f _ k hk with h | h
    · exact Or.inl h
    · rcases gelfRename_keys f (Vars.keys v) v k h with h2 | ⟨hm, hn⟩
      · exact Or.inl h2
      · right
        refine ⟨hm, ?_⟩
        cases hr : gelfReserved f k with
        | false => rfl
        | true => exact absurd ⟨hr, hm⟩ hn
  · intro k hk
    rcases gelfAddFields_keys f _ k hk with h | h
    · exact h
    · simp [Vars.keys] at h
  · intro k x hget hres hw
    unfold gelfWrittenKeys at hw
    rw [List.mem_append, not_or] at hw
    unfold gelfBuildExtra
    simp only
    rw [gelfAddFields_get_other f _ k hw.2]
    rw [gelfRename_get_other f (Vars.keys v) k hres ?_ v]
    · exact hget
    · intro key hkey hr e
      apply hw.1
      rw [List.mem_map]
      exact ⟨key, List.mem_filter.2 ⟨hkey, hr⟩, e⟩
  · intro hnr hnd k x hget hres hadd
    have hmem : k ∈ Vars.keys v := by
      by_contra hc
      rw [(Vars.get_eq_none_iff v k).2 hc] at hget
      cases hget
    unfold gelfBuildExtra
    simp only
    rw [gelfAddFields_get_other f _ _ hadd]
    exact gelfRename_get_renamed f hnr (Vars.keys v) hnd k x hres hmem v hget

theorem gelf_extra_keys_witness :
    Vars.get (gelfBuildExtra (exampleGELFFormat "prod" "" "t")
        (some [("user", .str "u"), ("_foo", .int 7), ("tag", .int 1), ("_env", .str "mine")]))
        "_foo"
      = some (.int 7)
    ∧ Vars.get (gelfBuildExtra (exampleGELFFormat "prod" "" "t")
        (some [("user", .str "u"), ("_foo", .int 7), ("tag", .int 1), ("_env", .str "mine")]))
        (gelfRenamedKey (exampleGELFFormat "prod" "" "t") "tag")
      = some (.int 1)
    ∧ gelfRenamedKey (exampleGELFFormat "prod" "" "t") "tag" = "_fields_tag" :=
  ⟨(gelf_extra_keys (exampleGELFFormat "prod" "" "t")
      [("user", .str "u"), ("_foo", .int 7), ("tag", .int 1), ("_env", .str "mine")]).2.2.1
      "_foo" (.int 7) (by decide) (by decide) (by decide),
   (gelf_extra_keys (exampleGELFFormat "prod" "" "t")
      [("user", .str "u"), ("_foo", .int 7), ("tag", .int 1), ("_env", .str "mine")]).2.2.2
      (by
        intro r hr
        have hc : r = "labels" ∨ r = "env" ∨ r = "tag" := by
          simpa [gelfReserved, exampleGELFFormat, defaultKeysPrefix, or_assoc] using hr
        rcases hc with h | h | h <;> subst h <;> decide)
      (by decide) "tag" (.int 1) (by decide) (by decide) (by decide),
   by decide⟩

end Logs
